import Mathlib

/-!
# Histogram equalisation on an OpenCL device: host pipelines of CMP3752

The repository holds three near-identical host programs

* `cmp3752_assessment/Assessment 1/main.cpp`            (namespace `Assessment`)
* `cmp3752_image_processing-main/Assessment 1/main.cpp` (namespace `ImageProcessing`)
* `thisOne/Assessment 1/main.cpp`                       (namespace `ThisOne`)

Each one has three stage functions (histogram builder, cumulative transform,
pixel remapper) and a `main` that runs them in sequence.  A stage allocates
device buffers, uploads host data, dispatches one kernel and reads the result
back.  The stages are embedded as computations over an explicit device state
(`Device`): every API call can raise a `cl::Error`, which is how the C++
bindings report a failure.  The kernel source `kernels.cl` is not part of the
sources; the host functions therefore take the compiled program as a
parameter, and a model of the kernels written from the specification is
given separately (`specProgram`).

The stage functions come twice.  The first embedding passes the image and the
histogram as values.  The second (`HostMemory`) keeps them as objects of the
host memory, with the copies that passing by value makes and the host array
that each transfer reads or overwrites; it is the one in which a stage could
change the image of its caller, and it is proved to compute what the first
computes.

Left out of the embedding: the parsing of the command line, the loading of
the image file, the display windows, the creation of the context and of the
command queue, and the profiling report printed by `cmp3752_assessment`.

Integer conventions: buffer cells hold machine integers (`int` counters or
`unsigned char` samples) and are modelled as `Int`; the host code performs no
arithmetic on them.  The cumulate kernels of the specification reduce their
sums to 32 bits (`toInt32`), and the results on the cumulative transform are
stated for histograms whose block totals fit an `int`.  The increments of the
histogram kernel and the products of the remap kernel are not reduced: they
stay far below 2^31 on the images they are evaluated on.  Host sizes are
`size_t` values, modelled as `Nat`.
-/

namespace HistEq

/-! ## The device -/

/-- Error codes carried by `cl::Error`. -/
inductive ClError where
  | CL_INVALID_BUFFER_SIZE
  | CL_INVALID_KERNEL_NAME
  | CL_INVALID_VALUE
  | CL_INVALID_GLOBAL_WORK_SIZE
  | CL_BUILD_PROGRAM_FAILURE
  | CL_MEM_OBJECT_ALLOCATION_FAILURE
  | CL_OUT_OF_RESOURCES
  | CL_OUT_OF_HOST_MEMORY
  deriving DecidableEq

/-- Access flags given to the `cl::Buffer` constructor. -/
inductive MemFlags where
  | CL_MEM_READ_ONLY
  | CL_MEM_WRITE_ONLY
  | CL_MEM_READ_WRITE
  deriving DecidableEq

/-- The device API calls made by the host programs. -/
inductive Call where
  | build
  | createBuffer (flags : MemFlags) (bytes : Nat)
  | enqueueWriteBuffer (buffer : Nat) (bytes : Nat)
  | createKernel (name : String)
  | enqueueNDRangeKernel (name : String) (args : List Nat) (global : Nat)
  | enqueueReadBuffer (buffer : Nat) (bytes : Nat)
  deriving DecidableEq

/-- Device memory: cell `i` of the buffer with handle `b` is `mem b i`. -/
abbrev Mem : Type := Nat → Nat → Int

/-- State of the compute device as the host sees it.

* `mem` is the device memory.  Creating a buffer does not write to it: a new
  buffer holds whatever its memory held before.
* `size b` is the byte size of buffer `b`; handles `0 .. count - 1` are allocated.
* `fault n` is the failure, when there is one, that the device reports at the
  `n`-th API call (out of memory, lost device, ...).
* `rejectsEmptyRange` tells whether the platform rejects a dispatch over 0
  work items (OpenCL before 2.1) or accepts it as a no-op (2.1 and later).
* `log` lists the API calls made so far, each with the error it raised. -/
structure Device where
  mem : Mem
  size : Nat → Nat
  count : Nat
  fault : Nat → Option ClError
  rejectsEmptyRange : Bool
  log : List (Call × Option ClError)

/-- Appends one API call and its outcome to the log. -/
def Device.record (d : Device) (c : Call) (r : Option ClError) : Device :=
  { d with log := d.log ++ [(c, r)] }

/-- A host computation: from a device state to a value or a thrown
`cl::Error`, and the device state left behind. -/
def CL (α : Type) : Type := Device → Except ClError α × Device

instance : Monad CL where
  pure a := fun d => (Except.ok a, d)
  bind m f := fun d =>
    match m d with
    | (Except.ok a, d1) => f a d1
    | (Except.error e, d1) => (Except.error e, d1)

/-- One API call: the device may report a fault; otherwise `step` performs the
call, which may itself be rejected.  The call is logged with its outcome. -/
def call {α : Type} (c : Call) (step : Device → Except ClError (α × Device)) : CL α :=
  fun d =>
    match d.fault d.log.length with
    | some e => (Except.error e, d.record c (some e))
    | none =>
      match step d with
      | Except.error e => (Except.error e, d.record c (some e))
      | Except.ok (a, d1) => (Except.ok a, { d1 with log := d.log ++ [(c, none)] })

/-- Semantics of a compiled kernel: from the buffers bound to its arguments
and the global work size, a transformation of device memory. -/
abbrev KernelFn : Type := List Nat → Nat → Mem → Mem

/-- The program compiled from `kernels.cl`: whether it builds, and the kernels it defines. -/
structure Program where
  builds : Bool
  kernels : String → Option KernelFn

/-- A `cl::Kernel` object: a kernel of the program and the buffers bound so far. -/
structure Kernel where
  name : String
  fn : KernelFn
  args : List Nat

/-- `sizeof(int)` on the host. -/
def sizeof_int : Nat := 4

/-- `sizeof(unsigned char)`. -/
def sizeof_uchar : Nat := 1

/-- `program.build()`. -/
def Program.build (program : Program) : CL Unit :=
  call Call.build fun d =>
    if program.builds then Except.ok ((), d) else Except.error ClError.CL_BUILD_PROGRAM_FAILURE

/-- `cl::Buffer(context, flags, bytes)`: a request for 0 bytes is rejected with
`CL_INVALID_BUFFER_SIZE`; otherwise the next handle is returned. -/
def Buffer.create (flags : MemFlags) (bytes : Nat) : CL Nat :=
  call (Call.createBuffer flags bytes) fun d =>
    if bytes = 0 then Except.error ClError.CL_INVALID_BUFFER_SIZE
    else Except.ok (d.count,
      { d with size := fun b => if b = d.count then bytes else d.size b, count := d.count + 1 })

/-- Device memory after the first `n` cells of buffer `buffer` are overwritten
with the host elements `ptr[0 .. n-1]`. -/
def writeCells (mem : Mem) (buffer n : Nat) (ptr : List Int) : Mem :=
  fun b i => if b = buffer ∧ i < n then ptr.getD i 0 else mem b i

/-- The first `n` cells of buffer `buffer`. -/
def readCells (mem : Mem) (buffer n : Nat) : List Int :=
  (List.range n).map (mem buffer)

/-- `queue.enqueueWriteBuffer(buffer, CL_TRUE, 0, bytes, ptr)`, where `ptr`
points to host elements of `elem` bytes each: copies `bytes / elem` cells.
A transfer that does not fit the buffer is rejected. -/
def enqueueWriteBuffer (buffer bytes elem : Nat) (ptr : List Int) : CL Unit :=
  call (Call.enqueueWriteBuffer buffer bytes) fun d =>
    if buffer < d.count ∧ bytes ≤ d.size buffer then
      Except.ok ((), { d with mem := writeCells d.mem buffer (bytes / elem) ptr })
    else Except.error ClError.CL_INVALID_VALUE

/-- `cl::Kernel(program, name)`. -/
def Kernel.create (program : Program) (name : String) : CL Kernel :=
  call (Call.createKernel name) fun d =>
    match program.kernels name with
    | some fn => Except.ok ({ name := name, fn := fn, args := [] }, d)
    | none => Except.error ClError.CL_INVALID_KERNEL_NAME

/-- `kernel.setArg(index, buffer)`. -/
def Kernel.setArg (kernel : Kernel) (index buffer : Nat) : Kernel :=
  { kernel with args := kernel.args.take index ++ [buffer] ++ kernel.args.drop (index + 1) }

/-- `queue.enqueueNDRangeKernel(kernel, cl::NullRange, cl::NDRange(global), cl::NullRange)`
on the in-order queue: the kernel runs over `global` work items.  A range of
0 work items is rejected with `CL_INVALID_GLOBAL_WORK_SIZE` by platforms
before OpenCL 2.1 and is a no-op on later ones. -/
def enqueueNDRangeKernel (kernel : Kernel) (global : Nat) : CL Unit :=
  call (Call.enqueueNDRangeKernel kernel.name kernel.args global) fun d =>
    if global = 0 ∧ d.rejectsEmptyRange = true then
      Except.error ClError.CL_INVALID_GLOBAL_WORK_SIZE
    else Except.ok ((), { d with mem := kernel.fn kernel.args global d.mem })

/-- `queue.enqueueReadBuffer(buffer, CL_TRUE, 0, bytes, ptr)`, where `ptr`
points to the host array `dst` of `elem`-byte elements: the first
`bytes / elem` elements of `dst` are overwritten with the buffer's cells.
The result is the host array after the call. -/
def enqueueReadBuffer (buffer bytes elem : Nat) (dst : List Int) : CL (List Int) :=
  call (Call.enqueueReadBuffer buffer bytes) fun d =>
    if buffer < d.count ∧ bytes ≤ d.size buffer then
      Except.ok (readCells d.mem buffer (bytes / elem) ++ dst.drop (bytes / elem), d)
    else Except.error ClError.CL_INVALID_VALUE

/-! ## Images -/

/-- Modelled from the spec: the type `CImg<unsigned char>`, whose header
`CImg.h` is missing.  Spec 3: an image has a width, a height, a channel count
(`spectrum`) and a contiguous buffer of 8-bit unsigned samples, one for each
position and channel; the host code also reads `depth()`, the fourth
dimension of the buffer. -/
structure CImg where
  width : Nat
  height : Nat
  depth : Nat
  spectrum : Nat
  data : List Nat
  data_size : data.length = width * height * depth * spectrum

/-- `img.size()`, the number of samples. -/
def CImg.size (img : CImg) : Nat := img.width * img.height * img.depth * img.spectrum

/-- The empty image. -/
def CImg.empty : CImg :=
  { width := 0, height := 0, depth := 0, spectrum := 0, data := [], data_size := rfl }

/-- The `unsigned char` held by a device cell: its value modulo 256. -/
def toUChar (x : Int) : Nat := (x % 256).toNat

/-- Modelled from the spec: the constructor
`CImg<unsigned char>(values, size_x, size_y, size_z, size_c)` of the missing
header `CImg.h`, which copies `size_x * size_y * size_z * size_c` samples
from `values`; with no sample to copy the result is the empty image
(spec 4.3, edge cases). -/
def CImg.ofValues (values : List Nat) (size_x size_y size_z size_c : Nat) : CImg :=
  if size_x * size_y * size_z * size_c = 0 then CImg.empty
  else
    { width := size_x, height := size_y, depth := size_z, spectrum := size_c,
      data := (List.range (size_x * size_y * size_z * size_c)).map fun i => values.getD i 0,
      data_size := by simp }

/-- What the two windows of `main` show once the pipeline has run: the input
image (`disp_input`) and the equalised image (`disp_output`). -/
structure Displays where
  disp_input : CImg
  disp_output : CImg

/-! ## `cmp3752_assessment/Assessment 1/main.cpp` -/

namespace Assessment

/-- `create_intensity_histogram` (lines 20-44). -/
def create_intensity_histogram (program : Program) (img : CImg) : CL (List Int) := do
  let BIN_COUNT := 256
  let histogram : List Int := List.replicate (BIN_COUNT * 3) 0
  let input_buffer ← Buffer.create MemFlags.CL_MEM_READ_ONLY img.size
  let output_buffer ← Buffer.create MemFlags.CL_MEM_WRITE_ONLY (sizeof_int * histogram.length)
  enqueueWriteBuffer input_buffer img.size sizeof_uchar (img.data.map Int.ofNat)
  let kernel ← Kernel.create program "create_intensity_histogram"
  let kernel := kernel.setArg 0 input_buffer
  let kernel := kernel.setArg 1 output_buffer
  enqueueNDRangeKernel kernel (img.size / 3)
  let histogram ← enqueueReadBuffer output_buffer (sizeof_int * histogram.length) sizeof_int histogram
  return histogram

/-- `cumulate_histogram` (lines 46-66). -/
def cumulate_histogram (program : Program) (histogram : List Int) : CL (List Int) := do
  let buffer ← Buffer.create MemFlags.CL_MEM_READ_WRITE (sizeof_int * histogram.length)
  enqueueWriteBuffer buffer (sizeof_int * histogram.length) sizeof_int histogram
  let kernel ← Kernel.create program "cumulate_histogram"
  let kernel := kernel.setArg 0 buffer
  let kernel := kernel.setArg 1 buffer
  enqueueNDRangeKernel kernel (histogram.length / 3)
  let histogram ← enqueueReadBuffer buffer (sizeof_int * histogram.length) sizeof_int histogram
  return histogram

/-- `map_histogram_to_image` (lines 68-96). -/
def map_histogram_to_image (program : Program) (img : CImg) (histogram : List Int) : CL CImg := do
  let img_buffer ← Buffer.create MemFlags.CL_MEM_READ_ONLY img.size
  let hist_buffer ← Buffer.create MemFlags.CL_MEM_READ_ONLY (sizeof_int * histogram.length)
  let output_buffer ← Buffer.create MemFlags.CL_MEM_WRITE_ONLY img.size
  enqueueWriteBuffer img_buffer img.size sizeof_uchar (img.data.map Int.ofNat)
  enqueueWriteBuffer hist_buffer (sizeof_int * histogram.length) sizeof_int histogram
  let kernel ← Kernel.create program "map_cumulative_histogram_to_image"
  let kernel := kernel.setArg 0 img_buffer
  let kernel := kernel.setArg 1 hist_buffer
  let kernel := kernel.setArg 2 output_buffer
  enqueueNDRangeKernel kernel (img.size / 3)
  let output_data : List Int := List.replicate img.size 0
  let output_data ← enqueueReadBuffer output_buffer img.size sizeof_uchar output_data
  return CImg.ofValues (output_data.map toUChar) img.width img.height img.depth img.spectrum

/-- The `try` block of `main` (lines 111-131), from the loaded image to the
image handed to the output display. -/
def main_try (program : Program) (image_input : CImg) : CL CImg := do
  program.build
  let intensity_histogram ← create_intensity_histogram program image_input
  let cumulative_histogram ← cumulate_histogram program intensity_histogram
  let output_image ← map_histogram_to_image program image_input cumulative_histogram
  return output_image

/-- The whole of `main` after argument parsing: the two images on display, or
nothing when the `catch` clause reported a `cl::Error`. -/
def main (program : Program) (image_input : CImg) (d : Device) : Option Displays × Device :=
  match main_try program image_input d with
  | (Except.ok output_image, d1) =>
    (some { disp_input := image_input, disp_output := output_image }, d1)
  | (Except.error _, d1) => (none, d1)

end Assessment

/-! ## `cmp3752_image_processing-main/Assessment 1/main.cpp` -/

namespace ImageProcessing

/-- `const int COLOR_CHANNELS = 3;` -/
def COLOR_CHANNELS : Nat := 3

/-- `const int BIN_COUNT = 256;` -/
def BIN_COUNT : Nat := 256

/-- `createIntensityHistogram` (lines 24-38). -/
def createIntensityHistogram (program : Program) (from_ : CImg) : CL (List Int) := do
  let inputBuffer ← Buffer.create MemFlags.CL_MEM_READ_ONLY from_.size
  let outputBuffer ← Buffer.create MemFlags.CL_MEM_READ_WRITE (BIN_COUNT * COLOR_CHANNELS * sizeof_int)
  enqueueWriteBuffer inputBuffer from_.size sizeof_uchar (from_.data.map Int.ofNat)
  let kernel ← Kernel.create program "create_intensity_histogram"
  let kernel := kernel.setArg 0 inputBuffer
  let kernel := kernel.setArg 1 outputBuffer
  enqueueNDRangeKernel kernel (from_.size / COLOR_CHANNELS)
  let histogram : List Int := List.replicate (BIN_COUNT * COLOR_CHANNELS) 0
  let histogram ← enqueueReadBuffer outputBuffer (BIN_COUNT * COLOR_CHANNELS * sizeof_int) sizeof_int histogram
  return histogram

/-- `cumulateHistogram` (lines 40-55). -/
def cumulateHistogram (program : Program) (histogram : List Int) : CL (List Int) := do
  let bufferSize := histogram.length * sizeof_int
  let inputBuffer ← Buffer.create MemFlags.CL_MEM_READ_WRITE bufferSize
  let outputBuffer ← Buffer.create MemFlags.CL_MEM_READ_WRITE bufferSize
  enqueueWriteBuffer inputBuffer bufferSize sizeof_int histogram
  let kernel ← Kernel.create program "cumulate_histogram"
  let kernel := kernel.setArg 0 inputBuffer
  let kernel := kernel.setArg 1 outputBuffer
  enqueueNDRangeKernel kernel (histogram.length / COLOR_CHANNELS)
  let cumulativeHistogram : List Int := List.replicate histogram.length 0
  let cumulativeHistogram ← enqueueReadBuffer outputBuffer bufferSize sizeof_int cumulativeHistogram
  return cumulativeHistogram

/-- `mapCumulativeHistogramToImage` (lines 57-75). -/
def mapCumulativeHistogramToImage (program : Program) (inputImage : CImg)
    (cumulativeHistogram : List Int) : CL CImg := do
  let inputImageBuffer ← Buffer.create MemFlags.CL_MEM_READ_ONLY inputImage.size
  let inputHistogramBuffer ←
    Buffer.create MemFlags.CL_MEM_READ_ONLY (cumulativeHistogram.length * sizeof_int)
  let outputBuffer ← Buffer.create MemFlags.CL_MEM_READ_WRITE inputImage.size
  enqueueWriteBuffer inputImageBuffer inputImage.size sizeof_uchar (inputImage.data.map Int.ofNat)
  enqueueWriteBuffer inputHistogramBuffer (cumulativeHistogram.length * sizeof_int) sizeof_int
    cumulativeHistogram
  let kernel ← Kernel.create program "map_cumulative_histogram_to_image"
  let kernel := kernel.setArg 0 inputImageBuffer
  let kernel := kernel.setArg 1 inputHistogramBuffer
  let kernel := kernel.setArg 2 outputBuffer
  enqueueNDRangeKernel kernel (inputImage.size / COLOR_CHANNELS)
  let imageData : List Int := List.replicate inputImage.size 0
  let imageData ← enqueueReadBuffer outputBuffer inputImage.size sizeof_uchar imageData
  let outputImage := CImg.ofValues (imageData.map toUChar) inputImage.width inputImage.height
    inputImage.depth inputImage.spectrum
  return outputImage

/-- The `try` block of `main` (lines 89-110). -/
def main_try (program : Program) (inputImage : CImg) : CL CImg := do
  program.build
  let histogram ← createIntensityHistogram program inputImage
  let cumulativeHistogram ← cumulateHistogram program histogram
  let outputImage ← mapCumulativeHistogramToImage program inputImage cumulativeHistogram
  return outputImage

/-- The whole of `main` after argument parsing: the two images on display, or
nothing when a `catch` clause reported the error. -/
def main (program : Program) (inputImage : CImg) (d : Device) : Option Displays × Device :=
  match main_try program inputImage d with
  | (Except.ok outputImage, d1) =>
    (some { disp_input := inputImage, disp_output := outputImage }, d1)
  | (Except.error _, d1) => (none, d1)

end ImageProcessing

/-! ## `thisOne/Assessment 1/main.cpp` -/

namespace ThisOne

/-- `create_intensity_histogram` (lines 18-33). -/
def create_intensity_histogram (program : Program) (img : CImg) : CL (List Int) := do
  let BIN_COUNT := 256 * 3
  let histogram : List Int := List.replicate BIN_COUNT 0
  let img_size := img.size
  let input_buffer ← Buffer.create MemFlags.CL_MEM_READ_ONLY img_size
  let output_buffer ← Buffer.create MemFlags.CL_MEM_WRITE_ONLY (sizeof_int * histogram.length)
  enqueueWriteBuffer input_buffer img_size sizeof_uchar (img.data.map Int.ofNat)
  let kernel ← Kernel.create program "create_intensity_histogram"
  let kernel := kernel.setArg 0 input_buffer
  let kernel := kernel.setArg 1 output_buffer
  enqueueNDRangeKernel kernel (img_size / 3)
  let histogram ← enqueueReadBuffer output_buffer (sizeof_int * histogram.length) sizeof_int histogram
  return histogram

/-- `cumulate_histogram` (lines 35-46). -/
def cumulate_histogram (program : Program) (histogram : List Int) : CL (List Int) := do
  let hist_size := histogram.length
  let buffer ← Buffer.create MemFlags.CL_MEM_READ_WRITE (sizeof_int * hist_size)
  enqueueWriteBuffer buffer (sizeof_int * hist_size) sizeof_int histogram
  let kernel ← Kernel.create program "cumulate_histogram_bl"
  let kernel := kernel.setArg 0 buffer
  enqueueNDRangeKernel kernel hist_size
  let histogram ← enqueueReadBuffer buffer (sizeof_int * hist_size) sizeof_int histogram
  return histogram

/-- `map_histogram_to_image` (lines 48-66). -/
def map_histogram_to_image (program : Program) (img : CImg) (histogram : List Int) : CL CImg := do
  let img_size := img.size
  let img_buffer ← Buffer.create MemFlags.CL_MEM_READ_ONLY img_size
  let hist_buffer ← Buffer.create MemFlags.CL_MEM_READ_ONLY (sizeof_int * histogram.length)
  let output_buffer ← Buffer.create MemFlags.CL_MEM_WRITE_ONLY img_size
  enqueueWriteBuffer img_buffer img_size sizeof_uchar (img.data.map Int.ofNat)
  enqueueWriteBuffer hist_buffer (sizeof_int * histogram.length) sizeof_int histogram
  let kernel ← Kernel.create program "map_cumulative_histogram_to_image"
  let kernel := kernel.setArg 0 img_buffer
  let kernel := kernel.setArg 1 hist_buffer
  let kernel := kernel.setArg 2 output_buffer
  enqueueNDRangeKernel kernel (img_size / 3)
  let output_data : List Int := List.replicate img.size 0
  let output_data ← enqueueReadBuffer output_buffer img_size sizeof_uchar output_data
  return CImg.ofValues (output_data.map toUChar) img.width img.height img.depth img.spectrum

/-- The `try` block of `main` (lines 81-100). -/
def main_try (program : Program) (image_input : CImg) : CL CImg := do
  program.build
  let intensity_histogram ← create_intensity_histogram program image_input
  let cumulative_histogram ← cumulate_histogram program intensity_histogram
  let output_image ← map_histogram_to_image program image_input cumulative_histogram
  return output_image

/-- The whole of `main` after argument parsing: the two images on display, or
nothing when the `catch` clause reported a `cl::Error`. -/
def main (program : Program) (image_input : CImg) (d : Device) : Option Displays × Device :=
  match main_try program image_input d with
  | (Except.ok output_image, d1) =>
    (some { disp_input := image_input, disp_output := output_image }, d1)
  | (Except.error _, d1) => (none, d1)

end ThisOne

/-! ## The stages over host memory

The stage functions above take the image and the histogram as values, which
says nothing of what a stage does to the objects of its caller.  This section
embeds the same functions one level lower: images and vectors are objects of
the host memory, a parameter passed by value is a copy made on entry, and a
transfer names the host array it reads or overwrites.  Every buffer is
created without a host pointer (no `CL_MEM_USE_HOST_PTR`), so the device
reaches host memory through the transfers only.  Objects are never freed: the
destructors that run when a stage returns are left out. -/

namespace HostMemory

/-- The address handed to a transfer as its `void*` argument: the sample buffer
of an image object (`img.data()`) or the elements of a vector (`v.data()`). -/
inductive HostPtr where
  | samples (image : Nat)
  | elements (vector : Nat)
  deriving DecidableEq

/-- The objects of the host program.

* `images a` is the `CImg<unsigned char>` object at address `a`: its
  dimensions and its samples.
* `vectors a` holds the elements of the `std::vector` at address `a`
  (`int`s or `unsigned char`s).
* Addresses below `next` are taken; a new object is placed at `next`. -/
structure Host where
  images : Nat → CImg
  vectors : Nat → List Int
  next : Nat

/-- The host array that `ptr` points to. -/
def Host.read (h : Host) : HostPtr → List Int
  | HostPtr.samples image => (h.images image).data.map Int.ofNat
  | HostPtr.elements vector => h.vectors vector

/-- The image `img` once its sample buffer holds `values`, as unsigned chars. -/
def withSamples (img : CImg) (values : List Int) : CImg :=
  { width := img.width, height := img.height, depth := img.depth, spectrum := img.spectrum,
    data := (List.range (img.width * img.height * img.depth * img.spectrum)).map
      fun i => toUChar (values.getD i 0),
    data_size := by simp }

/-- Host memory once the array that `ptr` points to holds `values`. -/
def Host.store (h : Host) (ptr : HostPtr) (values : List Int) : Host :=
  match ptr with
  | HostPtr.samples image =>
    { h with images := fun a => if a = image then withSamples (h.images image) values
                                else h.images a }
  | HostPtr.elements vector =>
    { h with vectors := fun a => if a = vector then values else h.vectors a }

/-- Host memory with a new image object `img` at address `h.next`. -/
def Host.newImage (h : Host) (img : CImg) : Host :=
  { h with images := fun a => if a = h.next then img else h.images a, next := h.next + 1 }

/-- Host memory with a new vector of elements `values` at address `h.next`. -/
def Host.newVector (h : Host) (values : List Int) : Host :=
  { h with vectors := fun a => if a = h.next then values else h.vectors a, next := h.next + 1 }

/-- A host computation over host memory and the device: a value or a thrown
`cl::Error`, and the two states left behind. -/
def HostCL (α : Type) : Type := Host → Device → Except ClError α × Host × Device

instance : Monad HostCL where
  pure a := fun h d => (Except.ok a, h, d)
  bind m f := fun h d =>
    match m h d with
    | (Except.ok a, h1, d1) => f a h1 d1
    | (Except.error e, h1, d1) => (Except.error e, h1, d1)

/-- A device API call that is given no host pointer. -/
def onDevice {α : Type} (m : CL α) : HostCL α :=
  fun h d => ((m d).1, h, (m d).2)

/-- `std::vector<T> v(n)` and `std::vector<T> v(n, 0)`: a new vector of `n` zeros. -/
def vector_create (n : Nat) : HostCL Nat :=
  fun h d => (Except.ok h.next, h.newVector (List.replicate n 0), d)

/-- A `std::vector` parameter passed by value: a new vector with the elements of `v`. -/
def vector_copy (v : Nat) : HostCL Nat :=
  fun h d => (Except.ok h.next, h.newVector (h.vectors v), d)

/-- `v.size()`. -/
def vector_size (v : Nat) : HostCL Nat :=
  fun h d => (Except.ok (h.vectors v).length, h, d)

/-- Modelled from the spec: the copy constructor of `CImg<unsigned char>`
(header `CImg.h` missing), which runs when an image is passed by value.  Spec
3: an image is a value made of dimensions and a sample buffer; the copy is a
new object with the same dimensions and samples. -/
def cimg_copy (img : Nat) : HostCL Nat :=
  fun h d => (Except.ok h.next, h.newImage (h.images img), d)

/-- Modelled from the spec: the constructor
`CImg<unsigned char>(values, size_x, size_y, size_z, size_c)` of the missing
header `CImg.h`, with `values` a host pointer: a new image object holding
`CImg.ofValues` of the array pointed to. -/
def cimg_ofValues (values : HostPtr) (size_x size_y size_z size_c : Nat) : HostCL Nat :=
  fun h d => (Except.ok h.next,
    h.newImage (CImg.ofValues ((h.read values).map toUChar) size_x size_y size_z size_c), d)

/-- `img.size()`. -/
def cimg_size (img : Nat) : HostCL Nat := fun h d => (Except.ok (h.images img).size, h, d)

/-- `img.width()`. -/
def cimg_width (img : Nat) : HostCL Nat := fun h d => (Except.ok (h.images img).width, h, d)

/-- `img.height()`. -/
def cimg_height (img : Nat) : HostCL Nat := fun h d => (Except.ok (h.images img).height, h, d)

/-- `img.depth()`. -/
def cimg_depth (img : Nat) : HostCL Nat := fun h d => (Except.ok (h.images img).depth, h, d)

/-- `img.spectrum()`. -/
def cimg_spectrum (img : Nat) : HostCL Nat :=
  fun h d => (Except.ok (h.images img).spectrum, h, d)

/-- `queue.enqueueWriteBuffer(buffer, CL_TRUE, 0, bytes, ptr)`: the device call
of the same name on the host array that `ptr` points to, which is only read. -/
def enqueueWriteBuffer (buffer bytes elem : Nat) (ptr : HostPtr) : HostCL Unit :=
  fun h d => onDevice (HistEq.enqueueWriteBuffer buffer bytes elem (h.read ptr)) h d

/-- `queue.enqueueReadBuffer(buffer, CL_TRUE, 0, bytes, ptr)`: the device call
of the same name, whose result is stored in the host array that `ptr` points
to.  Host arrays are separate objects here: a transfer longer than the array
it is given is not modelled as running over into another object (every stage
passes the size of the array itself). -/
def enqueueReadBuffer (buffer bytes elem : Nat) (ptr : HostPtr) : HostCL Unit :=
  fun h d =>
    match HistEq.enqueueReadBuffer buffer bytes elem (h.read ptr) d with
    | (Except.ok values, d1) => (Except.ok (), h.store ptr values, d1)
    | (Except.error e, d1) => (Except.error e, h, d1)

namespace Assessment

/-- `create_intensity_histogram` (lines 20-44); `img_arg` is the caller's
image, of which the parameter `img` is a copy. -/
def create_intensity_histogram (program : Program) (img_arg : Nat) : HostCL Nat := do
  let img ← cimg_copy img_arg
  let BIN_COUNT := 256
  let histogram ← vector_create (BIN_COUNT * 3)
  let input_buffer ← onDevice (Buffer.create MemFlags.CL_MEM_READ_ONLY (← cimg_size img))
  let output_buffer ←
    onDevice (Buffer.create MemFlags.CL_MEM_WRITE_ONLY (sizeof_int * (← vector_size histogram)))
  enqueueWriteBuffer input_buffer (← cimg_size img) sizeof_uchar (HostPtr.samples img)
  let kernel ← onDevice (Kernel.create program "create_intensity_histogram")
  let kernel := kernel.setArg 0 input_buffer
  let kernel := kernel.setArg 1 output_buffer
  onDevice (enqueueNDRangeKernel kernel ((← cimg_size img) / 3))
  enqueueReadBuffer output_buffer (sizeof_int * (← vector_size histogram)) sizeof_int
    (HostPtr.elements histogram)
  return histogram

/-- `cumulate_histogram` (lines 46-66); the parameter `histogram` is a copy of
the caller's vector `histogram_arg`. -/
def cumulate_histogram (program : Program) (histogram_arg : Nat) : HostCL Nat := do
  let histogram ← vector_copy histogram_arg
  let buffer ←
    onDevice (Buffer.create MemFlags.CL_MEM_READ_WRITE (sizeof_int * (← vector_size histogram)))
  enqueueWriteBuffer buffer (sizeof_int * (← vector_size histogram)) sizeof_int
    (HostPtr.elements histogram)
  let kernel ← onDevice (Kernel.create program "cumulate_histogram")
  let kernel := kernel.setArg 0 buffer
  let kernel := kernel.setArg 1 buffer
  onDevice (enqueueNDRangeKernel kernel ((← vector_size histogram) / 3))
  enqueueReadBuffer buffer (sizeof_int * (← vector_size histogram)) sizeof_int
    (HostPtr.elements histogram)
  return histogram

/-- `map_histogram_to_image` (lines 68-96); both parameters are copies. -/
def map_histogram_to_image (program : Program) (img_arg histogram_arg : Nat) : HostCL Nat := do
  let img ← cimg_copy img_arg
  let histogram ← vector_copy histogram_arg
  let img_buffer ← onDevice (Buffer.create MemFlags.CL_MEM_READ_ONLY (← cimg_size img))
  let hist_buffer ←
    onDevice (Buffer.create MemFlags.CL_MEM_READ_ONLY (sizeof_int * (← vector_size histogram)))
  let output_buffer ← onDevice (Buffer.create MemFlags.CL_MEM_WRITE_ONLY (← cimg_size img))
  enqueueWriteBuffer img_buffer (← cimg_size img) sizeof_uchar (HostPtr.samples img)
  enqueueWriteBuffer hist_buffer (sizeof_int * (← vector_size histogram)) sizeof_int
    (HostPtr.elements histogram)
  let kernel ← onDevice (Kernel.create program "map_cumulative_histogram_to_image")
  let kernel := kernel.setArg 0 img_buffer
  let kernel := kernel.setArg 1 hist_buffer
  let kernel := kernel.setArg 2 output_buffer
  onDevice (enqueueNDRangeKernel kernel ((← cimg_size img) / 3))
  let output_data ← vector_create (← cimg_size img)
  enqueueReadBuffer output_buffer (← cimg_size img) sizeof_uchar (HostPtr.elements output_data)
  cimg_ofValues (HostPtr.elements output_data) (← cimg_width img) (← cimg_height img)
    (← cimg_depth img) (← cimg_spectrum img)

/-- The `try` block of `main` (lines 111-131), from the loaded image
`image_input` to the image handed to the output display. -/
def main_try (program : Program) (image_input : Nat) : HostCL Nat := do
  onDevice program.build
  let intensity_histogram ← create_intensity_histogram program image_input
  let cumulative_histogram ← cumulate_histogram program intensity_histogram
  let output_image ← map_histogram_to_image program image_input cumulative_histogram
  return output_image

end Assessment

namespace ImageProcessing

/-- `createIntensityHistogram` (lines 24-38); `from_` is a reference to the
caller's image. -/
def createIntensityHistogram (program : Program) (from_ : Nat) : HostCL Nat := do
  let inputBuffer ← onDevice (Buffer.create MemFlags.CL_MEM_READ_ONLY (← cimg_size from_))
  let outputBuffer ← onDevice (Buffer.create MemFlags.CL_MEM_READ_WRITE
    (HistEq.ImageProcessing.BIN_COUNT * HistEq.ImageProcessing.COLOR_CHANNELS * sizeof_int))
  enqueueWriteBuffer inputBuffer (← cimg_size from_) sizeof_uchar (HostPtr.samples from_)
  let kernel ← onDevice (Kernel.create program "create_intensity_histogram")
  let kernel := kernel.setArg 0 inputBuffer
  let kernel := kernel.setArg 1 outputBuffer
  onDevice (enqueueNDRangeKernel kernel
    ((← cimg_size from_) / HistEq.ImageProcessing.COLOR_CHANNELS))
  let histogram ←
    vector_create (HistEq.ImageProcessing.BIN_COUNT * HistEq.ImageProcessing.COLOR_CHANNELS)
  enqueueReadBuffer outputBuffer
    (HistEq.ImageProcessing.BIN_COUNT * HistEq.ImageProcessing.COLOR_CHANNELS * sizeof_int)
    sizeof_int (HostPtr.elements histogram)
  return histogram

/-- `cumulateHistogram` (lines 40-55); `histogram` is a reference to the
caller's vector. -/
def cumulateHistogram (program : Program) (histogram : Nat) : HostCL Nat := do
  let bufferSize := (← vector_size histogram) * sizeof_int
  let inputBuffer ← onDevice (Buffer.create MemFlags.CL_MEM_READ_WRITE bufferSize)
  let outputBuffer ← onDevice (Buffer.create MemFlags.CL_MEM_READ_WRITE bufferSize)
  enqueueWriteBuffer inputBuffer bufferSize sizeof_int (HostPtr.elements histogram)
  let kernel ← onDevice (Kernel.create program "cumulate_histogram")
  let kernel := kernel.setArg 0 inputBuffer
  let kernel := kernel.setArg 1 outputBuffer
  onDevice (enqueueNDRangeKernel kernel
    ((← vector_size histogram) / HistEq.ImageProcessing.COLOR_CHANNELS))
  let cumulativeHistogram ← vector_create (← vector_size histogram)
  enqueueReadBuffer outputBuffer bufferSize sizeof_int (HostPtr.elements cumulativeHistogram)
  return cumulativeHistogram

/-- `mapCumulativeHistogramToImage` (lines 57-75); both parameters are
references to objects of the caller. -/
def mapCumulativeHistogramToImage (program : Program) (inputImage cumulativeHistogram : Nat) :
    HostCL Nat := do
  let inputImageBuffer ←
    onDevice (Buffer.create MemFlags.CL_MEM_READ_ONLY (← cimg_size inputImage))
  let inputHistogramBuffer ← onDevice (Buffer.create MemFlags.CL_MEM_READ_ONLY
    ((← vector_size cumulativeHistogram) * sizeof_int))
  let outputBuffer ← onDevice (Buffer.create MemFlags.CL_MEM_READ_WRITE (← cimg_size inputImage))
  enqueueWriteBuffer inputImageBuffer (← cimg_size inputImage) sizeof_uchar
    (HostPtr.samples inputImage)
  enqueueWriteBuffer inputHistogramBuffer ((← vector_size cumulativeHistogram) * sizeof_int)
    sizeof_int (HostPtr.elements cumulativeHistogram)
  let kernel ← onDevice (Kernel.create program "map_cumulative_histogram_to_image")
  let kernel := kernel.setArg 0 inputImageBuffer
  let kernel := kernel.setArg 1 inputHistogramBuffer
  let kernel := kernel.setArg 2 outputBuffer
  onDevice (enqueueNDRangeKernel kernel
    ((← cimg_size inputImage) / HistEq.ImageProcessing.COLOR_CHANNELS))
  let imageData ← vector_create (← cimg_size inputImage)
  enqueueReadBuffer outputBuffer (← cimg_size inputImage) sizeof_uchar
    (HostPtr.elements imageData)
  let outputImage ← cimg_ofValues (HostPtr.elements imageData) (← cimg_width inputImage)
    (← cimg_height inputImage) (← cimg_depth inputImage) (← cimg_spectrum inputImage)
  return outputImage

/-- The `try` block of `main` (lines 89-110). -/
def main_try (program : Program) (inputImage : Nat) : HostCL Nat := do
  onDevice program.build
  let histogram ← createIntensityHistogram program inputImage
  let cumulativeHistogram ← cumulateHistogram program histogram
  let outputImage ← mapCumulativeHistogramToImage program inputImage cumulativeHistogram
  return outputImage

end ImageProcessing

namespace ThisOne

/-- `create_intensity_histogram` (lines 18-33); the parameter `img` is a copy
of the caller's image `img_arg`. -/
def create_intensity_histogram (program : Program) (img_arg : Nat) : HostCL Nat := do
  let img ← cimg_copy img_arg
  let BIN_COUNT := 256 * 3
  let histogram ← vector_create BIN_COUNT
  let img_size ← cimg_size img
  let input_buffer ← onDevice (Buffer.create MemFlags.CL_MEM_READ_ONLY img_size)
  let output_buffer ←
    onDevice (Buffer.create MemFlags.CL_MEM_WRITE_ONLY (sizeof_int * (← vector_size histogram)))
  enqueueWriteBuffer input_buffer img_size sizeof_uchar (HostPtr.samples img)
  let kernel ← onDevice (Kernel.create program "create_intensity_histogram")
  let kernel := kernel.setArg 0 input_buffer
  let kernel := kernel.setArg 1 output_buffer
  onDevice (enqueueNDRangeKernel kernel (img_size / 3))
  enqueueReadBuffer output_buffer (sizeof_int * (← vector_size histogram)) sizeof_int
    (HostPtr.elements histogram)
  return histogram

/-- `cumulate_histogram` (lines 35-46); the parameter `histogram` is a copy of
the caller's vector `histogram_arg`. -/
def cumulate_histogram (program : Program) (histogram_arg : Nat) : HostCL Nat := do
  let histogram ← vector_copy histogram_arg
  let hist_size ← vector_size histogram
  let buffer ← onDevice (Buffer.create MemFlags.CL_MEM_READ_WRITE (sizeof_int * hist_size))
  enqueueWriteBuffer buffer (sizeof_int * hist_size) sizeof_int (HostPtr.elements histogram)
  let kernel ← onDevice (Kernel.create program "cumulate_histogram_bl")
  let kernel := kernel.setArg 0 buffer
  onDevice (enqueueNDRangeKernel kernel hist_size)
  enqueueReadBuffer buffer (sizeof_int * hist_size) sizeof_int (HostPtr.elements histogram)
  return histogram

/-- `map_histogram_to_image` (lines 48-66); both parameters are copies. -/
def map_histogram_to_image (program : Program) (img_arg histogram_arg : Nat) : HostCL Nat := do
  let img ← cimg_copy img_arg
  let histogram ← vector_copy histogram_arg
  let img_size ← cimg_size img
  let img_buffer ← onDevice (Buffer.create MemFlags.CL_MEM_READ_ONLY img_size)
  let hist_buffer ←
    onDevice (Buffer.create MemFlags.CL_MEM_READ_ONLY (sizeof_int * (← vector_size histogram)))
  let output_buffer ← onDevice (Buffer.create MemFlags.CL_MEM_WRITE_ONLY img_size)
  enqueueWriteBuffer img_buffer img_size sizeof_uchar (HostPtr.samples img)
  enqueueWriteBuffer hist_buffer (sizeof_int * (← vector_size histogram)) sizeof_int
    (HostPtr.elements histogram)
  let kernel ← onDevice (Kernel.create program "map_cumulative_histogram_to_image")
  let kernel := kernel.setArg 0 img_buffer
  let kernel := kernel.setArg 1 hist_buffer
  let kernel := kernel.setArg 2 output_buffer
  onDevice (enqueueNDRangeKernel kernel (img_size / 3))
  let output_data ← vector_create (← cimg_size img)
  enqueueReadBuffer output_buffer img_size sizeof_uchar (HostPtr.elements output_data)
  cimg_ofValues (HostPtr.elements output_data) (← cimg_width img) (← cimg_height img)
    (← cimg_depth img) (← cimg_spectrum img)

/-- The `try` block of `main` (lines 81-100). -/
def main_try (program : Program) (image_input : Nat) : HostCL Nat := do
  onDevice program.build
  let intensity_histogram ← create_intensity_histogram program image_input
  let cumulative_histogram ← cumulate_histogram program intensity_histogram
  let output_image ← map_histogram_to_image program image_input cumulative_histogram
  return output_image

end ThisOne

/-- `Frames m`: no run of `m`, whether it returns or throws, frees an address
or changes an image object that was there before it: every such image has
the dimensions and the samples it had. -/
def Frames {α : Type} (m : HostCL α) : Prop :=
  ∀ h d, h.next ≤ (m h d).2.1.next ∧ ∀ a, a < h.next → (m h d).2.1.images a = h.images a

/-- `ReturnsNew m`: the address a run of `m` returns is that of an object
made during the run: it was free before the run and is taken after it. -/
def ReturnsNew (m : HostCL Nat) : Prop :=
  ∀ h d x, (m h d).1 = Except.ok x → h.next ≤ x ∧ x < (m h d).2.1.next

/-- What the run of `m` from host memory `h` amounts to for someone who sees
values only: the device computation whose result is `see` of the final host
memory and of the address returned. -/
def seenAs {α β : Type} (m : HostCL α) (see : Host → α → β) (h : Host) : CL β :=
  fun d =>
    match m h d with
    | (Except.ok x, h1, d1) => (Except.ok (see h1 x), d1)
    | (Except.error e, _, d1) => (Except.error e, d1)

end HostMemory

/-! ## The kernels, as the specification describes them

`kernels.cl` is not among the sources.  The definitions below follow the
specification (sections 3, 4.1, 4.2, 4.3); the number of work items a kernel
expects is the one its callers dispatch. -/

/-- Memory after the counter in cell `i` of buffer `b` is incremented. -/
def increment (mem : Mem) (b i : Nat) : Mem :=
  fun b1 i1 => if b1 = b ∧ i1 = i then mem b i + 1 else mem b1 i1

/-- Modelled from the spec: the kernel `create_intensity_histogram` of
`kernels.cl`, which is missing.  Spec 4.1: "for every pixel, for every
channel, increment the count at bin = sample value (0-255) within that
channel's 256-entry block"; one work item per pixel; the increments are
atomic, so they take effect one after the other, in any order.  Spec 3: the
channels of a pixel are interleaved, so channel `c` of pixel `id` is sample
`3 * id + c`.  The kernel only increments: it does not clear the counters. -/
def kernel_create_intensity_histogram : KernelFn := fun args global mem =>
  match args with
  | [image, histogram] =>
    (List.range global).foldl
      (fun m id => (List.range 3).foldl
        (fun m1 c => increment m1 histogram (256 * c + toUChar (mem image (3 * id + c)))) m)
      mem
  | _ => mem

/-- Sum of the cells `base, base + 1, ..., base + n` of `f`. -/
def runningSum (f : Nat → Int) (base n : Nat) : Int :=
  ((List.range (n + 1)).map fun j => f (base + j)).sum

/-- The 32-bit `int` with the low 32 bits of `x` (two's complement). -/
def toInt32 (x : Int) : Int := (x + 2147483648) % 4294967296 - 2147483648

/-- Modelled from the spec: the kernel `cumulate_histogram` of `kernels.cl`,
which is missing.  Spec 4.2: "an inclusive prefix sum computed independently
within each channel's 256-entry block (channels must not be summed
together)", with values equal to those of a sequential inclusive scan of the
input.  One work item per bin: work item `id` produces bin `id` of each of
the three blocks, as a 32-bit `int`.  The sums are taken over the input as it
was when the kernel started.  The specification does not say what the kernel
does when one buffer is bound as input and as output; this model keeps
reading the contents from before the dispatch, and the result on the
cumulative transform does not rest on that choice: it assumes of the kernel
what `ScansBlocks` states, for the binding each host function makes. -/
def kernel_cumulate_histogram : KernelFn := fun args global mem =>
  match args with
  | [input, output] =>
    fun b i =>
      if b = output ∧ i < 256 * 3 ∧ i % 256 < global then
        toInt32 (runningSum (mem input) (256 * (i / 256)) (i % 256))
      else mem b i
  | _ => mem

/-- Modelled from the spec: the kernel `cumulate_histogram_bl` of
`kernels.cl`, which is missing.  Spec 4.2 as for `cumulate_histogram`, in
place on its single argument, with one work item per entry: work item `id`
produces entry `id`, which is bin `id % 256` of block `id / 256`, as a 32-bit
`int`, from the contents of the buffer when the kernel started (a choice of
this model, as for `cumulate_histogram`). -/
def kernel_cumulate_histogram_bl : KernelFn := fun args global mem =>
  match args with
  | [histogram] =>
    fun b i =>
      if b = histogram ∧ i < global then
        toInt32 (runningSum (mem histogram) (256 * (i / 256)) (i % 256))
      else mem b i
  | _ => mem

/-- Clamps to the sample range `[0, 255]`. -/
def clamp (x : Int) : Int := max 0 (min 255 x)

/-- Modelled from the spec: the kernel `map_cumulative_histogram_to_image` of
`kernels.cl`, which is missing.  Spec 4.3, in the simplified normalisation
that the spec allows: the new value of a sample `v` of channel `c` is
`cumulative[c][v] * 255 / total_pixels` (integer division), clamped to
`[0, 255]`.  One work item per pixel, so `total_pixels` is the global work
size, and the three interleaved samples of pixel `id` are `3 * id + c`. -/
def kernel_map_cumulative_histogram_to_image : KernelFn := fun args global mem =>
  match args with
  | [image, histogram, output] =>
    fun b i =>
      if b = output ∧ i < 3 * global then
        clamp (mem histogram (256 * (i % 3) + toUChar (mem image i)) * 255 / (global : Int))
      else mem b i
  | _ => mem

/-- Modelled from the spec: the program built from the missing `kernels.cl`,
with the four kernels the host programs ask for by name. -/
def specProgram : Program :=
  { builds := true,
    kernels := fun name =>
      if name = "create_intensity_histogram" then some kernel_create_intensity_histogram
      else if name = "cumulate_histogram" then some kernel_cumulate_histogram
      else if name = "cumulate_histogram_bl" then some kernel_cumulate_histogram_bl
      else if name = "map_cumulative_histogram_to_image" then
        some kernel_map_cumulative_histogram_to_image
      else none }

/-! ## Reference definitions and properties of runs -/

/-- The device reports no failure of its own. -/
def FaultFree (d : Device) : Prop := ∀ n, d.fault n = none

/-- Block `c` (256 entries) of a histogram. -/
def block (histogram : List Int) (c : Nat) : List Int :=
  (histogram.drop (256 * c)).take 256

/-- Number of pixels of an image, `width * height * depth`. -/
def CImg.pixels (img : CImg) : Nat := img.width * img.height * img.depth

/-- The calls that a run from device state `d` to `d1` added to the log. -/
def callsSince (d d1 : Device) : List (Call × Option ClError) :=
  d1.log.drop d.log.length

/-- The kernel dispatches among logged calls: kernel name and global work size. -/
def dispatches : List (Call × Option ClError) → List (String × Nat)
  | [] => []
  | (Call.enqueueNDRangeKernel name _ global, _) :: rest => (name, global) :: dispatches rest
  | _ :: rest => dispatches rest

/-- A computation is fail-fast when every run only appends to the log, a run
that returns made only successful calls, and a run that throws `e` stopped at
the first failing call, which raised `e` and is the last one logged. -/
def FailFast {α : Type} (m : CL α) : Prop :=
  ∀ d, ∃ calls, (m d).2.log = d.log ++ calls ∧
    match (m d).1 with
    | Except.ok _ => ∀ x ∈ calls, x.2 = none
    | Except.error e => ∃ pre c, calls = pre ++ [(c, some e)] ∧ ∀ x ∈ pre, x.2 = none

/-- `Logs m P`: every run of `m`, whether it returns or throws, only appends
to the log, and every call it appends satisfies `P`. -/
def Logs {α : Type} (m : CL α) (P : Call → Prop) : Prop :=
  ∀ d, ∃ calls, (m d).2.log = d.log ++ calls ∧ ∀ x ∈ calls, P x.1

/-- `Returns m Q`: whenever a run of `m` returns a value, the run only
appended calls to the log, and the value and those calls satisfy `Q`. -/
def Returns {α : Type} (m : CL α) (Q : α → List (Call × Option ClError) → Prop) : Prop :=
  ∀ d a d1, m d = (Except.ok a, d1) → ∃ calls, d1.log = d.log ++ calls ∧ Q a calls

/-- The run `run` of a pipeline driver from device state `d`, which returned
`out`, is the program build followed by the three stages, each run once, in
order, in the device state its predecessor left: `create` on the input image,
`cumulate` on the array `create` returned, `remap` on the input image and the
array `cumulate` returned.  `stages` are the kernels dispatched, in order. -/
def ComposedRun (build : CL Unit) (create : CL (List Int)) (cumulate : List Int → CL (List Int))
    (remap : List Int → CL CImg) (stages : List String) (d : Device)
    (run : Except ClError CImg × Device) (out : CImg) : Prop :=
  ∃ d0 histogram d1 cumulative d2,
    build d = (Except.ok (), d0) ∧ create d0 = (Except.ok histogram, d1) ∧
    cumulate histogram d1 = (Except.ok cumulative, d2) ∧
    remap cumulative d2 = (Except.ok out, run.2) ∧
    (dispatches (callsSince d run.2)).map Prod.fst = stages

/-- A pipeline run `run` from device state `d`, with `shown` what `main`
displays, propagates failures: when a call of the run raised `e`, the run
throws `e`, that call is the last one made (nothing is retried, no later
stage runs), every call before it succeeded, and no image is displayed. -/
def PropagatesFailure (d : Device) (run : Except ClError CImg × Device)
    (shown : Option Displays) : Prop :=
  ∀ c e, (c, some e) ∈ callsSince d run.2 →
    run.1 = Except.error e ∧
    (∃ pre, callsSince d run.2 = pre ++ [(c, some e)] ∧ ∀ x ∈ pre, x.2 = none) ∧
    shown = none

/-! ## Concrete inputs -/

/-- A device (of a platform before OpenCL 2.1) that reports no fault and whose
memory is all zero. -/
def cleanDevice : Device :=
  { mem := fun _ _ => 0, size := fun _ => 0, count := 0, fault := fun _ => none,
    rejectsEmptyRange := true, log := [] }

/-- A device that reports no fault, whose memory holds a stale 1 where the
second buffer to be created will start. -/
def staleDevice : Device :=
  { mem := fun b i => if b = 1 ∧ i = 0 then 1 else 0,
    size := fun _ => 0, count := 0, fault := fun _ => none, rejectsEmptyRange := true, log := [] }

/-- A device (memory all zero) that runs out of resources at its tenth API call. -/
def faultyDevice : Device :=
  { mem := fun _ _ => 0, size := fun _ => 0, count := 0,
    fault := fun n => if n = 9 then some ClError.CL_OUT_OF_RESOURCES else none,
    rejectsEmptyRange := true, log := [] }

/-- A 1x1 image with three channels. -/
def pixelRGB : CImg :=
  { width := 1, height := 1, depth := 1, spectrum := 3, data := [0, 1, 2], data_size := rfl }

/-- A 2x1 image with three channels. -/
def twoPixels : CImg :=
  { width := 2, height := 1, depth := 1, spectrum := 3, data := [0, 0, 0, 1, 1, 1],
    data_size := rfl }

/-- A 3x1 image with one channel. -/
def grayRow : CImg :=
  { width := 3, height := 1, depth := 1, spectrum := 1, data := [0, 1, 2], data_size := rfl }

/-- A histogram of three blocks of 256 counts, all equal to 1. -/
def flatHistogram : List Int := List.replicate 768 1

/-- A host memory with two objects: the two-pixel image at address 0 and the
flat histogram at address 1. -/
def HostMemory.twoObjects : HostMemory.Host :=
  { images := fun _ => twoPixels, vectors := fun _ => flatHistogram, next := 2 }

/-! # Theorems -/

/-! ## Running a computation -/

theorem bind_apply {α β : Type} (m : CL α) (f : α → CL β) (d : Device) :
    (m >>= f) d = match m d with
      | (Except.ok a, d1) => f a d1
      | (Except.error e, d1) => (Except.error e, d1) := rfl

theorem pure_apply {α : Type} (a : α) (d : Device) : (pure a : CL α) d = (Except.ok a, d) := rfl

theorem bind_ok {α β : Type} {m : CL α} {f : α → CL β} {d : Device} {b : β}
    (h : ((m >>= f) d).1 = Except.ok b) :
    ∃ a d1, m d = (Except.ok a, d1) ∧ (m >>= f) d = f a d1 := by
  rw [bind_apply] at h ⊢
  rcases hmd : m d with ⟨r, d1⟩
  rw [hmd] at h
  cases r with
  | error e => cases h
  | ok a => exact ⟨a, d1, rfl, rfl⟩

theorem fst_ok_of_eq {α : Type} {r : Except ClError α × Device} {a : α} {d1 : Device}
    (h : r = (Except.ok a, d1)) : r.1 = Except.ok a := by rw [h]

theorem program_build_run (program : Program) (d : Device)
    (hf : d.fault d.log.length = none) (hb : program.builds = true) :
    program.build d = (Except.ok (),
      { mem := d.mem, size := d.size, count := d.count, fault := d.fault,
        rejectsEmptyRange := d.rejectsEmptyRange,
        log := d.log ++ [(Call.build, none)] }) := by
  simp [Program.build, call, hf, hb]

theorem buffer_create_run (flags : MemFlags) (bytes : Nat) (d : Device)
    (hf : d.fault d.log.length = none) (hb : bytes ≠ 0) :
    Buffer.create flags bytes d = (Except.ok d.count,
      { mem := d.mem, size := fun b => if b = d.count then bytes else d.size b,
        count := d.count + 1, fault := d.fault,
        rejectsEmptyRange := d.rejectsEmptyRange,
        log := d.log ++ [(Call.createBuffer flags bytes, none)] }) := by
  simp [Buffer.create, call, hf, hb]

theorem enqueueWriteBuffer_run (buffer bytes elem : Nat) (ptr : List Int) (d : Device)
    (hf : d.fault d.log.length = none) (hb : buffer < d.count) (hs : bytes ≤ d.size buffer) :
    enqueueWriteBuffer buffer bytes elem ptr d = (Except.ok (),
      { mem := writeCells d.mem buffer (bytes / elem) ptr,
        size := d.size, count := d.count, fault := d.fault,
        rejectsEmptyRange := d.rejectsEmptyRange,
        log := d.log ++ [(Call.enqueueWriteBuffer buffer bytes, none)] }) := by
  simp [enqueueWriteBuffer, call, hf, hb, hs]

theorem kernel_create_run (program : Program) (name : String) (fn : KernelFn) (d : Device)
    (hf : d.fault d.log.length = none) (hk : program.kernels name = some fn) :
    Kernel.create program name d = (Except.ok { name := name, fn := fn, args := [] },
      { mem := d.mem, size := d.size, count := d.count, fault := d.fault,
        rejectsEmptyRange := d.rejectsEmptyRange,
        log := d.log ++ [(Call.createKernel name, none)] }) := by
  simp [Kernel.create, call, hf, hk]

theorem enqueueNDRangeKernel_run (kernel : Kernel) (global : Nat) (d : Device)
    (hf : d.fault d.log.length = none) (hg : global ≠ 0) :
    enqueueNDRangeKernel kernel global d = (Except.ok (),
      { mem := kernel.fn kernel.args global d.mem, size := d.size, count := d.count, fault := d.fault,
        rejectsEmptyRange := d.rejectsEmptyRange,
        log := d.log ++ [(Call.enqueueNDRangeKernel kernel.name kernel.args global, none)] }) := by
  simp [enqueueNDRangeKernel, call, hf, hg]

theorem enqueueReadBuffer_run (buffer bytes elem : Nat) (dst : List Int) (d : Device)
    (hf : d.fault d.log.length = none) (hb : buffer < d.count) (hs : bytes ≤ d.size buffer) :
    enqueueReadBuffer buffer bytes elem dst d =
      (Except.ok (readCells d.mem buffer (bytes / elem) ++ dst.drop (bytes / elem)),
      { mem := d.mem, size := d.size, count := d.count, fault := d.fault,
        rejectsEmptyRange := d.rejectsEmptyRange,
        log := d.log ++ [(Call.enqueueReadBuffer buffer bytes, none)] }) := by
  simp [enqueueReadBuffer, call, hf, hb, hs]

/-- A request for a buffer of 0 bytes always throws; the error is
`CL_INVALID_BUFFER_SIZE` unless the device reports a fault of its own. -/
theorem buffer_create_zero (flags : MemFlags) (d : Device) :
    ∃ e, (d.fault d.log.length = none → e = ClError.CL_INVALID_BUFFER_SIZE) ∧
      Buffer.create flags 0 d = (Except.error e, d.record (Call.createBuffer flags 0) (some e)) := by
  unfold Buffer.create HistEq.call
  cases hfault : d.fault d.log.length with
  | some e => exact ⟨e, by simp, rfl⟩
  | none => exact ⟨ClError.CL_INVALID_BUFFER_SIZE, fun _ => rfl, by simp⟩

theorem program_build_cases (program : Program) (d : Device) :
    (∃ e, program.build d = (Except.error e, d.record Call.build (some e))) ∨
    program.build d = (Except.ok (), d.record Call.build none) := by
  unfold Program.build HistEq.call
  cases hfault : d.fault d.log.length with
  | some e => exact Or.inl ⟨e, rfl⟩
  | none =>
    by_cases hb : program.builds = true
    · right; simp [hb, Device.record]
    · left; exact ⟨ClError.CL_BUILD_PROGRAM_FAILURE, by simp [hb, Device.record]⟩

theorem readCells_length (mem : Mem) (buffer n : Nat) : (readCells mem buffer n).length = n := by
  simp [readCells]

theorem readCells_getD (mem : Mem) (buffer n i : Nat) (h : i < n) :
    (readCells mem buffer n).getD i 0 = mem buffer i := by
  simp [readCells, List.getD_eq_getElem?_getD, List.getElem?_range h]

theorem writeCells_other (mem : Mem) (buffer n : Nat) (ptr : List Int) (b i : Nat)
    (h : b ≠ buffer) : writeCells mem buffer n ptr b i = mem b i := by
  simp [writeCells, h]

theorem dispatches_append (l1 l2 : List (Call × Option ClError)) :
    dispatches (l1 ++ l2) = dispatches l1 ++ dispatches l2 := by
  induction l1 with
  | nil => rfl
  | cons x xs ih =>
    obtain ⟨c, r⟩ := x
    cases c <;> simp [dispatches, ih]

theorem callsSince_append (d d1 : Device) (calls : List (Call × Option ClError))
    (h : d1.log = d.log ++ calls) : callsSince d d1 = calls := by
  simp [callsSince, h]

theorem callsSince_of_run {α : Type} {r : Except ClError α × Device} {a : Except ClError α}
    {d d1 : Device} {calls : List (Call × Option ClError)}
    (h : r = (a, d1)) (hl : d1.log = d.log ++ calls) : callsSince d r.2 = calls := by
  rw [h]
  exact callsSince_append d d1 calls hl

theorem faultFree_of_eq {d d1 : Device} (hf : FaultFree d) (h : d1.fault = d.fault) : FaultFree d1 :=
  fun n => by rw [h]; exact hf n

theorem cleanDevice_faultFree : FaultFree cleanDevice := fun _ => rfl

theorem cImg_ofValues_shape (values : List Nat) (img : CImg) (hs : img.size ≠ 0) :
    (CImg.ofValues values img.width img.height img.depth img.spectrum).width = img.width ∧
    (CImg.ofValues values img.width img.height img.depth img.spectrum).height = img.height ∧
    (CImg.ofValues values img.width img.height img.depth img.spectrum).depth = img.depth ∧
    (CImg.ofValues values img.width img.height img.depth img.spectrum).spectrum = img.spectrum ∧
    (CImg.ofValues values img.width img.height img.depth img.spectrum).data.length =
      img.data.length := by
  have hs1 : img.width * img.height * img.depth * img.spectrum ≠ 0 := hs
  simp [CImg.ofValues, hs1, img.data_size]

theorem length_ne_zero_of_ne_nil {histogram : List Int} (h : histogram ≠ []) :
    histogram.length ≠ 0 := by
  intro h0
  exact h (List.length_eq_zero.mp h0)

theorem flatHistogram_ne_nil : flatHistogram ≠ [] := by
  intro h0
  have := congrArg List.length h0
  rw [flatHistogram, List.length_replicate] at this
  exact absurd this (by decide)

theorem fst_of_run {α : Type} {r : Except ClError α × Device} {a : α} {d1 : Device}
    (h : r = (Except.ok a, d1)) : r.1 = Except.ok a := by
  rw [h]

/-! ## Failure propagation -/

theorem failFast_pure {α : Type} (a : α) : FailFast (pure a : CL α) := by
  intro d
  exact ⟨[], by simp [pure_apply], by simp [pure_apply]⟩

theorem failFast_call {α : Type} (c : Call) (step : Device → Except ClError (α × Device)) :
    FailFast (call c step) := by
  intro d
  unfold HistEq.call
  cases hfault : d.fault d.log.length with
  | some e => exact ⟨[(c, some e)], by simp [Device.record], [], c, by simp, by simp⟩
  | none =>
    cases hstep : step d with
    | error e => exact ⟨[(c, some e)], by simp [Device.record], [], c, by simp, by simp⟩
    | ok r => exact ⟨[(c, none)], by simp, by simp⟩

theorem failFast_bind {α β : Type} {m : CL α} {f : α → CL β}
    (hm : FailFast m) (hf : ∀ a, FailFast (f a)) : FailFast (m >>= f) := by
  intro d
  obtain ⟨calls1, hlog1, h1⟩ := hm d
  rw [bind_apply]
  rcases hmd : m d with ⟨r, d1⟩
  rw [hmd] at hlog1 h1
  cases r with
  | error e => exact ⟨calls1, hlog1, h1⟩
  | ok a =>
    obtain ⟨calls2, hlog2, h2⟩ := hf a d1
    refine ⟨calls1 ++ calls2, ?_, ?_⟩
    · simp only [hlog2]
      rw [show d1.log = d.log ++ calls1 from hlog1, List.append_assoc]
    · simp only at h1 ⊢
      rcases hfd : (f a d1).1 with e | b
      · rw [hfd] at h2
        obtain ⟨pre, c, hc, hpre⟩ := h2
        refine ⟨calls1 ++ pre, c, by rw [hc, List.append_assoc], ?_⟩
        intro x hx
        rcases List.mem_append.mp hx with hx | hx
        · exact h1 x hx
        · exact hpre x hx
      · rw [hfd] at h2
        intro x hx
        rcases List.mem_append.mp hx with hx | hx
        · exact h1 x hx
        · exact h2 x hx

theorem program_build_failFast (program : Program) : FailFast program.build := failFast_call _ _

theorem buffer_create_failFast (flags : MemFlags) (bytes : Nat) : FailFast (Buffer.create flags bytes) :=
  failFast_call _ _

theorem enqueueWriteBuffer_failFast (buffer bytes elem : Nat) (ptr : List Int) :
    FailFast (enqueueWriteBuffer buffer bytes elem ptr) := failFast_call _ _

theorem kernel_create_failFast (program : Program) (name : String) :
    FailFast (Kernel.create program name) := failFast_call _ _

theorem enqueueNDRangeKernel_failFast (kernel : Kernel) (global : Nat) :
    FailFast (enqueueNDRangeKernel kernel global) := failFast_call _ _

theorem enqueueReadBuffer_failFast (buffer bytes elem : Nat) (dst : List Int) :
    FailFast (enqueueReadBuffer buffer bytes elem dst) := failFast_call _ _

theorem propagates_of_failFast {m : CL CImg} (hm : FailFast m) (d : Device)
    (shown : Option Displays) (hshown : ∀ e, (m d).1 = Except.error e → shown = none) :
    PropagatesFailure d (m d) shown := by
  intro c e hmem
  obtain ⟨calls, hlog, hres⟩ := hm d
  rw [callsSince_append d (m d).2 calls hlog] at hmem ⊢
  rcases hr : (m d).1 with e1 | a
  · rw [hr] at hres
    obtain ⟨pre, c1, hcalls, hpre⟩ := hres
    rw [hcalls] at hmem
    rcases List.mem_append.mp hmem with h | h
    · have := hpre _ h
      simp at this
    · simp only [List.mem_singleton, Prod.mk.injEq, Option.some.injEq] at h
      obtain ⟨rfl, rfl⟩ := h
      exact ⟨rfl, ⟨pre, hcalls, hpre⟩, hshown e hr⟩
  · rw [hr] at hres
    have := hres _ hmem
    simp at this

/-! ## Runs that return -/

theorem returns_pure {α : Type} {a : α} {Q : α → List (Call × Option ClError) → Prop}
    (h : Q a []) : Returns (pure a : CL α) Q := by
  intro d b d1 hrun
  rw [pure_apply] at hrun
  cases hrun
  exact ⟨[], by simp, h⟩

theorem returns_bind {α β : Type} {m : CL α} {f : α → CL β}
    {P : α → List (Call × Option ClError) → Prop} {Q : β → List (Call × Option ClError) → Prop}
    (hm : Returns m P)
    (hf : ∀ a calls1, P a calls1 → Returns (f a) fun b calls2 => Q b (calls1 ++ calls2)) :
    Returns (m >>= f) Q := by
  intro d b d2 hrun
  rw [bind_apply] at hrun
  rcases hmd : m d with ⟨r, d1⟩
  rw [hmd] at hrun
  cases r with
  | error e => cases hrun
  | ok a =>
    obtain ⟨calls1, hlog1, hP⟩ := hm d a d1 hmd
    obtain ⟨calls2, hlog2, hQ⟩ := hf a calls1 hP d1 b d2 hrun
    exact ⟨calls1 ++ calls2, by rw [hlog2, hlog1, List.append_assoc], hQ⟩

theorem returns_call {α : Type} (c : Call) (step : Device → Except ClError (α × Device))
    {P : α → Prop} (h : ∀ d a d1, step d = Except.ok (a, d1) → P a) :
    Returns (call c step) fun a calls => P a ∧ calls = [(c, none)] := by
  intro d a d1 hrun
  unfold HistEq.call at hrun
  cases hfault : d.fault d.log.length with
  | some e => rw [hfault] at hrun; cases hrun
  | none =>
    rw [hfault] at hrun
    cases hstep : step d with
    | error e => rw [hstep] at hrun; cases hrun
    | ok r =>
      obtain ⟨a1, d2⟩ := r
      rw [hstep] at hrun
      cases hrun
      exact ⟨[(c, none)], rfl, h d a d2 hstep, rfl⟩

theorem program_build_returns (program : Program) :
    Returns program.build fun _ calls => program.builds = true ∧ calls = [(Call.build, none)] := by
  refine returns_call _ _ ?_
  intro d a d1 h
  by_cases hb : program.builds = true
  · exact hb
  · simp [hb] at h

theorem buffer_create_returns (flags : MemFlags) (bytes : Nat) :
    Returns (Buffer.create flags bytes) fun _ calls =>
      bytes ≠ 0 ∧ calls = [(Call.createBuffer flags bytes, none)] := by
  refine returns_call _ _ ?_
  intro d a d1 h hb
  simp [hb] at h

theorem enqueueWriteBuffer_returns (buffer bytes elem : Nat) (ptr : List Int) :
    Returns (enqueueWriteBuffer buffer bytes elem ptr) fun _ calls =>
      True ∧ calls = [(Call.enqueueWriteBuffer buffer bytes, none)] :=
  returns_call _ _ fun _ _ _ _ => trivial

theorem kernel_create_returns (program : Program) (name : String) :
    Returns (Kernel.create program name) fun kernel calls =>
      (kernel.name = name ∧ kernel.args = [] ∧ program.kernels name = some kernel.fn) ∧
        calls = [(Call.createKernel name, none)] := by
  refine returns_call _ _ ?_
  intro d a d1 h
  cases hk : program.kernels name with
  | none => simp [hk] at h
  | some fn =>
    simp only [hk, Except.ok.injEq, Prod.mk.injEq] at h
    obtain ⟨rfl, _⟩ := h
    exact ⟨rfl, rfl, rfl⟩

theorem enqueueNDRangeKernel_returns (kernel : Kernel) (global : Nat) :
    Returns (enqueueNDRangeKernel kernel global) fun _ calls =>
      True ∧ calls = [(Call.enqueueNDRangeKernel kernel.name kernel.args global, none)] :=
  returns_call _ _ fun _ _ _ _ => trivial

theorem enqueueReadBuffer_returns (buffer bytes elem : Nat) (dst : List Int) :
    Returns (enqueueReadBuffer buffer bytes elem dst) fun r calls =>
      r.length = bytes / elem + (dst.length - bytes / elem) ∧
        calls = [(Call.enqueueReadBuffer buffer bytes, none)] := by
  refine returns_call _ _ ?_
  intro d a d1 h
  by_cases hc : buffer < d.count ∧ bytes ≤ d.size buffer
  · simp only [hc, and_self, if_true, Except.ok.injEq, Prod.mk.injEq] at h
    obtain ⟨rfl, _⟩ := h
    simp [readCells_length]
  · simp [hc] at h

theorem returns_of_fst {α : Type} {m : CL α} {Q : α → List (Call × Option ClError) → Prop}
    (h : Returns m Q) (d : Device) (a : α) (h1 : (m d).1 = Except.ok a) :
    ∃ calls, (m d).2.log = d.log ++ calls ∧ Q a calls :=
  h d a (m d).2 (Prod.ext h1 rfl)

theorem hostMemory_seenAs_returns {α β : Type} (m : HostMemory.HostCL α)
    (see : HostMemory.Host → α → β) (h : HostMemory.Host) (d : Device) (b : β)
    (hb : (HostMemory.seenAs m see h d).1 = Except.ok b) : ∃ x, (m h d).1 = Except.ok x := by
  simp only [HostMemory.seenAs] at hb
  rcases hr : m h d with ⟨r, h1, d1⟩
  rw [hr] at hb
  cases r with
  | error e => cases hb
  | ok y => exact ⟨y, rfl⟩

/-! ## Calls made by any run -/

theorem logs_pure {α : Type} (a : α) (P : Call → Prop) : Logs (pure a : CL α) P := by
  intro d
  exact ⟨[], by simp [pure_apply], by simp⟩

theorem logs_call {α : Type} (c : Call) (step : Device → Except ClError (α × Device))
    {P : Call → Prop} (h : P c) : Logs (call c step) P := by
  intro d
  unfold HistEq.call
  cases hfault : d.fault d.log.length with
  | some e => exact ⟨[(c, some e)], by simp [Device.record], by simpa using h⟩
  | none =>
    cases hstep : step d with
    | error e => exact ⟨[(c, some e)], by simp [Device.record], by simpa using h⟩
    | ok r => exact ⟨[(c, none)], by simp, by simpa using h⟩

theorem logs_bind {α β : Type} {m : CL α} {f : α → CL β} {P : Call → Prop}
    (hm : Logs m P) (hf : ∀ a, Logs (f a) P) : Logs (m >>= f) P := by
  intro d
  obtain ⟨calls1, hlog1, h1⟩ := hm d
  rw [bind_apply]
  rcases hmd : m d with ⟨r, d1⟩
  rw [hmd] at hlog1
  cases r with
  | error e => exact ⟨calls1, hlog1, h1⟩
  | ok a =>
    obtain ⟨calls2, hlog2, h2⟩ := hf a d1
    refine ⟨calls1 ++ calls2, ?_, ?_⟩
    · simp only [hlog2]
      rw [show d1.log = d.log ++ calls1 from hlog1, List.append_assoc]
    · intro x hx
      rcases List.mem_append.mp hx with hx | hx
      · exact h1 x hx
      · exact h2 x hx

theorem logs_dispatch_size {α : Type} {m : CL α} {n : Nat}
    (h : Logs m fun c => ∀ name args global, c = Call.enqueueNDRangeKernel name args global →
      global = n) (d : Device) :
    ∀ x ∈ dispatches (callsSince d (m d).2), x.2 = n := by
  obtain ⟨calls, hlog, hP⟩ := h d
  rw [callsSince_append d _ calls hlog]
  clear hlog
  induction calls with
  | nil => intro x hx; simp [dispatches] at hx
  | cons y ys ih =>
    obtain ⟨c, r⟩ := y
    have hys : ∀ x ∈ ys, ∀ name args global,
        x.1 = Call.enqueueNDRangeKernel name args global → global = n :=
      fun x hx => hP x (List.mem_cons_of_mem _ hx)
    have hc := hP (c, r) (List.mem_cons_self _ _)
    cases c with
    | enqueueNDRangeKernel name args global =>
      intro x hx
      simp only [dispatches, List.mem_cons] at hx
      rcases hx with rfl | hx
      · exact hc name args global rfl
      · exact ih hys x hx
    | _ =>
      intro x hx
      simp only [dispatches] at hx
      exact ih hys x hx

/-! ## The stages of `cmp3752_assessment` -/

/-- The histogram builder of `cmp3752_assessment` on a device that reports no fault. -/
theorem assessment_create_intensity_histogram_run (program : Program) (img : CImg) (d : Device)
    (k : KernelFn) (hf : FaultFree d)
    (hk : program.kernels "create_intensity_histogram" = some k) (hs : 3 ≤ img.size) :
    ∃ d1, Assessment.create_intensity_histogram program img d =
        (Except.ok (readCells
          (k [d.count, d.count + 1] (img.size / 3)
            (writeCells d.mem d.count img.size (img.data.map Int.ofNat))) (d.count + 1) 768), d1) ∧
      d1.fault = d.fault ∧
      d1.log = d.log ++
        [(Call.createBuffer MemFlags.CL_MEM_READ_ONLY img.size, none),
         (Call.createBuffer MemFlags.CL_MEM_WRITE_ONLY 3072, none),
         (Call.enqueueWriteBuffer d.count img.size, none),
         (Call.createKernel "create_intensity_histogram", none),
         (Call.enqueueNDRangeKernel "create_intensity_histogram" [d.count, d.count + 1] (img.size / 3), none),
         (Call.enqueueReadBuffer (d.count + 1) 3072, none)] := by
  refine ⟨(Assessment.create_intensity_histogram program img d).2, ?_, ?_, ?_⟩ <;>
  · unfold Assessment.create_intensity_histogram FaultFree at *
    have hlen : (List.replicate (256 * 3) (0:Int)).length = 768 := List.length_replicate _ _
    generalize List.replicate (256 * 3) (0:Int) = H at hlen ⊢
    simp (disch := first | omega |
        (simp only [sizeof_int, ImageProcessing.COLOR_CHANNELS, ImageProcessing.BIN_COUNT]; omega) | (simp [hf, hs, sizeof_int, hlen]; done) |
        (simp [hf, hs, sizeof_int, hlen]; omega)) only
      [bind_apply, pure_apply, buffer_create_run, enqueueWriteBuffer_run,
        kernel_create_run _ _ _ _ _ hk, enqueueNDRangeKernel_run, enqueueReadBuffer_run]
    try simp [hlen, sizeof_int, sizeof_uchar, Kernel.setArg]

/-- The cumulative transform of `cmp3752_assessment` on a device that reports no fault. -/
theorem assessment_cumulate_histogram_run (program : Program) (histogram : List Int) (d : Device)
    (k : KernelFn) (hf : FaultFree d)
    (hk : program.kernels "cumulate_histogram" = some k) (hs : 3 ≤ histogram.length) :
    ∃ d1, Assessment.cumulate_histogram program histogram d =
        (Except.ok (readCells
          (k [d.count, d.count] (histogram.length / 3)
            (writeCells d.mem d.count histogram.length histogram)) d.count histogram.length), d1) ∧
      d1.fault = d.fault ∧
      d1.log = d.log ++
        [(Call.createBuffer MemFlags.CL_MEM_READ_WRITE (4 * histogram.length), none),
         (Call.enqueueWriteBuffer d.count (4 * histogram.length), none),
         (Call.createKernel "cumulate_histogram", none),
         (Call.enqueueNDRangeKernel "cumulate_histogram" [d.count, d.count] (histogram.length / 3), none),
         (Call.enqueueReadBuffer d.count (4 * histogram.length), none)] := by
  refine ⟨(Assessment.cumulate_histogram program histogram d).2, ?_, ?_, ?_⟩ <;>
  · unfold Assessment.cumulate_histogram FaultFree at *
    simp (disch := first | omega |
        (simp only [sizeof_int, ImageProcessing.COLOR_CHANNELS, ImageProcessing.BIN_COUNT]; omega) | (simp [hf, hs, sizeof_int]; done) |
        (simp [hf, hs, sizeof_int]; omega)) only
      [bind_apply, pure_apply, buffer_create_run, enqueueWriteBuffer_run,
        kernel_create_run _ _ _ _ _ hk, enqueueNDRangeKernel_run, enqueueReadBuffer_run]
    try simp [sizeof_int, sizeof_uchar, Kernel.setArg]

/-- The pixel remapper of `cmp3752_assessment` on a device that reports no fault. -/
theorem assessment_map_histogram_to_image_run (program : Program) (img : CImg)
    (histogram : List Int) (d : Device)
    (k : KernelFn) (hf : FaultFree d)
    (hk : program.kernels "map_cumulative_histogram_to_image" = some k)
    (hs : 3 ≤ img.size) (hh : histogram.length ≠ 0) :
    ∃ d1, Assessment.map_histogram_to_image program img histogram d =
        (Except.ok (CImg.ofValues ((readCells
          (k [d.count, d.count + 1, d.count + 2] (img.size / 3)
            (writeCells (writeCells d.mem d.count img.size (img.data.map Int.ofNat))
              (d.count + 1) histogram.length histogram)) (d.count + 2) img.size).map toUChar)
          img.width img.height img.depth img.spectrum), d1) ∧
      d1.fault = d.fault ∧
      d1.log = d.log ++
        [(Call.createBuffer MemFlags.CL_MEM_READ_ONLY img.size, none),
         (Call.createBuffer MemFlags.CL_MEM_READ_ONLY (4 * histogram.length), none),
         (Call.createBuffer MemFlags.CL_MEM_WRITE_ONLY img.size, none),
         (Call.enqueueWriteBuffer d.count img.size, none),
         (Call.enqueueWriteBuffer (d.count + 1) (4 * histogram.length), none),
         (Call.createKernel "map_cumulative_histogram_to_image", none),
         (Call.enqueueNDRangeKernel "map_cumulative_histogram_to_image"
            [d.count, d.count + 1, d.count + 2] (img.size / 3), none),
         (Call.enqueueReadBuffer (d.count + 2) img.size, none)] := by
  refine ⟨(Assessment.map_histogram_to_image program img histogram d).2, ?_, ?_, ?_⟩ <;>
  · unfold Assessment.map_histogram_to_image FaultFree at *
    simp (disch := first | omega |
        (simp only [sizeof_int, ImageProcessing.COLOR_CHANNELS, ImageProcessing.BIN_COUNT]; omega) | (simp [hf, hs, hh, sizeof_int]; done) |
        (simp [hf, hs, hh, sizeof_int]; omega)) only
      [bind_apply, pure_apply, buffer_create_run, enqueueWriteBuffer_run,
        kernel_create_run _ _ _ _ _ hk, enqueueNDRangeKernel_run, enqueueReadBuffer_run]
    try simp [sizeof_int, sizeof_uchar, Kernel.setArg]

theorem assessment_create_intensity_histogram_failFast (program : Program) (img : CImg) :
    FailFast (Assessment.create_intensity_histogram program img) := by
  unfold Assessment.create_intensity_histogram
  repeat (first
    | exact failFast_pure _
    | exact buffer_create_failFast _ _
    | exact enqueueWriteBuffer_failFast _ _ _ _
    | exact kernel_create_failFast _ _
    | exact enqueueNDRangeKernel_failFast _ _
    | exact enqueueReadBuffer_failFast _ _ _ _
    | refine failFast_bind ?_ fun _ => ?_)

/-- What a returning run of the histogram builder of `cmp3752_assessment` did. -/
theorem assessment_create_intensity_histogram_returns (program : Program) (img : CImg) :
    Returns (Assessment.create_intensity_histogram program img) fun histogram calls =>
      histogram.length = 768 ∧ img.size ≠ 0 ∧
      (∃ k, program.kernels "create_intensity_histogram" = some k) ∧
      dispatches calls = [("create_intensity_histogram", img.size / 3)] := by
  unfold Assessment.create_intensity_histogram
  refine returns_bind (buffer_create_returns _ _) fun b0 _ ⟨hs, hc0⟩ => ?_
  refine returns_bind (buffer_create_returns _ _) fun b1 _ ⟨_, hc1⟩ => ?_
  refine returns_bind (enqueueWriteBuffer_returns _ _ _ _) fun _ _ ⟨_, hc2⟩ => ?_
  refine returns_bind (kernel_create_returns _ _) fun kernel _ ⟨⟨hn, _, hk⟩, hc3⟩ => ?_
  refine returns_bind (enqueueNDRangeKernel_returns _ _) fun _ _ ⟨_, hc4⟩ => ?_
  refine returns_bind (enqueueReadBuffer_returns _ _ _ _) fun r _ ⟨hr, hc5⟩ => ?_
  refine returns_pure ⟨?_, hs, ⟨_, hk⟩, ?_⟩
  · rw [hr, List.length_replicate]; rfl
  · subst hc0 hc1 hc2 hc3 hc4 hc5
    simp [dispatches, Kernel.setArg, hn]

/-- The pipeline of `cmp3752_assessment` on a device that reports no fault. -/
theorem assessment_main_try_run (program : Program) (image_input : CImg) (d : Device)
    (k1 k2 k3 : KernelFn) (hf : FaultFree d) (hb : program.builds = true)
    (hk1 : program.kernels "create_intensity_histogram" = some k1)
    (hk2 : program.kernels "cumulate_histogram" = some k2)
    (hk3 : program.kernels "map_cumulative_histogram_to_image" = some k3)
    (hs : 3 ≤ image_input.size) :
    ∃ out d1, Assessment.main_try program image_input d = (Except.ok out, d1) ∧
      d1.fault = d.fault ∧
      dispatches (callsSince d d1) =
        [("create_intensity_histogram", image_input.size / 3), ("cumulate_histogram", 256),
         ("map_cumulative_histogram_to_image", image_input.size / 3)] := by
  have hf0 : FaultFree (Device.mk d.mem d.size d.count d.fault d.rejectsEmptyRange
      (d.log ++ [(Call.build, none)])) := hf
  obtain ⟨d1, h1, hf1, hl1⟩ :=
    assessment_create_intensity_histogram_run program image_input _ k1 hf0 hk1 hs
  generalize hh1 : readCells _ _ _ = hist at h1
  have hlen1 : hist.length = 768 := by rw [← hh1, readCells_length]
  obtain ⟨d2, h2, hf2, hl2⟩ :=
    assessment_cumulate_histogram_run program hist d1 k2 (faultFree_of_eq hf0 hf1) hk2 (by omega)
  generalize hh2 : readCells _ _ _ = cumulative at h2
  have hlen2 : cumulative.length = 768 := by rw [← hh2, readCells_length, hlen1]
  obtain ⟨d3, h3, hf3, hl3⟩ :=
    assessment_map_histogram_to_image_run program image_input cumulative d2 k3
      (faultFree_of_eq (faultFree_of_eq hf0 hf1) hf2) hk3 hs (by omega)
  generalize CImg.ofValues _ _ _ _ _ = out at h3
  refine ⟨out, d3, ?_, ?_, ?_⟩
  · unfold Assessment.main_try
    simp only [bind_apply, pure_apply, program_build_run program d (hf _) hb, h1, h2, h3]
  · rw [hf3, hf2, hf1]
  · rw [callsSince_append d d3 _ (by rw [hl3, hl2, hl1, List.append_assoc, List.append_assoc, List.append_assoc])]
    simp [dispatches, hlen1]

theorem assessment_cumulate_histogram_failFast (program : Program) (histogram : List Int) :
    FailFast (Assessment.cumulate_histogram program histogram) := by
  unfold Assessment.cumulate_histogram
  repeat (first
    | exact failFast_pure _
    | exact buffer_create_failFast _ _
    | exact enqueueWriteBuffer_failFast _ _ _ _
    | exact kernel_create_failFast _ _
    | exact enqueueNDRangeKernel_failFast _ _
    | exact enqueueReadBuffer_failFast _ _ _ _
    | refine failFast_bind ?_ fun _ => ?_)

theorem assessment_map_histogram_to_image_failFast (program : Program) (img : CImg)
    (histogram : List Int) : FailFast (Assessment.map_histogram_to_image program img histogram) := by
  unfold Assessment.map_histogram_to_image
  repeat (first
    | exact failFast_pure _
    | exact buffer_create_failFast _ _
    | exact enqueueWriteBuffer_failFast _ _ _ _
    | exact kernel_create_failFast _ _
    | exact enqueueNDRangeKernel_failFast _ _
    | exact enqueueReadBuffer_failFast _ _ _ _
    | refine failFast_bind ?_ fun _ => ?_)

theorem assessment_main_try_failFast (program : Program) (image_input : CImg) :
    FailFast (Assessment.main_try program image_input) := by
  unfold Assessment.main_try
  repeat (first
    | exact failFast_pure _
    | exact program_build_failFast _
    | exact assessment_create_intensity_histogram_failFast _ _
    | exact assessment_cumulate_histogram_failFast _ _
    | exact assessment_map_histogram_to_image_failFast _ _ _
    | refine failFast_bind ?_ fun _ => ?_)

/-- What a returning run of the cumulative transform of `cmp3752_assessment` did. -/
theorem assessment_cumulate_histogram_returns (program : Program) (histogram : List Int) :
    Returns (Assessment.cumulate_histogram program histogram) fun cumulative calls =>
      cumulative.length = histogram.length ∧ histogram.length ≠ 0 ∧
      (∃ k, program.kernels "cumulate_histogram" = some k) ∧
      dispatches calls = [("cumulate_histogram", histogram.length / 3)] := by
  unfold Assessment.cumulate_histogram
  refine returns_bind (buffer_create_returns _ _) fun b0 _ ⟨hs, hc0⟩ => ?_
  refine returns_bind (enqueueWriteBuffer_returns _ _ _ _) fun _ _ ⟨_, hc2⟩ => ?_
  refine returns_bind (kernel_create_returns _ _) fun kernel _ ⟨⟨hn, _, hk⟩, hc3⟩ => ?_
  refine returns_bind (enqueueNDRangeKernel_returns _ _) fun _ _ ⟨_, hc4⟩ => ?_
  refine returns_bind (enqueueReadBuffer_returns _ _ _ _) fun r _ ⟨hr, hc5⟩ => ?_
  refine returns_pure ⟨?_, ?_, ⟨_, hk⟩, ?_⟩
  · rw [hr]; simp [sizeof_int]
  · intro h0; simp [h0, sizeof_int] at hs
  · subst hc0 hc2 hc3 hc4 hc5
    simp [dispatches, Kernel.setArg, hn]

/-- What a returning run of the pixel remapper of `cmp3752_assessment` did. -/
theorem assessment_map_histogram_to_image_returns (program : Program) (img : CImg)
    (histogram : List Int) :
    Returns (Assessment.map_histogram_to_image program img histogram) fun out calls =>
      (out.width = img.width ∧ out.height = img.height ∧ out.depth = img.depth ∧
        out.spectrum = img.spectrum ∧ out.data.length = img.data.length) ∧
      img.size ≠ 0 ∧ histogram.length ≠ 0 ∧
      (∃ k, program.kernels "map_cumulative_histogram_to_image" = some k) ∧
      dispatches calls = [("map_cumulative_histogram_to_image", img.size / 3)] := by
  unfold Assessment.map_histogram_to_image
  refine returns_bind (buffer_create_returns _ _) fun b0 _ ⟨hs, hc0⟩ => ?_
  refine returns_bind (buffer_create_returns _ _) fun b1 _ ⟨hh, hc1⟩ => ?_
  refine returns_bind (buffer_create_returns _ _) fun b2 _ ⟨_, hc2⟩ => ?_
  refine returns_bind (enqueueWriteBuffer_returns _ _ _ _) fun _ _ ⟨_, hc3⟩ => ?_
  refine returns_bind (enqueueWriteBuffer_returns _ _ _ _) fun _ _ ⟨_, hc4⟩ => ?_
  refine returns_bind (kernel_create_returns _ _) fun kernel _ ⟨⟨hn, _, hk⟩, hc5⟩ => ?_
  refine returns_bind (enqueueNDRangeKernel_returns _ _) fun _ _ ⟨_, hc6⟩ => ?_
  refine returns_bind (enqueueReadBuffer_returns _ _ _ _) fun r _ ⟨hr, hc7⟩ => ?_
  refine returns_pure ⟨cImg_ofValues_shape _ img hs, hs, ?_, ⟨_, hk⟩, ?_⟩
  · intro h0; simp [h0, sizeof_int] at hh
  · subst hc0 hc1 hc2 hc3 hc4 hc5 hc6 hc7
    simp [dispatches, Kernel.setArg, hn]

/-- A returning run of the driver of `cmp3752_assessment` is the composition of its stages. -/
theorem assessment_main_try_composed (program : Program) (image_input : CImg) (d : Device)
    (out : CImg) (h : (Assessment.main_try program image_input d).1 = Except.ok out) :
    ComposedRun program.build (Assessment.create_intensity_histogram program image_input)
      (Assessment.cumulate_histogram program)
      (Assessment.map_histogram_to_image program image_input)
      ["create_intensity_histogram", "cumulate_histogram", "map_cumulative_histogram_to_image"]
      d (Assessment.main_try program image_input d) out := by
  unfold Assessment.main_try at h ⊢
  obtain ⟨u, d0, h0, e0⟩ := bind_ok h
  rw [e0] at h ⊢
  obtain ⟨hist, d1, h1, e1⟩ := bind_ok h
  rw [e1] at h ⊢
  obtain ⟨cumulative, d2, h2, e2⟩ := bind_ok h
  rw [e2] at h ⊢
  obtain ⟨out1, d3, h3, e3⟩ := bind_ok h
  rw [e3, pure_apply] at h ⊢
  cases h
  obtain ⟨c0, l0, _, hc0⟩ := program_build_returns program d u d0 h0
  obtain ⟨c1, l1, _, _, _, hd1⟩ :=
    assessment_create_intensity_histogram_returns program image_input d0 hist d1 h1
  obtain ⟨c2, l2, _, _, _, hd2⟩ := assessment_cumulate_histogram_returns program hist d1 cumulative d2 h2
  obtain ⟨c3, l3, _, _, _, _, hd3⟩ :=
    assessment_map_histogram_to_image_returns program image_input cumulative d2 out d3 h3
  refine ⟨d0, hist, d1, cumulative, d2, h0, h1, h2, h3, ?_⟩
  rw [callsSince_append d d3 (c0 ++ (c1 ++ (c2 ++ c3)))
    (by rw [l3, l2, l1, l0]; simp only [List.append_assoc])]
  simp [dispatches_append, hd1, hd2, hd3, hc0, dispatches]

/-- Every kernel dispatch of the pixel remapper of `cmp3752_assessment`, in
any run, is over `img.size() / 3` work items. -/
theorem assessment_map_histogram_to_image_logs (program : Program) (img : CImg)
    (histogram : List Int) :
    Logs (Assessment.map_histogram_to_image program img histogram)
      fun c => ∀ name args global, c = Call.enqueueNDRangeKernel name args global →
        global = img.size / 3 := by
  unfold Assessment.map_histogram_to_image
  repeat (first
    | exact logs_pure _ _
    | exact logs_call _ _ (by intro name args global h; first | (cases h; rfl) | cases h)
    | refine logs_bind ?_ fun _ => ?_)

theorem assessment_create_intensity_histogram_empty (program : Program) (img : CImg) (d : Device)
    (h0 : img.size = 0) :
    ∃ e, (d.fault d.log.length = none → e = ClError.CL_INVALID_BUFFER_SIZE) ∧
      Assessment.create_intensity_histogram program img d =
        (Except.error e, d.record (Call.createBuffer MemFlags.CL_MEM_READ_ONLY 0) (some e)) := by
  obtain ⟨e, he, h⟩ := buffer_create_zero MemFlags.CL_MEM_READ_ONLY d
  refine ⟨e, he, ?_⟩
  unfold Assessment.create_intensity_histogram
  simp only [bind_apply, h0, h]

theorem assessment_main_none (program : Program) (image_input : CImg) (d : Device) (e : ClError)
    (h : (Assessment.main_try program image_input d).1 = Except.error e) :
    (Assessment.main program image_input d).1 = none := by
  unfold Assessment.main
  rcases hr : Assessment.main_try program image_input d with ⟨r, d1⟩
  rw [hr] at h
  cases r with
  | error e1 => rfl
  | ok a => cases h

/-! ## The stages of `cmp3752_image_processing-main` -/

/-- The histogram builder of `cmp3752_image_processing-main` on a device that reports no fault. -/
theorem imageProcessing_createIntensityHistogram_run (program : Program) (from_ : CImg) (d : Device)
    (k : KernelFn) (hf : FaultFree d)
    (hk : program.kernels "create_intensity_histogram" = some k) (hs : 3 ≤ from_.size) :
    ∃ d1, ImageProcessing.createIntensityHistogram program from_ d =
        (Except.ok (readCells
          (k [d.count, d.count + 1] (from_.size / 3)
            (writeCells d.mem d.count from_.size (from_.data.map Int.ofNat))) (d.count + 1) 768), d1) ∧
      d1.fault = d.fault ∧
      d1.log = d.log ++
        [(Call.createBuffer MemFlags.CL_MEM_READ_ONLY from_.size, none),
         (Call.createBuffer MemFlags.CL_MEM_READ_WRITE 3072, none),
         (Call.enqueueWriteBuffer d.count from_.size, none),
         (Call.createKernel "create_intensity_histogram", none),
         (Call.enqueueNDRangeKernel "create_intensity_histogram" [d.count, d.count + 1] (from_.size / 3), none),
         (Call.enqueueReadBuffer (d.count + 1) 3072, none)] := by
  refine ⟨(ImageProcessing.createIntensityHistogram program from_ d).2, ?_, ?_, ?_⟩ <;>
  · unfold ImageProcessing.createIntensityHistogram FaultFree at *
    have hlen : (List.replicate (ImageProcessing.BIN_COUNT * ImageProcessing.COLOR_CHANNELS) (0:Int)).length = 768 :=
      List.length_replicate _ _
    generalize List.replicate (ImageProcessing.BIN_COUNT * ImageProcessing.COLOR_CHANNELS) (0:Int) = H at hlen ⊢
    simp (disch := first | omega |
        (simp only [sizeof_int, ImageProcessing.COLOR_CHANNELS, ImageProcessing.BIN_COUNT]; omega) |
        (simp [hf, hs, sizeof_int, hlen, ImageProcessing.BIN_COUNT, ImageProcessing.COLOR_CHANNELS]; done) |
        (simp [hf, hs, sizeof_int, hlen, ImageProcessing.BIN_COUNT, ImageProcessing.COLOR_CHANNELS]; omega)) only
      [bind_apply, pure_apply, buffer_create_run, enqueueWriteBuffer_run,
        kernel_create_run _ _ _ _ _ hk, enqueueNDRangeKernel_run, enqueueReadBuffer_run]
    try simp [hlen, sizeof_int, sizeof_uchar, Kernel.setArg, ImageProcessing.BIN_COUNT,
      ImageProcessing.COLOR_CHANNELS]

/-- The cumulative transform of `cmp3752_image_processing-main` on a device that reports no fault. -/
theorem imageProcessing_cumulateHistogram_run (program : Program) (histogram : List Int) (d : Device)
    (k : KernelFn) (hf : FaultFree d)
    (hk : program.kernels "cumulate_histogram" = some k) (hs : 3 ≤ histogram.length) :
    ∃ d1, ImageProcessing.cumulateHistogram program histogram d =
        (Except.ok (readCells
          (k [d.count, d.count + 1] (histogram.length / 3)
            (writeCells d.mem d.count histogram.length histogram)) (d.count + 1) histogram.length), d1) ∧
      d1.fault = d.fault ∧
      d1.log = d.log ++
        [(Call.createBuffer MemFlags.CL_MEM_READ_WRITE (histogram.length * 4), none),
         (Call.createBuffer MemFlags.CL_MEM_READ_WRITE (histogram.length * 4), none),
         (Call.enqueueWriteBuffer d.count (histogram.length * 4), none),
         (Call.createKernel "cumulate_histogram", none),
         (Call.enqueueNDRangeKernel "cumulate_histogram" [d.count, d.count + 1] (histogram.length / 3), none),
         (Call.enqueueReadBuffer (d.count + 1) (histogram.length * 4), none)] := by
  refine ⟨(ImageProcessing.cumulateHistogram program histogram d).2, ?_, ?_, ?_⟩ <;>
  · unfold ImageProcessing.cumulateHistogram FaultFree at *
    simp (disch := first | omega |
        (simp only [sizeof_int, ImageProcessing.COLOR_CHANNELS, ImageProcessing.BIN_COUNT]; omega) | (simp [hf, hs, sizeof_int]; done) |
        (simp [hf, hs, sizeof_int]; omega)) only
      [bind_apply, pure_apply, buffer_create_run, enqueueWriteBuffer_run,
        kernel_create_run _ _ _ _ _ hk, enqueueNDRangeKernel_run, enqueueReadBuffer_run]
    try simp [sizeof_int, sizeof_uchar, Kernel.setArg, ImageProcessing.COLOR_CHANNELS]

/-- The pixel remapper of `cmp3752_image_processing-main` on a device that reports no fault. -/
theorem imageProcessing_mapCumulativeHistogramToImage_run (program : Program) (inputImage : CImg)
    (cumulativeHistogram : List Int) (d : Device)
    (k : KernelFn) (hf : FaultFree d)
    (hk : program.kernels "map_cumulative_histogram_to_image" = some k)
    (hs : 3 ≤ inputImage.size) (hh : cumulativeHistogram.length ≠ 0) :
    ∃ d1, ImageProcessing.mapCumulativeHistogramToImage program inputImage cumulativeHistogram d =
        (Except.ok (CImg.ofValues ((readCells
          (k [d.count, d.count + 1, d.count + 2] (inputImage.size / 3)
            (writeCells (writeCells d.mem d.count inputImage.size (inputImage.data.map Int.ofNat))
              (d.count + 1) cumulativeHistogram.length cumulativeHistogram))
            (d.count + 2) inputImage.size).map toUChar)
          inputImage.width inputImage.height inputImage.depth inputImage.spectrum), d1) ∧
      d1.fault = d.fault ∧
      d1.log = d.log ++
        [(Call.createBuffer MemFlags.CL_MEM_READ_ONLY inputImage.size, none),
         (Call.createBuffer MemFlags.CL_MEM_READ_ONLY (cumulativeHistogram.length * 4), none),
         (Call.createBuffer MemFlags.CL_MEM_READ_WRITE inputImage.size, none),
         (Call.enqueueWriteBuffer d.count inputImage.size, none),
         (Call.enqueueWriteBuffer (d.count + 1) (cumulativeHistogram.length * 4), none),
         (Call.createKernel "map_cumulative_histogram_to_image", none),
         (Call.enqueueNDRangeKernel "map_cumulative_histogram_to_image"
            [d.count, d.count + 1, d.count + 2] (inputImage.size / 3), none),
         (Call.enqueueReadBuffer (d.count + 2) inputImage.size, none)] := by
  refine ⟨(ImageProcessing.mapCumulativeHistogramToImage program inputImage cumulativeHistogram d).2,
    ?_, ?_, ?_⟩ <;>
  · unfold ImageProcessing.mapCumulativeHistogramToImage FaultFree at *
    simp (disch := first | omega |
        (simp only [sizeof_int, ImageProcessing.COLOR_CHANNELS, ImageProcessing.BIN_COUNT]; omega) | (simp [hf, hs, hh, sizeof_int]; done) |
        (simp [hf, hs, hh, sizeof_int]; omega)) only
      [bind_apply, pure_apply, buffer_create_run, enqueueWriteBuffer_run,
        kernel_create_run _ _ _ _ _ hk, enqueueNDRangeKernel_run, enqueueReadBuffer_run]
    try simp [sizeof_int, sizeof_uchar, Kernel.setArg, ImageProcessing.COLOR_CHANNELS]

theorem imageProcessing_createIntensityHistogram_failFast (program : Program) (from_ : CImg) :
    FailFast (ImageProcessing.createIntensityHistogram program from_) := by
  unfold ImageProcessing.createIntensityHistogram
  repeat (first
    | exact failFast_pure _
    | exact buffer_create_failFast _ _
    | exact enqueueWriteBuffer_failFast _ _ _ _
    | exact kernel_create_failFast _ _
    | exact enqueueNDRangeKernel_failFast _ _
    | exact enqueueReadBuffer_failFast _ _ _ _
    | refine failFast_bind ?_ fun _ => ?_)

theorem imageProcessing_cumulateHistogram_failFast (program : Program) (histogram : List Int) :
    FailFast (ImageProcessing.cumulateHistogram program histogram) := by
  unfold ImageProcessing.cumulateHistogram
  repeat (first
    | exact failFast_pure _
    | exact buffer_create_failFast _ _
    | exact enqueueWriteBuffer_failFast _ _ _ _
    | exact kernel_create_failFast _ _
    | exact enqueueNDRangeKernel_failFast _ _
    | exact enqueueReadBuffer_failFast _ _ _ _
    | refine failFast_bind ?_ fun _ => ?_)

theorem imageProcessing_mapCumulativeHistogramToImage_failFast (program : Program)
    (inputImage : CImg) (cumulativeHistogram : List Int) :
    FailFast (ImageProcessing.mapCumulativeHistogramToImage program inputImage cumulativeHistogram) := by
  unfold ImageProcessing.mapCumulativeHistogramToImage
  repeat (first
    | exact failFast_pure _
    | exact buffer_create_failFast _ _
    | exact enqueueWriteBuffer_failFast _ _ _ _
    | exact kernel_create_failFast _ _
    | exact enqueueNDRangeKernel_failFast _ _
    | exact enqueueReadBuffer_failFast _ _ _ _
    | refine failFast_bind ?_ fun _ => ?_)

theorem imageProcessing_main_try_failFast (program : Program) (inputImage : CImg) :
    FailFast (ImageProcessing.main_try program inputImage) := by
  unfold ImageProcessing.main_try
  repeat (first
    | exact failFast_pure _
    | exact program_build_failFast _
    | exact imageProcessing_createIntensityHistogram_failFast _ _
    | exact imageProcessing_cumulateHistogram_failFast _ _
    | exact imageProcessing_mapCumulativeHistogramToImage_failFast _ _ _
    | refine failFast_bind ?_ fun _ => ?_)

/-- What a returning run of the histogram builder of `cmp3752_image_processing-main` did. -/
theorem imageProcessing_createIntensityHistogram_returns (program : Program) (from_ : CImg) :
    Returns (ImageProcessing.createIntensityHistogram program from_) fun histogram calls =>
      histogram.length = 768 ∧ from_.size ≠ 0 ∧
      (∃ k, program.kernels "create_intensity_histogram" = some k) ∧
      dispatches calls = [("create_intensity_histogram", from_.size / 3)] := by
  unfold ImageProcessing.createIntensityHistogram
  refine returns_bind (buffer_create_returns _ _) fun b0 _ ⟨hs, hc0⟩ => ?_
  refine returns_bind (buffer_create_returns _ _) fun b1 _ ⟨_, hc1⟩ => ?_
  refine returns_bind (enqueueWriteBuffer_returns _ _ _ _) fun _ _ ⟨_, hc2⟩ => ?_
  refine returns_bind (kernel_create_returns _ _) fun kernel _ ⟨⟨hn, _, hk⟩, hc3⟩ => ?_
  refine returns_bind (enqueueNDRangeKernel_returns _ _) fun _ _ ⟨_, hc4⟩ => ?_
  refine returns_bind (enqueueReadBuffer_returns _ _ _ _) fun r _ ⟨hr, hc5⟩ => ?_
  refine returns_pure ⟨?_, hs, ⟨_, hk⟩, ?_⟩
  · rw [hr, List.length_replicate]; rfl
  · subst hc0 hc1 hc2 hc3 hc4 hc5
    simp [dispatches, Kernel.setArg, hn, ImageProcessing.COLOR_CHANNELS]

/-- What a returning run of the cumulative transform of `cmp3752_image_processing-main` did. -/
theorem imageProcessing_cumulateHistogram_returns (program : Program) (histogram : List Int) :
    Returns (ImageProcessing.cumulateHistogram program histogram) fun cumulative calls =>
      cumulative.length = histogram.length ∧ histogram.length ≠ 0 ∧
      (∃ k, program.kernels "cumulate_histogram" = some k) ∧
      dispatches calls = [("cumulate_histogram", histogram.length / 3)] := by
  unfold ImageProcessing.cumulateHistogram
  refine returns_bind (buffer_create_returns _ _) fun b0 _ ⟨hs, hc0⟩ => ?_
  refine returns_bind (buffer_create_returns _ _) fun b1 _ ⟨_, hc1⟩ => ?_
  refine returns_bind (enqueueWriteBuffer_returns _ _ _ _) fun _ _ ⟨_, hc2⟩ => ?_
  refine returns_bind (kernel_create_returns _ _) fun kernel _ ⟨⟨hn, _, hk⟩, hc3⟩ => ?_
  refine returns_bind (enqueueNDRangeKernel_returns _ _) fun _ _ ⟨_, hc4⟩ => ?_
  refine returns_bind (enqueueReadBuffer_returns _ _ _ _) fun r _ ⟨hr, hc5⟩ => ?_
  refine returns_pure ⟨?_, ?_, ⟨_, hk⟩, ?_⟩
  · rw [hr]; simp [sizeof_int]
  · intro h0; simp [h0, sizeof_int] at hs
  · subst hc0 hc1 hc2 hc3 hc4 hc5
    simp [dispatches, Kernel.setArg, hn, ImageProcessing.COLOR_CHANNELS]

/-- What a returning run of the pixel remapper of `cmp3752_image_processing-main` did. -/
theorem imageProcessing_mapCumulativeHistogramToImage_returns (program : Program)
    (inputImage : CImg) (cumulativeHistogram : List Int) :
    Returns (ImageProcessing.mapCumulativeHistogramToImage program inputImage cumulativeHistogram)
      fun out calls =>
      (out.width = inputImage.width ∧ out.height = inputImage.height ∧
        out.depth = inputImage.depth ∧ out.spectrum = inputImage.spectrum ∧
        out.data.length = inputImage.data.length) ∧
      inputImage.size ≠ 0 ∧ cumulativeHistogram.length ≠ 0 ∧
      (∃ k, program.kernels "map_cumulative_histogram_to_image" = some k) ∧
      dispatches calls = [("map_cumulative_histogram_to_image", inputImage.size / 3)] := by
  unfold ImageProcessing.mapCumulativeHistogramToImage
  refine returns_bind (buffer_create_returns _ _) fun b0 _ ⟨hs, hc0⟩ => ?_
  refine returns_bind (buffer_create_returns _ _) fun b1 _ ⟨hh, hc1⟩ => ?_
  refine returns_bind (buffer_create_returns _ _) fun b2 _ ⟨_, hc2⟩ => ?_
  refine returns_bind (enqueueWriteBuffer_returns _ _ _ _) fun _ _ ⟨_, hc3⟩ => ?_
  refine returns_bind (enqueueWriteBuffer_returns _ _ _ _) fun _ _ ⟨_, hc4⟩ => ?_
  refine returns_bind (kernel_create_returns _ _) fun kernel _ ⟨⟨hn, _, hk⟩, hc5⟩ => ?_
  refine returns_bind (enqueueNDRangeKernel_returns _ _) fun _ _ ⟨_, hc6⟩ => ?_
  refine returns_bind (enqueueReadBuffer_returns _ _ _ _) fun r _ ⟨hr, hc7⟩ => ?_
  refine returns_pure ⟨cImg_ofValues_shape _ inputImage hs, hs, ?_, ⟨_, hk⟩, ?_⟩
  · intro h0; simp [h0, sizeof_int] at hh
  · subst hc0 hc1 hc2 hc3 hc4 hc5 hc6 hc7
    simp [dispatches, Kernel.setArg, hn, ImageProcessing.COLOR_CHANNELS]

/-- The pipeline of `cmp3752_image_processing-main` on a device that reports no fault. -/
theorem imageProcessing_main_try_run (program : Program) (inputImage : CImg) (d : Device)
    (k1 k2 k3 : KernelFn) (hf : FaultFree d) (hb : program.builds = true)
    (hk1 : program.kernels "create_intensity_histogram" = some k1)
    (hk2 : program.kernels "cumulate_histogram" = some k2)
    (hk3 : program.kernels "map_cumulative_histogram_to_image" = some k3)
    (hs : 3 ≤ inputImage.size) :
    ∃ out d1, ImageProcessing.main_try program inputImage d = (Except.ok out, d1) ∧
      d1.fault = d.fault ∧
      dispatches (callsSince d d1) =
        [("create_intensity_histogram", inputImage.size / 3), ("cumulate_histogram", 256),
         ("map_cumulative_histogram_to_image", inputImage.size / 3)] := by
  have hf0 : FaultFree (Device.mk d.mem d.size d.count d.fault d.rejectsEmptyRange
      (d.log ++ [(Call.build, none)])) := hf
  obtain ⟨d1, h1, hf1, hl1⟩ :=
    imageProcessing_createIntensityHistogram_run program inputImage _ k1 hf0 hk1 hs
  generalize hh1 : readCells _ _ _ = hist at h1
  have hlen1 : hist.length = 768 := by rw [← hh1, readCells_length]
  obtain ⟨d2, h2, hf2, hl2⟩ :=
    imageProcessing_cumulateHistogram_run program hist d1 k2 (faultFree_of_eq hf0 hf1) hk2 (by omega)
  generalize hh2 : readCells _ _ _ = cumulative at h2
  have hlen2 : cumulative.length = 768 := by rw [← hh2, readCells_length, hlen1]
  obtain ⟨d3, h3, hf3, hl3⟩ :=
    imageProcessing_mapCumulativeHistogramToImage_run program inputImage cumulative d2 k3
      (faultFree_of_eq (faultFree_of_eq hf0 hf1) hf2) hk3 hs (by omega)
  generalize CImg.ofValues _ _ _ _ _ = out at h3
  refine ⟨out, d3, ?_, ?_, ?_⟩
  · unfold ImageProcessing.main_try
    simp only [bind_apply, pure_apply, program_build_run program d (hf _) hb, h1, h2, h3]
  · rw [hf3, hf2, hf1]
  · rw [callsSince_append d d3 _
      (by rw [hl3, hl2, hl1, List.append_assoc, List.append_assoc, List.append_assoc])]
    simp [dispatches, hlen1]

/-- A returning run of the driver of `cmp3752_image_processing-main` is the composition of its stages. -/
theorem imageProcessing_main_try_composed (program : Program) (inputImage : CImg) (d : Device)
    (out : CImg) (h : (ImageProcessing.main_try program inputImage d).1 = Except.ok out) :
    ComposedRun program.build (ImageProcessing.createIntensityHistogram program inputImage)
      (ImageProcessing.cumulateHistogram program)
      (ImageProcessing.mapCumulativeHistogramToImage program inputImage)
      ["create_intensity_histogram", "cumulate_histogram", "map_cumulative_histogram_to_image"]
      d (ImageProcessing.main_try program inputImage d) out := by
  unfold ImageProcessing.main_try at h ⊢
  obtain ⟨u, d0, h0, e0⟩ := bind_ok h
  rw [e0] at h ⊢
  obtain ⟨hist, d1, h1, e1⟩ := bind_ok h
  rw [e1] at h ⊢
  obtain ⟨cumulative, d2, h2, e2⟩ := bind_ok h
  rw [e2] at h ⊢
  obtain ⟨out1, d3, h3, e3⟩ := bind_ok h
  rw [e3, pure_apply] at h ⊢
  cases h
  obtain ⟨c0, l0, _, hc0⟩ := program_build_returns program d u d0 h0
  obtain ⟨c1, l1, _, _, _, hd1⟩ :=
    imageProcessing_createIntensityHistogram_returns program inputImage d0 hist d1 h1
  obtain ⟨c2, l2, _, _, _, hd2⟩ :=
    imageProcessing_cumulateHistogram_returns program hist d1 cumulative d2 h2
  obtain ⟨c3, l3, _, _, _, _, hd3⟩ :=
    imageProcessing_mapCumulativeHistogramToImage_returns program inputImage cumulative d2 out d3 h3
  refine ⟨d0, hist, d1, cumulative, d2, h0, h1, h2, h3, ?_⟩
  rw [callsSince_append d d3 (c0 ++ (c1 ++ (c2 ++ c3)))
    (by rw [l3, l2, l1, l0]; simp only [List.append_assoc])]
  simp [dispatches_append, hd1, hd2, hd3, hc0, dispatches]

/-- Every kernel dispatch of the pixel remapper of
`cmp3752_image_processing-main`, in any run, is over `inputImage.size() / 3`
work items. -/
theorem imageProcessing_mapCumulativeHistogramToImage_logs (program : Program)
    (inputImage : CImg) (cumulativeHistogram : List Int) :
    Logs (ImageProcessing.mapCumulativeHistogramToImage program inputImage cumulativeHistogram)
      fun c => ∀ name args global, c = Call.enqueueNDRangeKernel name args global →
        global = inputImage.size / 3 := by
  unfold ImageProcessing.mapCumulativeHistogramToImage
  repeat (first
    | exact logs_pure _ _
    | exact logs_call _ _ (by intro name args global h; first | (cases h; rfl) | cases h)
    | refine logs_bind ?_ fun _ => ?_)

theorem imageProcessing_createIntensityHistogram_empty (program : Program) (from_ : CImg)
    (d : Device) (h0 : from_.size = 0) :
    ∃ e, (d.fault d.log.length = none → e = ClError.CL_INVALID_BUFFER_SIZE) ∧
      ImageProcessing.createIntensityHistogram program from_ d =
        (Except.error e, d.record (Call.createBuffer MemFlags.CL_MEM_READ_ONLY 0) (some e)) := by
  obtain ⟨e, he, h⟩ := buffer_create_zero MemFlags.CL_MEM_READ_ONLY d
  refine ⟨e, he, ?_⟩
  unfold ImageProcessing.createIntensityHistogram
  simp only [bind_apply, h0, h]

theorem imageProcessing_main_none (program : Program) (inputImage : CImg) (d : Device) (e : ClError)
    (h : (ImageProcessing.main_try program inputImage d).1 = Except.error e) :
    (ImageProcessing.main program inputImage d).1 = none := by
  unfold ImageProcessing.main
  rcases hr : ImageProcessing.main_try program inputImage d with ⟨r, d1⟩
  rw [hr] at h
  cases r with
  | error e1 => rfl
  | ok a => cases h

/-! ## The stages of `thisOne` -/

/-- The histogram builder of `thisOne` makes the same calls as that of `cmp3752_assessment`. -/
theorem thisOne_create_intensity_histogram_eq (program : Program) (img : CImg) :
    ThisOne.create_intensity_histogram program img =
      Assessment.create_intensity_histogram program img := rfl

/-- The pixel remapper of `thisOne` makes the same calls as that of `cmp3752_assessment`. -/
theorem thisOne_map_histogram_to_image_eq (program : Program) (img : CImg) (histogram : List Int) :
    ThisOne.map_histogram_to_image program img histogram =
      Assessment.map_histogram_to_image program img histogram := rfl

/-- The cumulative transform of `thisOne` on a device that reports no fault. -/
theorem thisOne_cumulate_histogram_run (program : Program) (histogram : List Int) (d : Device)
    (k : KernelFn) (hf : FaultFree d)
    (hk : program.kernels "cumulate_histogram_bl" = some k) (hs : histogram.length ≠ 0) :
    ∃ d1, ThisOne.cumulate_histogram program histogram d =
        (Except.ok (readCells
          (k [d.count] histogram.length
            (writeCells d.mem d.count histogram.length histogram)) d.count histogram.length), d1) ∧
      d1.fault = d.fault ∧
      d1.log = d.log ++
        [(Call.createBuffer MemFlags.CL_MEM_READ_WRITE (4 * histogram.length), none),
         (Call.enqueueWriteBuffer d.count (4 * histogram.length), none),
         (Call.createKernel "cumulate_histogram_bl", none),
         (Call.enqueueNDRangeKernel "cumulate_histogram_bl" [d.count] histogram.length, none),
         (Call.enqueueReadBuffer d.count (4 * histogram.length), none)] := by
  refine ⟨(ThisOne.cumulate_histogram program histogram d).2, ?_, ?_, ?_⟩ <;>
  · unfold ThisOne.cumulate_histogram FaultFree at *
    simp (disch := first | omega |
        (simp only [sizeof_int, ImageProcessing.COLOR_CHANNELS, ImageProcessing.BIN_COUNT]; omega) | (simp [hf, hs, sizeof_int]; done) |
        (simp [hf, hs, sizeof_int]; omega)) only
      [bind_apply, pure_apply, buffer_create_run, enqueueWriteBuffer_run,
        kernel_create_run _ _ _ _ _ hk, enqueueNDRangeKernel_run, enqueueReadBuffer_run]
    try simp [sizeof_int, sizeof_uchar, Kernel.setArg]

theorem thisOne_cumulate_histogram_failFast (program : Program) (histogram : List Int) :
    FailFast (ThisOne.cumulate_histogram program histogram) := by
  unfold ThisOne.cumulate_histogram
  repeat (first
    | exact failFast_pure _
    | exact buffer_create_failFast _ _
    | exact enqueueWriteBuffer_failFast _ _ _ _
    | exact kernel_create_failFast _ _
    | exact enqueueNDRangeKernel_failFast _ _
    | exact enqueueReadBuffer_failFast _ _ _ _
    | refine failFast_bind ?_ fun _ => ?_)

theorem thisOne_main_try_failFast (program : Program) (image_input : CImg) :
    FailFast (ThisOne.main_try program image_input) := by
  unfold ThisOne.main_try
  repeat (first
    | exact failFast_pure _
    | exact program_build_failFast _
    | exact assessment_create_intensity_histogram_failFast _ _
    | exact thisOne_cumulate_histogram_failFast _ _
    | exact assessment_map_histogram_to_image_failFast _ _ _
    | refine failFast_bind ?_ fun _ => ?_)

/-- What a returning run of the cumulative transform of `thisOne` did. -/
theorem thisOne_cumulate_histogram_returns (program : Program) (histogram : List Int) :
    Returns (ThisOne.cumulate_histogram program histogram) fun cumulative calls =>
      cumulative.length = histogram.length ∧ histogram.length ≠ 0 ∧
      (∃ k, program.kernels "cumulate_histogram_bl" = some k) ∧
      dispatches calls = [("cumulate_histogram_bl", histogram.length)] := by
  unfold ThisOne.cumulate_histogram
  refine returns_bind (buffer_create_returns _ _) fun b0 _ ⟨hs, hc0⟩ => ?_
  refine returns_bind (enqueueWriteBuffer_returns _ _ _ _) fun _ _ ⟨_, hc2⟩ => ?_
  refine returns_bind (kernel_create_returns _ _) fun kernel _ ⟨⟨hn, _, hk⟩, hc3⟩ => ?_
  refine returns_bind (enqueueNDRangeKernel_returns _ _) fun _ _ ⟨_, hc4⟩ => ?_
  refine returns_bind (enqueueReadBuffer_returns _ _ _ _) fun r _ ⟨hr, hc5⟩ => ?_
  refine returns_pure ⟨?_, ?_, ⟨_, hk⟩, ?_⟩
  · rw [hr]; simp [sizeof_int]
  · intro h0; simp [h0, sizeof_int] at hs
  · subst hc0 hc2 hc3 hc4 hc5
    simp [dispatches, Kernel.setArg, hn]

/-- The pipeline of `thisOne` on a device that reports no fault. -/
theorem thisOne_main_try_run (program : Program) (image_input : CImg) (d : Device)
    (k1 k2 k3 : KernelFn) (hf : FaultFree d) (hb : program.builds = true)
    (hk1 : program.kernels "create_intensity_histogram" = some k1)
    (hk2 : program.kernels "cumulate_histogram_bl" = some k2)
    (hk3 : program.kernels "map_cumulative_histogram_to_image" = some k3)
    (hs : 3 ≤ image_input.size) :
    ∃ out d1, ThisOne.main_try program image_input d = (Except.ok out, d1) ∧
      d1.fault = d.fault ∧
      dispatches (callsSince d d1) =
        [("create_intensity_histogram", image_input.size / 3), ("cumulate_histogram_bl", 768),
         ("map_cumulative_histogram_to_image", image_input.size / 3)] := by
  have hf0 : FaultFree (Device.mk d.mem d.size d.count d.fault d.rejectsEmptyRange
      (d.log ++ [(Call.build, none)])) := hf
  obtain ⟨d1, h1, hf1, hl1⟩ :=
    assessment_create_intensity_histogram_run program image_input _ k1 hf0 hk1 hs
  generalize hh1 : readCells _ _ _ = hist at h1
  have hlen1 : hist.length = 768 := by rw [← hh1, readCells_length]
  obtain ⟨d2, h2, hf2, hl2⟩ :=
    thisOne_cumulate_histogram_run program hist d1 k2 (faultFree_of_eq hf0 hf1) hk2 (by omega)
  generalize hh2 : readCells _ _ _ = cumulative at h2
  have hlen2 : cumulative.length = 768 := by rw [← hh2, readCells_length, hlen1]
  obtain ⟨d3, h3, hf3, hl3⟩ :=
    assessment_map_histogram_to_image_run program image_input cumulative d2 k3
      (faultFree_of_eq (faultFree_of_eq hf0 hf1) hf2) hk3 hs (by omega)
  generalize CImg.ofValues _ _ _ _ _ = out at h3
  refine ⟨out, d3, ?_, ?_, ?_⟩
  · unfold ThisOne.main_try
    simp only [bind_apply, pure_apply, program_build_run program d (hf _) hb,
      thisOne_create_intensity_histogram_eq, thisOne_map_histogram_to_image_eq, h1, h2, h3]
  · rw [hf3, hf2, hf1]
  · rw [callsSince_append d d3 _
      (by rw [hl3, hl2, hl1, List.append_assoc, List.append_assoc, List.append_assoc])]
    simp [dispatches, hlen1]

/-- A returning run of the driver of `thisOne` is the composition of its stages. -/
theorem thisOne_main_try_composed (program : Program) (image_input : CImg) (d : Device)
    (out : CImg) (h : (ThisOne.main_try program image_input d).1 = Except.ok out) :
    ComposedRun program.build (ThisOne.create_intensity_histogram program image_input)
      (ThisOne.cumulate_histogram program)
      (ThisOne.map_histogram_to_image program image_input)
      ["create_intensity_histogram", "cumulate_histogram_bl", "map_cumulative_histogram_to_image"]
      d (ThisOne.main_try program image_input d) out := by
  unfold ThisOne.main_try at h ⊢
  obtain ⟨u, d0, h0, e0⟩ := bind_ok h
  rw [e0] at h ⊢
  obtain ⟨hist, d1, h1, e1⟩ := bind_ok h
  rw [e1] at h ⊢
  obtain ⟨cumulative, d2, h2, e2⟩ := bind_ok h
  rw [e2] at h ⊢
  obtain ⟨out1, d3, h3, e3⟩ := bind_ok h
  rw [e3, pure_apply] at h ⊢
  cases h
  obtain ⟨c0, l0, _, hc0⟩ := program_build_returns program d u d0 h0
  obtain ⟨c1, l1, _, _, _, hd1⟩ :=
    assessment_create_intensity_histogram_returns program image_input d0 hist d1 h1
  obtain ⟨c2, l2, _, _, _, hd2⟩ := thisOne_cumulate_histogram_returns program hist d1 cumulative d2 h2
  obtain ⟨c3, l3, _, _, _, _, hd3⟩ :=
    assessment_map_histogram_to_image_returns program image_input cumulative d2 out d3 h3
  refine ⟨d0, hist, d1, cumulative, d2, h0, h1, h2, h3, ?_⟩
  rw [callsSince_append d d3 (c0 ++ (c1 ++ (c2 ++ c3)))
    (by rw [l3, l2, l1, l0]; simp only [List.append_assoc])]
  simp [dispatches_append, hd1, hd2, hd3, hc0, dispatches]

theorem thisOne_main_none (program : Program) (image_input : CImg) (d : Device) (e : ClError)
    (h : (ThisOne.main_try program image_input d).1 = Except.error e) :
    (ThisOne.main program image_input d).1 = none := by
  unfold ThisOne.main
  rcases hr : ThisOne.main_try program image_input d with ⟨r, d1⟩
  rw [hr] at h
  cases r with
  | error e1 => rfl
  | ok a => cases h

/-! ## A driver given an image that its histogram builder rejects, and failing runs -/

theorem faulty_assessment :
    (Call.createKernel "cumulate_histogram", some ClError.CL_OUT_OF_RESOURCES) ∈
      callsSince faultyDevice (Assessment.main_try specProgram twoPixels faultyDevice).2 := by
  decide!

theorem faulty_imageProcessing :
    (Call.enqueueWriteBuffer 2 3072, some ClError.CL_OUT_OF_RESOURCES) ∈
      callsSince faultyDevice (ImageProcessing.main_try specProgram twoPixels faultyDevice).2 := by
  decide!

theorem faulty_thisOne :
    (Call.createKernel "cumulate_histogram_bl", some ClError.CL_OUT_OF_RESOURCES) ∈
      callsSince faultyDevice (ThisOne.main_try specProgram twoPixels faultyDevice).2 := by
  decide!

/-- A driver that builds the program and then runs a histogram builder which
rejects the image throws, dispatches no kernel, and leaves nothing to display. -/
theorem rejected_run (program : Program) (create : CL (List Int)) (rest : List Int → CL CImg)
    (d : Device)
    (hcreate : ∀ d0 : Device, ∃ e,
      create d0 = (Except.error e, d0.record (Call.createBuffer MemFlags.CL_MEM_READ_ONLY 0) (some e))) :
    (∃ e, ((program.build >>= fun _ => create >>= rest) d).1 = Except.error e) ∧
    dispatches (callsSince d ((program.build >>= fun _ => create >>= rest) d).2) = [] := by
  rcases program_build_cases program d with ⟨e, hb⟩ | hb
  · simp only [bind_apply, hb]
    exact ⟨⟨e, rfl⟩, by simp [callsSince, Device.record, dispatches]⟩
  · obtain ⟨e, hc⟩ := hcreate (d.record Call.build none)
    simp only [bind_apply, hb, hc]
    exact ⟨⟨e, rfl⟩, by simp [callsSince, Device.record, dispatches]⟩

/-! ## The stages over host memory -/

theorem hostMemory_bind_apply {α β : Type} (m : HostMemory.HostCL α)
    (f : α → HostMemory.HostCL β) (h : HostMemory.Host) (d : Device) :
    (m >>= f) h d =
      match m h d with
      | (Except.ok a, h1, d1) => f a h1 d1
      | (Except.error e, h1, d1) => (Except.error e, h1, d1) := rfl

theorem hostMemory_frames_pure {α : Type} (a : α) :
    HostMemory.Frames (pure a : HostMemory.HostCL α) :=
  fun _ _ => ⟨le_rfl, fun _ _ => rfl⟩

theorem hostMemory_frames_bind {α β : Type} {m : HostMemory.HostCL α}
    {f : α → HostMemory.HostCL β} (hm : HostMemory.Frames m)
    (hf : ∀ x, HostMemory.Frames (f x)) : HostMemory.Frames (m >>= f) := by
  intro h d
  rw [hostMemory_bind_apply]
  have h1 := hm h d
  rcases hr : m h d with ⟨r, h', d'⟩
  rw [hr] at h1
  cases r with
  | error e => exact h1
  | ok x =>
    have h2 := hf x h' d'
    exact ⟨le_trans h1.1 h2.1, fun a ha => (h2.2 a (lt_of_lt_of_le ha h1.1)).trans (h1.2 a ha)⟩

theorem hostMemory_frames_onDevice {α : Type} (m : CL α) :
    HostMemory.Frames (HostMemory.onDevice m) :=
  fun _ _ => ⟨le_rfl, fun _ _ => rfl⟩

theorem hostMemory_frames_vector_create (n : Nat) :
    HostMemory.Frames (HostMemory.vector_create n) :=
  fun _ _ => ⟨Nat.le_succ _, fun _ _ => rfl⟩

theorem hostMemory_frames_vector_copy (v : Nat) :
    HostMemory.Frames (HostMemory.vector_copy v) :=
  fun _ _ => ⟨Nat.le_succ _, fun _ _ => rfl⟩

theorem hostMemory_frames_vector_size (v : Nat) :
    HostMemory.Frames (HostMemory.vector_size v) :=
  fun _ _ => ⟨le_rfl, fun _ _ => rfl⟩

/-- A new image object is placed at a free address: the images that were there stay. -/
theorem hostMemory_newImage_images (h : HostMemory.Host) (img : CImg) (a : Nat) (ha : a < h.next) :
    (h.newImage img).images a = h.images a := by
  have : a ≠ h.next := by omega
  simp [HostMemory.Host.newImage, this]

theorem hostMemory_frames_cimg_copy (img : Nat) :
    HostMemory.Frames (HostMemory.cimg_copy img) :=
  fun h _ => ⟨Nat.le_succ _, fun a ha => hostMemory_newImage_images h _ a ha⟩

theorem hostMemory_frames_cimg_ofValues (values : HostMemory.HostPtr)
    (size_x size_y size_z size_c : Nat) :
    HostMemory.Frames (HostMemory.cimg_ofValues values size_x size_y size_z size_c) :=
  fun h _ => ⟨Nat.le_succ _, fun a ha => hostMemory_newImage_images h _ a ha⟩

theorem hostMemory_frames_cimg_size (img : Nat) : HostMemory.Frames (HostMemory.cimg_size img) :=
  fun _ _ => ⟨le_rfl, fun _ _ => rfl⟩

theorem hostMemory_frames_cimg_width (img : Nat) :
    HostMemory.Frames (HostMemory.cimg_width img) :=
  fun _ _ => ⟨le_rfl, fun _ _ => rfl⟩

theorem hostMemory_frames_cimg_height (img : Nat) :
    HostMemory.Frames (HostMemory.cimg_height img) :=
  fun _ _ => ⟨le_rfl, fun _ _ => rfl⟩

theorem hostMemory_frames_cimg_depth (img : Nat) :
    HostMemory.Frames (HostMemory.cimg_depth img) :=
  fun _ _ => ⟨le_rfl, fun _ _ => rfl⟩

theorem hostMemory_frames_cimg_spectrum (img : Nat) :
    HostMemory.Frames (HostMemory.cimg_spectrum img) :=
  fun _ _ => ⟨le_rfl, fun _ _ => rfl⟩

/-- An upload only reads the host array, whichever it is. -/
theorem hostMemory_frames_enqueueWriteBuffer (buffer bytes elem : Nat) (ptr : HostMemory.HostPtr) :
    HostMemory.Frames (HostMemory.enqueueWriteBuffer buffer bytes elem ptr) :=
  fun _ _ => ⟨le_rfl, fun _ _ => rfl⟩

/-- A read-back into the elements of a vector changes no image. -/
theorem hostMemory_frames_enqueueReadBuffer (buffer bytes elem vector : Nat) :
    HostMemory.Frames
      (HostMemory.enqueueReadBuffer buffer bytes elem (HostMemory.HostPtr.elements vector)) := by
  intro h d
  unfold HostMemory.enqueueReadBuffer
  rcases HistEq.enqueueReadBuffer buffer bytes elem
    (h.read (HostMemory.HostPtr.elements vector)) d with ⟨r, d1⟩
  cases r with
  | error e => exact ⟨le_rfl, fun _ _ => rfl⟩
  | ok values => exact ⟨le_rfl, fun _ _ => rfl⟩

/-- A read-back into the sample buffer of an image does change that image: on
the clean device, once six bytes of a zeroed buffer are read into the image at
address 0 of `twoObjects`, that image is no longer the one it was. -/
theorem hostMemory_enqueueReadBuffer_samples_overwrites :
    ((HostMemory.onDevice (Buffer.create MemFlags.CL_MEM_READ_WRITE 6) >>= fun b =>
        HostMemory.enqueueReadBuffer b 6 1 (HostMemory.HostPtr.samples 0))
      HostMemory.twoObjects cleanDevice).2.1.images 0 ≠ HostMemory.twoObjects.images 0 := by
  intro h
  have := congrArg CImg.data h
  revert this
  decide

/-- The histogram builder of `cmp3752_assessment` changes no image of its caller. -/
theorem hostMemory_Assessment_create_intensity_histogram_frames (program : Program) (img : Nat) :
    HostMemory.Frames (HostMemory.Assessment.create_intensity_histogram program img) := by
  unfold HostMemory.Assessment.create_intensity_histogram
  repeat (first
    | refine hostMemory_frames_bind (hostMemory_frames_onDevice _) fun _ => ?_
    | refine hostMemory_frames_bind (hostMemory_frames_vector_create _) fun _ => ?_
    | refine hostMemory_frames_bind (hostMemory_frames_vector_copy _) fun _ => ?_
    | refine hostMemory_frames_bind (hostMemory_frames_vector_size _) fun _ => ?_
    | refine hostMemory_frames_bind (hostMemory_frames_cimg_copy _) fun _ => ?_
    | refine hostMemory_frames_bind (hostMemory_frames_cimg_size _) fun _ => ?_
    | refine hostMemory_frames_bind (hostMemory_frames_cimg_width _) fun _ => ?_
    | refine hostMemory_frames_bind (hostMemory_frames_cimg_height _) fun _ => ?_
    | refine hostMemory_frames_bind (hostMemory_frames_cimg_depth _) fun _ => ?_
    | refine hostMemory_frames_bind (hostMemory_frames_cimg_spectrum _) fun _ => ?_
    | refine hostMemory_frames_bind (hostMemory_frames_enqueueWriteBuffer _ _ _ _) fun _ => ?_
    | refine hostMemory_frames_bind (hostMemory_frames_enqueueReadBuffer _ _ _ _) fun _ => ?_
    | refine hostMemory_frames_bind (hostMemory_frames_cimg_ofValues _ _ _ _ _) fun _ => ?_
    | exact hostMemory_frames_pure _
    | exact hostMemory_frames_cimg_ofValues _ _ _ _ _)

/-- The cumulative transform of `cmp3752_assessment` changes no image of its caller. -/
theorem hostMemory_Assessment_cumulate_histogram_frames (program : Program) (histogram : Nat) :
    HostMemory.Frames (HostMemory.Assessment.cumulate_histogram program histogram) := by
  unfold HostMemory.Assessment.cumulate_histogram
  repeat (first
    | refine hostMemory_frames_bind (hostMemory_frames_onDevice _) fun _ => ?_
    | refine hostMemory_frames_bind (hostMemory_frames_vector_create _) fun _ => ?_
    | refine hostMemory_frames_bind (hostMemory_frames_vector_copy _) fun _ => ?_
    | refine hostMemory_frames_bind (hostMemory_frames_vector_size _) fun _ => ?_
    | refine hostMemory_frames_bind (hostMemory_frames_cimg_copy _) fun _ => ?_
    | refine hostMemory_frames_bind (hostMemory_frames_cimg_size _) fun _ => ?_
    | refine hostMemory_frames_bind (hostMemory_frames_cimg_width _) fun _ => ?_
    | refine hostMemory_frames_bind (hostMemory_frames_cimg_height _) fun _ => ?_
    | refine hostMemory_frames_bind (hostMemory_frames_cimg_depth _) fun _ => ?_
    | refine hostMemory_frames_bind (hostMemory_frames_cimg_spectrum _) fun _ => ?_
    | refine hostMemory_frames_bind (hostMemory_frames_enqueueWriteBuffer _ _ _ _) fun _ => ?_
    | refine hostMemory_frames_bind (hostMemory_frames_enqueueReadBuffer _ _ _ _) fun _ => ?_
    | refine hostMemory_frames_bind (hostMemory_frames_cimg_ofValues _ _ _ _ _) fun _ => ?_
    | exact hostMemory_frames_pure _
    | exact hostMemory_frames_cimg_ofValues _ _ _ _ _)

/-- The pixel remapper of `cmp3752_assessment` changes no image of its caller. -/
theorem hostMemory_Assessment_map_histogram_to_image_frames (program : Program) (img histogram : Nat) :
    HostMemory.Frames (HostMemory.Assessment.map_histogram_to_image program img histogram) := by
  unfold HostMemory.Assessment.map_histogram_to_image
  repeat (first
    | refine hostMemory_frames_bind (hostMemory_frames_onDevice _) fun _ => ?_
    | refine hostMemory_frames_bind (hostMemory_frames_vector_create _) fun _ => ?_
    | refine hostMemory_frames_bind (hostMemory_frames_vector_copy _) fun _ => ?_
    | refine hostMemory_frames_bind (hostMemory_frames_vector_size _) fun _ => ?_
    | refine hostMemory_frames_bind (hostMemory_frames_cimg_copy _) fun _ => ?_
    | refine hostMemory_frames_bind (hostMemory_frames_cimg_size _) fun _ => ?_
    | refine hostMemory_frames_bind (hostMemory_frames_cimg_width _) fun _ => ?_
    | refine hostMemory_frames_bind (hostMemory_frames_cimg_height _) fun _ => ?_
    | refine hostMemory_frames_bind (hostMemory_frames_cimg_depth _) fun _ => ?_
    | refine hostMemory_frames_bind (hostMemory_frames_cimg_spectrum _) fun _ => ?_
    | refine hostMemory_frames_bind (hostMemory_frames_enqueueWriteBuffer _ _ _ _) fun _ => ?_
    | refine hostMemory_frames_bind (hostMemory_frames_enqueueReadBuffer _ _ _ _) fun _ => ?_
    | refine hostMemory_frames_bind (hostMemory_frames_cimg_ofValues _ _ _ _ _) fun _ => ?_
    | exact hostMemory_frames_pure _
    | exact hostMemory_frames_cimg_ofValues _ _ _ _ _)

/-- The pipeline of `cmp3752_assessment` changes no image of its caller. -/
theorem hostMemory_Assessment_main_try_frames (program : Program) (image_input : Nat) :
    HostMemory.Frames (HostMemory.Assessment.main_try program image_input) := by
  unfold HostMemory.Assessment.main_try
  repeat (first
    | refine hostMemory_frames_bind (hostMemory_frames_onDevice _) fun _ => ?_
    | refine hostMemory_frames_bind (hostMemory_Assessment_create_intensity_histogram_frames _ _) fun _ => ?_
    | refine hostMemory_frames_bind (hostMemory_Assessment_cumulate_histogram_frames _ _) fun _ => ?_
    | refine hostMemory_frames_bind (hostMemory_Assessment_map_histogram_to_image_frames _ _ _) fun _ => ?_
    | exact hostMemory_frames_pure _)

/-- The histogram builder of `cmp3752_image_processing-main` changes no image of its caller. -/
theorem hostMemory_ImageProcessing_createIntensityHistogram_frames (program : Program) (img : Nat) :
    HostMemory.Frames (HostMemory.ImageProcessing.createIntensityHistogram program img) := by
  unfold HostMemory.ImageProcessing.createIntensityHistogram
  repeat (first
    | refine hostMemory_frames_bind (hostMemory_frames_onDevice _) fun _ => ?_
    | refine hostMemory_frames_bind (hostMemory_frames_vector_create _) fun _ => ?_
    | refine hostMemory_frames_bind (hostMemory_frames_vector_copy _) fun _ => ?_
    | refine hostMemory_frames_bind (hostMemory_frames_vector_size _) fun _ => ?_
    | refine hostMemory_frames_bind (hostMemory_frames_cimg_copy _) fun _ => ?_
    | refine hostMemory_frames_bind (hostMemory_frames_cimg_size _) fun _ => ?_
    | refine hostMemory_frames_bind (hostMemory_frames_cimg_width _) fun _ => ?_
    | refine hostMemory_frames_bind (hostMemory_frames_cimg_height _) fun _ => ?_
    | refine hostMemory_frames_bind (hostMemory_frames_cimg_depth _) fun _ => ?_
    | refine hostMemory_frames_bind (hostMemory_frames_cimg_spectrum _) fun _ => ?_
    | refine hostMemory_frames_bind (hostMemory_frames_enqueueWriteBuffer _ _ _ _) fun _ => ?_
    | refine hostMemory_frames_bind (hostMemory_frames_enqueueReadBuffer _ _ _ _) fun _ => ?_
    | refine hostMemory_frames_bind (hostMemory_frames_cimg_ofValues _ _ _ _ _) fun _ => ?_
    | exact hostMemory_frames_pure _
    | exact hostMemory_frames_cimg_ofValues _ _ _ _ _)

/-- The cumulative transform of `cmp3752_image_processing-main` changes no image of its caller. -/
theorem hostMemory_ImageProcessing_cumulateHistogram_frames (program : Program) (histogram : Nat) :
    HostMemory.Frames (HostMemory.ImageProcessing.cumulateHistogram program histogram) := by
  unfold HostMemory.ImageProcessing.cumulateHistogram
  repeat (first
    | refine hostMemory_frames_bind (hostMemory_frames_onDevice _) fun _ => ?_
    | refine hostMemory_frames_bind (hostMemory_frames_vector_create _) fun _ => ?_
    | refine hostMemory_frames_bind (hostMemory_frames_vector_copy _) fun _ => ?_
    | refine hostMemory_frames_bind (hostMemory_frames_vector_size _) fun _ => ?_
    | refine hostMemory_frames_bind (hostMemory_frames_cimg_copy _) fun _ => ?_
    | refine hostMemory_frames_bind (hostMemory_frames_cimg_size _) fun _ => ?_
    | refine hostMemory_frames_bind (hostMemory_frames_cimg_width _) fun _ => ?_
    | refine hostMemory_frames_bind (hostMemory_frames_cimg_height _) fun _ => ?_
    | refine hostMemory_frames_bind (hostMemory_frames_cimg_depth _) fun _ => ?_
    | refine hostMemory_frames_bind (hostMemory_frames_cimg_spectrum _) fun _ => ?_
    | refine hostMemory_frames_bind (hostMemory_frames_enqueueWriteBuffer _ _ _ _) fun _ => ?_
    | refine hostMemory_frames_bind (hostMemory_frames_enqueueReadBuffer _ _ _ _) fun _ => ?_
    | refine hostMemory_frames_bind (hostMemory_frames_cimg_ofValues _ _ _ _ _) fun _ => ?_
    | exact hostMemory_frames_pure _
    | exact hostMemory_frames_cimg_ofValues _ _ _ _ _)

/-- The pixel remapper of `cmp3752_image_processing-main` changes no image of its caller. -/
theorem hostMemory_ImageProcessing_mapCumulativeHistogramToImage_frames (program : Program) (img histogram : Nat) :
    HostMemory.Frames (HostMemory.ImageProcessing.mapCumulativeHistogramToImage program img histogram) := by
  unfold HostMemory.ImageProcessing.mapCumulativeHistogramToImage
  repeat (first
    | refine hostMemory_frames_bind (hostMemory_frames_onDevice _) fun _ => ?_
    | refine hostMemory_frames_bind (hostMemory_frames_vector_create _) fun _ => ?_
    | refine hostMemory_frames_bind (hostMemory_frames_vector_copy _) fun _ => ?_
    | refine hostMemory_frames_bind (hostMemory_frames_vector_size _) fun _ => ?_
    | refine hostMemory_frames_bind (hostMemory_frames_cimg_copy _) fun _ => ?_
    | refine hostMemory_frames_bind (hostMemory_frames_cimg_size _) fun _ => ?_
    | refine hostMemory_frames_bind (hostMemory_frames_cimg_width _) fun _ => ?_
    | refine hostMemory_frames_bind (hostMemory_frames_cimg_height _) fun _ => ?_
    | refine hostMemory_frames_bind (hostMemory_frames_cimg_depth _) fun _ => ?_
    | refine hostMemory_frames_bind (hostMemory_frames_cimg_spectrum _) fun _ => ?_
    | refine hostMemory_frames_bind (hostMemory_frames_enqueueWriteBuffer _ _ _ _) fun _ => ?_
    | refine hostMemory_frames_bind (hostMemory_frames_enqueueReadBuffer _ _ _ _) fun _ => ?_
    | refine hostMemory_frames_bind (hostMemory_frames_cimg_ofValues _ _ _ _ _) fun _ => ?_
    | exact hostMemory_frames_pure _
    | exact hostMemory_frames_cimg_ofValues _ _ _ _ _)

/-- The pipeline of `cmp3752_image_processing-main` changes no image of its caller. -/
theorem hostMemory_ImageProcessing_main_try_frames (program : Program) (image_input : Nat) :
    HostMemory.Frames (HostMemory.ImageProcessing.main_try program image_input) := by
  unfold HostMemory.ImageProcessing.main_try
  repeat (first
    | refine hostMemory_frames_bind (hostMemory_frames_onDevice _) fun _ => ?_
    | refine hostMemory_frames_bind (hostMemory_ImageProcessing_createIntensityHistogram_frames _ _) fun _ => ?_
    | refine hostMemory_frames_bind (hostMemory_ImageProcessing_cumulateHistogram_frames _ _) fun _ => ?_
    | refine hostMemory_frames_bind (hostMemory_ImageProcessing_mapCumulativeHistogramToImage_frames _ _ _) fun _ => ?_
    | exact hostMemory_frames_pure _)

/-- The histogram builder of `thisOne` changes no image of its caller. -/
theorem hostMemory_ThisOne_create_intensity_histogram_frames (program : Program) (img : Nat) :
    HostMemory.Frames (HostMemory.ThisOne.create_intensity_histogram program img) := by
  unfold HostMemory.ThisOne.create_intensity_histogram
  repeat (first
    | refine hostMemory_frames_bind (hostMemory_frames_onDevice _) fun _ => ?_
    | refine hostMemory_frames_bind (hostMemory_frames_vector_create _) fun _ => ?_
    | refine hostMemory_frames_bind (hostMemory_frames_vector_copy _) fun _ => ?_
    | refine hostMemory_frames_bind (hostMemory_frames_vector_size _) fun _ => ?_
    | refine hostMemory_frames_bind (hostMemory_frames_cimg_copy _) fun _ => ?_
    | refine hostMemory_frames_bind (hostMemory_frames_cimg_size _) fun _ => ?_
    | refine hostMemory_frames_bind (hostMemory_frames_cimg_width _) fun _ => ?_
    | refine hostMemory_frames_bind (hostMemory_frames_cimg_height _) fun _ => ?_
    | refine hostMemory_frames_bind (hostMemory_frames_cimg_depth _) fun _ => ?_
    | refine hostMemory_frames_bind (hostMemory_frames_cimg_spectrum _) fun _ => ?_
    | refine hostMemory_frames_bind (hostMemory_frames_enqueueWriteBuffer _ _ _ _) fun _ => ?_
    | refine hostMemory_frames_bind (hostMemory_frames_enqueueReadBuffer _ _ _ _) fun _ => ?_
    | refine hostMemory_frames_bind (hostMemory_frames_cimg_ofValues _ _ _ _ _) fun _ => ?_
    | exact hostMemory_frames_pure _
    | exact hostMemory_frames_cimg_ofValues _ _ _ _ _)

/-- The cumulative transform of `thisOne` changes no image of its caller. -/
theorem hostMemory_ThisOne_cumulate_histogram_frames (program : Program) (histogram : Nat) :
    HostMemory.Frames (HostMemory.ThisOne.cumulate_histogram program histogram) := by
  unfold HostMemory.ThisOne.cumulate_histogram
  repeat (first
    | refine hostMemory_frames_bind (hostMemory_frames_onDevice _) fun _ => ?_
    | refine hostMemory_frames_bind (hostMemory_frames_vector_create _) fun _ => ?_
    | refine hostMemory_frames_bind (hostMemory_frames_vector_copy _) fun _ => ?_
    | refine hostMemory_frames_bind (hostMemory_frames_vector_size _) fun _ => ?_
    | refine hostMemory_frames_bind (hostMemory_frames_cimg_copy _) fun _ => ?_
    | refine hostMemory_frames_bind (hostMemory_frames_cimg_size _) fun _ => ?_
    | refine hostMemory_frames_bind (hostMemory_frames_cimg_width _) fun _ => ?_
    | refine hostMemory_frames_bind (hostMemory_frames_cimg_height _) fun _ => ?_
    | refine hostMemory_frames_bind (hostMemory_frames_cimg_depth _) fun _ => ?_
    | refine hostMemory_frames_bind (hostMemory_frames_cimg_spectrum _) fun _ => ?_
    | refine hostMemory_frames_bind (hostMemory_frames_enqueueWriteBuffer _ _ _ _) fun _ => ?_
    | refine hostMemory_frames_bind (hostMemory_frames_enqueueReadBuffer _ _ _ _) fun _ => ?_
    | refine hostMemory_frames_bind (hostMemory_frames_cimg_ofValues _ _ _ _ _) fun _ => ?_
    | exact hostMemory_frames_pure _
    | exact hostMemory_frames_cimg_ofValues _ _ _ _ _)

/-- The pixel remapper of `thisOne` changes no image of its caller. -/
theorem hostMemory_ThisOne_map_histogram_to_image_frames (program : Program) (img histogram : Nat) :
    HostMemory.Frames (HostMemory.ThisOne.map_histogram_to_image program img histogram) := by
  unfold HostMemory.ThisOne.map_histogram_to_image
  repeat (first
    | refine hostMemory_frames_bind (hostMemory_frames_onDevice _) fun _ => ?_
    | refine hostMemory_frames_bind (hostMemory_frames_vector_create _) fun _ => ?_
    | refine hostMemory_frames_bind (hostMemory_frames_vector_copy _) fun _ => ?_
    | refine hostMemory_frames_bind (hostMemory_frames_vector_size _) fun _ => ?_
    | refine hostMemory_frames_bind (hostMemory_frames_cimg_copy _) fun _ => ?_
    | refine hostMemory_frames_bind (hostMemory_frames_cimg_size _) fun _ => ?_
    | refine hostMemory_frames_bind (hostMemory_frames_cimg_width _) fun _ => ?_
    | refine hostMemory_frames_bind (hostMemory_frames_cimg_height _) fun _ => ?_
    | refine hostMemory_frames_bind (hostMemory_frames_cimg_depth _) fun _ => ?_
    | refine hostMemory_frames_bind (hostMemory_frames_cimg_spectrum _) fun _ => ?_
    | refine hostMemory_frames_bind (hostMemory_frames_enqueueWriteBuffer _ _ _ _) fun _ => ?_
    | refine hostMemory_frames_bind (hostMemory_frames_enqueueReadBuffer _ _ _ _) fun _ => ?_
    | refine hostMemory_frames_bind (hostMemory_frames_cimg_ofValues _ _ _ _ _) fun _ => ?_
    | exact hostMemory_frames_pure _
    | exact hostMemory_frames_cimg_ofValues _ _ _ _ _)

/-- The pipeline of `thisOne` changes no image of its caller. -/
theorem hostMemory_ThisOne_main_try_frames (program : Program) (image_input : Nat) :
    HostMemory.Frames (HostMemory.ThisOne.main_try program image_input) := by
  unfold HostMemory.ThisOne.main_try
  repeat (first
    | refine hostMemory_frames_bind (hostMemory_frames_onDevice _) fun _ => ?_
    | refine hostMemory_frames_bind (hostMemory_ThisOne_create_intensity_histogram_frames _ _) fun _ => ?_
    | refine hostMemory_frames_bind (hostMemory_ThisOne_cumulate_histogram_frames _ _) fun _ => ?_
    | refine hostMemory_frames_bind (hostMemory_ThisOne_map_histogram_to_image_frames _ _ _) fun _ => ?_
    | exact hostMemory_frames_pure _)

theorem hostMemory_returnsNew_cimg_ofValues (values : HostMemory.HostPtr)
    (size_x size_y size_z size_c : Nat) :
    HostMemory.ReturnsNew (HostMemory.cimg_ofValues values size_x size_y size_z size_c) := by
  intro h d x hx
  have : x = h.next := by
    simp only [HostMemory.cimg_ofValues, Except.ok.injEq] at hx
    exact hx.symm
  rw [this]
  exact ⟨le_rfl, Nat.lt_succ_self _⟩

theorem hostMemory_returnsNew_bind {α : Type} {m : HostMemory.HostCL α}
    {f : α → HostMemory.HostCL Nat} (hm : HostMemory.Frames m)
    (hf : ∀ x, HostMemory.ReturnsNew (f x)) : HostMemory.ReturnsNew (m >>= f) := by
  intro h d y hy
  rw [hostMemory_bind_apply] at hy ⊢
  have h1 := (hm h d).1
  rcases hr : m h d with ⟨r, h', d'⟩
  rw [hr] at h1 hy
  cases r with
  | error e => cases hy
  | ok x =>
    have h2 := hf x h' d' y hy
    exact ⟨le_trans h1 h2.1, h2.2⟩

theorem hostMemory_returnsNew_bind_pure {m : HostMemory.HostCL Nat}
    (hm : HostMemory.ReturnsNew m) : HostMemory.ReturnsNew (m >>= fun x => pure x) := by
  intro h d y hy
  rw [hostMemory_bind_apply] at hy ⊢
  have h1 := hm h d
  rcases hr : m h d with ⟨r, h', d'⟩
  rw [hr] at h1 hy
  cases r with
  | error e => cases hy
  | ok x =>
    have : x = y := Except.ok.inj hy
    exact this ▸ h1 x rfl

/-- The image that the pixel remapper of `cmp3752_assessment` returns is a new object. -/
theorem hostMemory_Assessment_map_histogram_to_image_returnsNew (program : Program) (img histogram : Nat) :
    HostMemory.ReturnsNew (HostMemory.Assessment.map_histogram_to_image program img histogram) := by
  unfold HostMemory.Assessment.map_histogram_to_image
  repeat (first
    | exact hostMemory_returnsNew_bind_pure (hostMemory_returnsNew_cimg_ofValues _ _ _ _ _)
    | exact hostMemory_returnsNew_cimg_ofValues _ _ _ _ _
    | refine hostMemory_returnsNew_bind (hostMemory_frames_onDevice _) fun _ => ?_
    | refine hostMemory_returnsNew_bind (hostMemory_frames_vector_create _) fun _ => ?_
    | refine hostMemory_returnsNew_bind (hostMemory_frames_vector_copy _) fun _ => ?_
    | refine hostMemory_returnsNew_bind (hostMemory_frames_vector_size _) fun _ => ?_
    | refine hostMemory_returnsNew_bind (hostMemory_frames_cimg_copy _) fun _ => ?_
    | refine hostMemory_returnsNew_bind (hostMemory_frames_cimg_size _) fun _ => ?_
    | refine hostMemory_returnsNew_bind (hostMemory_frames_cimg_width _) fun _ => ?_
    | refine hostMemory_returnsNew_bind (hostMemory_frames_cimg_height _) fun _ => ?_
    | refine hostMemory_returnsNew_bind (hostMemory_frames_cimg_depth _) fun _ => ?_
    | refine hostMemory_returnsNew_bind (hostMemory_frames_cimg_spectrum _) fun _ => ?_
    | refine hostMemory_returnsNew_bind (hostMemory_frames_enqueueWriteBuffer _ _ _ _) fun _ => ?_
    | refine hostMemory_returnsNew_bind (hostMemory_frames_enqueueReadBuffer _ _ _ _) fun _ => ?_)

/-- The image that the pipeline of `cmp3752_assessment` returns is a new object. -/
theorem hostMemory_Assessment_main_try_returnsNew (program : Program) (image_input : Nat) :
    HostMemory.ReturnsNew (HostMemory.Assessment.main_try program image_input) := by
  unfold HostMemory.Assessment.main_try
  repeat (first
    | exact hostMemory_returnsNew_bind_pure (hostMemory_Assessment_map_histogram_to_image_returnsNew _ _ _)
    | refine hostMemory_returnsNew_bind (hostMemory_frames_onDevice _) fun _ => ?_
    | refine hostMemory_returnsNew_bind (hostMemory_Assessment_create_intensity_histogram_frames _ _) fun _ => ?_
    | refine hostMemory_returnsNew_bind (hostMemory_Assessment_cumulate_histogram_frames _ _) fun _ => ?_)

/-- The image that the pixel remapper of `cmp3752_image_processing-main` returns is a new object. -/
theorem hostMemory_ImageProcessing_mapCumulativeHistogramToImage_returnsNew (program : Program) (img histogram : Nat) :
    HostMemory.ReturnsNew (HostMemory.ImageProcessing.mapCumulativeHistogramToImage program img histogram) := by
  unfold HostMemory.ImageProcessing.mapCumulativeHistogramToImage
  repeat (first
    | exact hostMemory_returnsNew_bind_pure (hostMemory_returnsNew_cimg_ofValues _ _ _ _ _)
    | exact hostMemory_returnsNew_cimg_ofValues _ _ _ _ _
    | refine hostMemory_returnsNew_bind (hostMemory_frames_onDevice _) fun _ => ?_
    | refine hostMemory_returnsNew_bind (hostMemory_frames_vector_create _) fun _ => ?_
    | refine hostMemory_returnsNew_bind (hostMemory_frames_vector_copy _) fun _ => ?_
    | refine hostMemory_returnsNew_bind (hostMemory_frames_vector_size _) fun _ => ?_
    | refine hostMemory_returnsNew_bind (hostMemory_frames_cimg_copy _) fun _ => ?_
    | refine hostMemory_returnsNew_bind (hostMemory_frames_cimg_size _) fun _ => ?_
    | refine hostMemory_returnsNew_bind (hostMemory_frames_cimg_width _) fun _ => ?_
    | refine hostMemory_returnsNew_bind (hostMemory_frames_cimg_height _) fun _ => ?_
    | refine hostMemory_returnsNew_bind (hostMemory_frames_cimg_depth _) fun _ => ?_
    | refine hostMemory_returnsNew_bind (hostMemory_frames_cimg_spectrum _) fun _ => ?_
    | refine hostMemory_returnsNew_bind (hostMemory_frames_enqueueWriteBuffer _ _ _ _) fun _ => ?_
    | refine hostMemory_returnsNew_bind (hostMemory_frames_enqueueReadBuffer _ _ _ _) fun _ => ?_)

/-- The image that the pipeline of `cmp3752_image_processing-main` returns is a new object. -/
theorem hostMemory_ImageProcessing_main_try_returnsNew (program : Program) (image_input : Nat) :
    HostMemory.ReturnsNew (HostMemory.ImageProcessing.main_try program image_input) := by
  unfold HostMemory.ImageProcessing.main_try
  repeat (first
    | exact hostMemory_returnsNew_bind_pure (hostMemory_ImageProcessing_mapCumulativeHistogramToImage_returnsNew _ _ _)
    | refine hostMemory_returnsNew_bind (hostMemory_frames_onDevice _) fun _ => ?_
    | refine hostMemory_returnsNew_bind (hostMemory_ImageProcessing_createIntensityHistogram_frames _ _) fun _ => ?_
    | refine hostMemory_returnsNew_bind (hostMemory_ImageProcessing_cumulateHistogram_frames _ _) fun _ => ?_)

/-- The image that the pixel remapper of `thisOne` returns is a new object. -/
theorem hostMemory_ThisOne_map_histogram_to_image_returnsNew (program : Program) (img histogram : Nat) :
    HostMemory.ReturnsNew (HostMemory.ThisOne.map_histogram_to_image program img histogram) := by
  unfold HostMemory.ThisOne.map_histogram_to_image
  repeat (first
    | exact hostMemory_returnsNew_bind_pure (hostMemory_returnsNew_cimg_ofValues _ _ _ _ _)
    | exact hostMemory_returnsNew_cimg_ofValues _ _ _ _ _
    | refine hostMemory_returnsNew_bind (hostMemory_frames_onDevice _) fun _ => ?_
    | refine hostMemory_returnsNew_bind (hostMemory_frames_vector_create _) fun _ => ?_
    | refine hostMemory_returnsNew_bind (hostMemory_frames_vector_copy _) fun _ => ?_
    | refine hostMemory_returnsNew_bind (hostMemory_frames_vector_size _) fun _ => ?_
    | refine hostMemory_returnsNew_bind (hostMemory_frames_cimg_copy _) fun _ => ?_
    | refine hostMemory_returnsNew_bind (hostMemory_frames_cimg_size _) fun _ => ?_
    | refine hostMemory_returnsNew_bind (hostMemory_frames_cimg_width _) fun _ => ?_
    | refine hostMemory_returnsNew_bind (hostMemory_frames_cimg_height _) fun _ => ?_
    | refine hostMemory_returnsNew_bind (hostMemory_frames_cimg_depth _) fun _ => ?_
    | refine hostMemory_returnsNew_bind (hostMemory_frames_cimg_spectrum _) fun _ => ?_
    | refine hostMemory_returnsNew_bind (hostMemory_frames_enqueueWriteBuffer _ _ _ _) fun _ => ?_
    | refine hostMemory_returnsNew_bind (hostMemory_frames_enqueueReadBuffer _ _ _ _) fun _ => ?_)

/-- The image that the pipeline of `thisOne` returns is a new object. -/
theorem hostMemory_ThisOne_main_try_returnsNew (program : Program) (image_input : Nat) :
    HostMemory.ReturnsNew (HostMemory.ThisOne.main_try program image_input) := by
  unfold HostMemory.ThisOne.main_try
  repeat (first
    | exact hostMemory_returnsNew_bind_pure (hostMemory_ThisOne_map_histogram_to_image_returnsNew _ _ _)
    | refine hostMemory_returnsNew_bind (hostMemory_frames_onDevice _) fun _ => ?_
    | refine hostMemory_returnsNew_bind (hostMemory_ThisOne_create_intensity_histogram_frames _ _) fun _ => ?_
    | refine hostMemory_returnsNew_bind (hostMemory_ThisOne_cumulate_histogram_frames _ _) fun _ => ?_)

theorem hostMemory_seenAs_pure {α β : Type} (x : α) (see : HostMemory.Host → α → β)
    (h : HostMemory.Host) :
    HostMemory.seenAs (pure x : HostMemory.HostCL α) see h = pure (see h x) := rfl

theorem hostMemory_seenAs_onDevice {α β γ : Type} (c : CL α) (f : α → HostMemory.HostCL β)
    (see : HostMemory.Host → β → γ) (h : HostMemory.Host) :
    HostMemory.seenAs (HostMemory.onDevice c >>= f) see h =
      c >>= fun x => HostMemory.seenAs (f x) see h := by
  funext d
  rw [HistEq.bind_apply]
  simp only [HostMemory.seenAs, hostMemory_bind_apply, HostMemory.onDevice]
  rcases c d with ⟨r, d1⟩
  cases r <;> rfl

theorem hostMemory_seenAs_vector_create {β γ : Type} (n : Nat) (f : Nat → HostMemory.HostCL β)
    (see : HostMemory.Host → β → γ) (h : HostMemory.Host) :
    HostMemory.seenAs (HostMemory.vector_create n >>= f) see h =
      HostMemory.seenAs (f h.next) see (h.newVector (List.replicate n 0)) := rfl

theorem hostMemory_seenAs_vector_copy {β γ : Type} (v : Nat) (f : Nat → HostMemory.HostCL β)
    (see : HostMemory.Host → β → γ) (h : HostMemory.Host) :
    HostMemory.seenAs (HostMemory.vector_copy v >>= f) see h =
      HostMemory.seenAs (f h.next) see (h.newVector (h.vectors v)) := rfl

theorem hostMemory_seenAs_vector_size {β γ : Type} (v : Nat) (f : Nat → HostMemory.HostCL β)
    (see : HostMemory.Host → β → γ) (h : HostMemory.Host) :
    HostMemory.seenAs (HostMemory.vector_size v >>= f) see h =
      HostMemory.seenAs (f (h.vectors v).length) see h := rfl

theorem hostMemory_seenAs_cimg_copy {β γ : Type} (img : Nat) (f : Nat → HostMemory.HostCL β)
    (see : HostMemory.Host → β → γ) (h : HostMemory.Host) :
    HostMemory.seenAs (HostMemory.cimg_copy img >>= f) see h =
      HostMemory.seenAs (f h.next) see (h.newImage (h.images img)) := rfl

theorem hostMemory_seenAs_cimg_size {β γ : Type} (img : Nat) (f : Nat → HostMemory.HostCL β)
    (see : HostMemory.Host → β → γ) (h : HostMemory.Host) :
    HostMemory.seenAs (HostMemory.cimg_size img >>= f) see h =
      HostMemory.seenAs (f (h.images img).size) see h := rfl

theorem hostMemory_seenAs_cimg_width {β γ : Type} (img : Nat) (f : Nat → HostMemory.HostCL β)
    (see : HostMemory.Host → β → γ) (h : HostMemory.Host) :
    HostMemory.seenAs (HostMemory.cimg_width img >>= f) see h =
      HostMemory.seenAs (f (h.images img).width) see h := rfl

theorem hostMemory_seenAs_cimg_height {β γ : Type} (img : Nat) (f : Nat → HostMemory.HostCL β)
    (see : HostMemory.Host → β → γ) (h : HostMemory.Host) :
    HostMemory.seenAs (HostMemory.cimg_height img >>= f) see h =
      HostMemory.seenAs (f (h.images img).height) see h := rfl

theorem hostMemory_seenAs_cimg_depth {β γ : Type} (img : Nat) (f : Nat → HostMemory.HostCL β)
    (see : HostMemory.Host → β → γ) (h : HostMemory.Host) :
    HostMemory.seenAs (HostMemory.cimg_depth img >>= f) see h =
      HostMemory.seenAs (f (h.images img).depth) see h := rfl

theorem hostMemory_seenAs_cimg_spectrum {β γ : Type} (img : Nat) (f : Nat → HostMemory.HostCL β)
    (see : HostMemory.Host → β → γ) (h : HostMemory.Host) :
    HostMemory.seenAs (HostMemory.cimg_spectrum img >>= f) see h =
      HostMemory.seenAs (f (h.images img).spectrum) see h := rfl

theorem hostMemory_seenAs_cimg_ofValues {γ : Type} (values : HostMemory.HostPtr)
    (size_x size_y size_z size_c : Nat) (see : HostMemory.Host → Nat → γ) (h : HostMemory.Host) :
    HostMemory.seenAs (HostMemory.cimg_ofValues values size_x size_y size_z size_c) see h =
      pure (see (h.newImage
        (CImg.ofValues ((h.read values).map toUChar) size_x size_y size_z size_c)) h.next) := rfl

theorem hostMemory_seenAs_cimg_ofValues_bind {β γ : Type} (values : HostMemory.HostPtr)
    (size_x size_y size_z size_c : Nat) (f : Nat → HostMemory.HostCL β)
    (see : HostMemory.Host → β → γ) (h : HostMemory.Host) :
    HostMemory.seenAs (HostMemory.cimg_ofValues values size_x size_y size_z size_c >>= f) see h =
      HostMemory.seenAs (f h.next) see (h.newImage
        (CImg.ofValues ((h.read values).map toUChar) size_x size_y size_z size_c)) := rfl

theorem hostMemory_seenAs_enqueueWriteBuffer {β γ : Type} (buffer bytes elem : Nat)
    (ptr : HostMemory.HostPtr) (f : Unit → HostMemory.HostCL β)
    (see : HostMemory.Host → β → γ) (h : HostMemory.Host) :
    HostMemory.seenAs (HostMemory.enqueueWriteBuffer buffer bytes elem ptr >>= f) see h =
      HistEq.enqueueWriteBuffer buffer bytes elem (h.read ptr) >>= fun x =>
        HostMemory.seenAs (f x) see h :=
  hostMemory_seenAs_onDevice _ f see h

theorem hostMemory_seenAs_enqueueReadBuffer {β γ : Type} (buffer bytes elem : Nat)
    (ptr : HostMemory.HostPtr) (f : Unit → HostMemory.HostCL β)
    (see : HostMemory.Host → β → γ) (h : HostMemory.Host) :
    HostMemory.seenAs (HostMemory.enqueueReadBuffer buffer bytes elem ptr >>= f) see h =
      HistEq.enqueueReadBuffer buffer bytes elem (h.read ptr) >>= fun values =>
        HostMemory.seenAs (f ()) see (h.store ptr values) := by
  funext d
  rw [HistEq.bind_apply]
  simp only [HostMemory.seenAs, hostMemory_bind_apply, HostMemory.enqueueReadBuffer]
  rcases HistEq.enqueueReadBuffer buffer bytes elem (h.read ptr) d with ⟨r, d1⟩
  cases r <;> rfl

theorem hostMemory_newImage_next (h : HostMemory.Host) (img : CImg) :
    (h.newImage img).next = h.next + 1 := rfl

theorem hostMemory_newVector_next (h : HostMemory.Host) (values : List Int) :
    (h.newVector values).next = h.next + 1 := rfl

theorem hostMemory_newImage_images_eq (h : HostMemory.Host) (img : CImg) (a : Nat) :
    (h.newImage img).images a = if a = h.next then img else h.images a := rfl

theorem hostMemory_newImage_vectors (h : HostMemory.Host) (img : CImg) (a : Nat) :
    (h.newImage img).vectors a = h.vectors a := rfl

theorem hostMemory_newVector_images (h : HostMemory.Host) (values : List Int) (a : Nat) :
    (h.newVector values).images a = h.images a := rfl

theorem hostMemory_newVector_vectors (h : HostMemory.Host) (values : List Int) (a : Nat) :
    (h.newVector values).vectors a = if a = h.next then values else h.vectors a := rfl

theorem hostMemory_read_samples (h : HostMemory.Host) (image : Nat) :
    h.read (HostMemory.HostPtr.samples image) = (h.images image).data.map Int.ofNat := rfl

theorem hostMemory_read_elements (h : HostMemory.Host) (vector : Nat) :
    h.read (HostMemory.HostPtr.elements vector) = h.vectors vector := rfl

theorem hostMemory_store_elements_vectors (h : HostMemory.Host) (vector : Nat)
    (values : List Int) (a : Nat) :
    (h.store (HostMemory.HostPtr.elements vector) values).vectors a =
      if a = vector then values else h.vectors a := rfl

theorem hostMemory_store_elements_images (h : HostMemory.Host) (vector : Nat)
    (values : List Int) (a : Nat) :
    (h.store (HostMemory.HostPtr.elements vector) values).images a = h.images a := rfl

theorem hostMemory_store_next (h : HostMemory.Host) (ptr : HostMemory.HostPtr)
    (values : List Int) : (h.store ptr values).next = h.next := by
  cases ptr <;> rfl

/-- Seen as values, the histogram builder of `cmp3752_assessment` over host memory is
the builder on the value of the caller's image: same histogram, same effect
on the device. -/
theorem hostMemory_Assessment_create_intensity_histogram_seenAs (program : Program) (img : Nat)
    (h : HostMemory.Host) :
    HostMemory.seenAs (HostMemory.Assessment.create_intensity_histogram program img) (fun h1 v => h1.vectors v) h =
      HistEq.Assessment.create_intensity_histogram program (h.images img) := by
  unfold HostMemory.Assessment.create_intensity_histogram HistEq.Assessment.create_intensity_histogram
  simp only [hostMemory_seenAs_pure, hostMemory_seenAs_onDevice, hostMemory_seenAs_vector_create,
    hostMemory_seenAs_vector_copy, hostMemory_seenAs_vector_size, hostMemory_seenAs_cimg_copy,
    hostMemory_seenAs_cimg_size, hostMemory_seenAs_cimg_width, hostMemory_seenAs_cimg_height,
    hostMemory_seenAs_cimg_depth, hostMemory_seenAs_cimg_spectrum,
    hostMemory_seenAs_cimg_ofValues, hostMemory_seenAs_cimg_ofValues_bind,
    hostMemory_seenAs_enqueueWriteBuffer, hostMemory_seenAs_enqueueReadBuffer]
  generalize List.replicate (256 * 3) (0 : Int) = zeros
  simp only [hostMemory_newImage_next, hostMemory_newVector_next, hostMemory_newImage_images_eq,
    hostMemory_newImage_vectors, hostMemory_newVector_images, hostMemory_newVector_vectors,
    hostMemory_read_samples, hostMemory_read_elements, hostMemory_store_elements_vectors,
    hostMemory_store_elements_images, hostMemory_store_next, if_true, eq_self_iff_true,
    self_eq_add_right, add_right_eq_self, one_ne_zero, if_false]

/-- Seen as values, the cumulative transform of `cmp3752_assessment` over host memory is
the transform on the elements of the caller's vector. -/
theorem hostMemory_Assessment_cumulate_histogram_seenAs (program : Program) (histogram : Nat)
    (h : HostMemory.Host) :
    HostMemory.seenAs (HostMemory.Assessment.cumulate_histogram program histogram) (fun h1 v => h1.vectors v) h =
      HistEq.Assessment.cumulate_histogram program (h.vectors histogram) := by
  unfold HostMemory.Assessment.cumulate_histogram HistEq.Assessment.cumulate_histogram
  simp only [hostMemory_seenAs_pure, hostMemory_seenAs_onDevice, hostMemory_seenAs_vector_create,
    hostMemory_seenAs_vector_copy, hostMemory_seenAs_vector_size, hostMemory_seenAs_cimg_copy,
    hostMemory_seenAs_cimg_size, hostMemory_seenAs_cimg_width, hostMemory_seenAs_cimg_height,
    hostMemory_seenAs_cimg_depth, hostMemory_seenAs_cimg_spectrum,
    hostMemory_seenAs_cimg_ofValues, hostMemory_seenAs_cimg_ofValues_bind,
    hostMemory_seenAs_enqueueWriteBuffer, hostMemory_seenAs_enqueueReadBuffer]
  simp only [hostMemory_newImage_next, hostMemory_newVector_next, hostMemory_newImage_images_eq,
    hostMemory_newImage_vectors, hostMemory_newVector_images, hostMemory_newVector_vectors,
    hostMemory_read_samples, hostMemory_read_elements, hostMemory_store_elements_vectors,
    hostMemory_store_elements_images, hostMemory_store_next, if_true, eq_self_iff_true,
    self_eq_add_right, add_right_eq_self, one_ne_zero, if_false]

/-- Seen as values, the pixel remapper of `cmp3752_assessment` over host memory is the
remapper on the value of the caller's image and the elements of the caller's
vector. -/
theorem hostMemory_Assessment_map_histogram_to_image_seenAs (program : Program) (img histogram : Nat)
    (h : HostMemory.Host) :
    HostMemory.seenAs (HostMemory.Assessment.map_histogram_to_image program img histogram) (fun h1 out => h1.images out) h =
      HistEq.Assessment.map_histogram_to_image program (h.images img) (h.vectors histogram) := by
  unfold HostMemory.Assessment.map_histogram_to_image HistEq.Assessment.map_histogram_to_image
  simp only [hostMemory_seenAs_pure, hostMemory_seenAs_onDevice, hostMemory_seenAs_vector_create,
    hostMemory_seenAs_vector_copy, hostMemory_seenAs_vector_size, hostMemory_seenAs_cimg_copy,
    hostMemory_seenAs_cimg_size, hostMemory_seenAs_cimg_width, hostMemory_seenAs_cimg_height,
    hostMemory_seenAs_cimg_depth, hostMemory_seenAs_cimg_spectrum,
    hostMemory_seenAs_cimg_ofValues, hostMemory_seenAs_cimg_ofValues_bind,
    hostMemory_seenAs_enqueueWriteBuffer, hostMemory_seenAs_enqueueReadBuffer]
  simp only [hostMemory_newImage_next, hostMemory_newVector_next, hostMemory_newImage_images_eq,
    hostMemory_newImage_vectors, hostMemory_newVector_images, hostMemory_newVector_vectors,
    hostMemory_read_samples, hostMemory_read_elements, hostMemory_store_elements_vectors,
    hostMemory_store_elements_images, hostMemory_store_next, if_true, eq_self_iff_true,
    self_eq_add_right, add_right_eq_self, one_ne_zero, if_false]

/-- Seen as values, the histogram builder of `cmp3752_image_processing-main` over host memory is
the builder on the value of the caller's image: same histogram, same effect
on the device. -/
theorem hostMemory_ImageProcessing_createIntensityHistogram_seenAs (program : Program) (img : Nat)
    (h : HostMemory.Host) :
    HostMemory.seenAs (HostMemory.ImageProcessing.createIntensityHistogram program img) (fun h1 v => h1.vectors v) h =
      HistEq.ImageProcessing.createIntensityHistogram program (h.images img) := by
  unfold HostMemory.ImageProcessing.createIntensityHistogram HistEq.ImageProcessing.createIntensityHistogram
  simp only [hostMemory_seenAs_pure, hostMemory_seenAs_onDevice, hostMemory_seenAs_vector_create,
    hostMemory_seenAs_vector_copy, hostMemory_seenAs_vector_size, hostMemory_seenAs_cimg_copy,
    hostMemory_seenAs_cimg_size, hostMemory_seenAs_cimg_width, hostMemory_seenAs_cimg_height,
    hostMemory_seenAs_cimg_depth, hostMemory_seenAs_cimg_spectrum,
    hostMemory_seenAs_cimg_ofValues, hostMemory_seenAs_cimg_ofValues_bind,
    hostMemory_seenAs_enqueueWriteBuffer, hostMemory_seenAs_enqueueReadBuffer]
  simp only [hostMemory_newImage_next, hostMemory_newVector_next, hostMemory_newImage_images_eq,
    hostMemory_newImage_vectors, hostMemory_newVector_images, hostMemory_newVector_vectors,
    hostMemory_read_samples, hostMemory_read_elements, hostMemory_store_elements_vectors,
    hostMemory_store_elements_images, hostMemory_store_next, if_true, eq_self_iff_true,
    self_eq_add_right, add_right_eq_self, one_ne_zero, if_false]

/-- Seen as values, the cumulative transform of `cmp3752_image_processing-main` over host memory is
the transform on the elements of the caller's vector. -/
theorem hostMemory_ImageProcessing_cumulateHistogram_seenAs (program : Program) (histogram : Nat)
    (h : HostMemory.Host) :
    HostMemory.seenAs (HostMemory.ImageProcessing.cumulateHistogram program histogram) (fun h1 v => h1.vectors v) h =
      HistEq.ImageProcessing.cumulateHistogram program (h.vectors histogram) := by
  unfold HostMemory.ImageProcessing.cumulateHistogram HistEq.ImageProcessing.cumulateHistogram
  simp only [hostMemory_seenAs_pure, hostMemory_seenAs_onDevice, hostMemory_seenAs_vector_create,
    hostMemory_seenAs_vector_copy, hostMemory_seenAs_vector_size, hostMemory_seenAs_cimg_copy,
    hostMemory_seenAs_cimg_size, hostMemory_seenAs_cimg_width, hostMemory_seenAs_cimg_height,
    hostMemory_seenAs_cimg_depth, hostMemory_seenAs_cimg_spectrum,
    hostMemory_seenAs_cimg_ofValues, hostMemory_seenAs_cimg_ofValues_bind,
    hostMemory_seenAs_enqueueWriteBuffer, hostMemory_seenAs_enqueueReadBuffer]
  simp only [hostMemory_newImage_next, hostMemory_newVector_next, hostMemory_newImage_images_eq,
    hostMemory_newImage_vectors, hostMemory_newVector_images, hostMemory_newVector_vectors,
    hostMemory_read_samples, hostMemory_read_elements, hostMemory_store_elements_vectors,
    hostMemory_store_elements_images, hostMemory_store_next, if_true, eq_self_iff_true,
    self_eq_add_right, add_right_eq_self, one_ne_zero, if_false]

/-- Seen as values, the pixel remapper of `cmp3752_image_processing-main` over host memory is the
remapper on the value of the caller's image and the elements of the caller's
vector. -/
theorem hostMemory_ImageProcessing_mapCumulativeHistogramToImage_seenAs (program : Program) (img histogram : Nat)
    (h : HostMemory.Host) :
    HostMemory.seenAs (HostMemory.ImageProcessing.mapCumulativeHistogramToImage program img histogram) (fun h1 out => h1.images out) h =
      HistEq.ImageProcessing.mapCumulativeHistogramToImage program (h.images img) (h.vectors histogram) := by
  unfold HostMemory.ImageProcessing.mapCumulativeHistogramToImage HistEq.ImageProcessing.mapCumulativeHistogramToImage
  simp only [hostMemory_seenAs_pure, hostMemory_seenAs_onDevice, hostMemory_seenAs_vector_create,
    hostMemory_seenAs_vector_copy, hostMemory_seenAs_vector_size, hostMemory_seenAs_cimg_copy,
    hostMemory_seenAs_cimg_size, hostMemory_seenAs_cimg_width, hostMemory_seenAs_cimg_height,
    hostMemory_seenAs_cimg_depth, hostMemory_seenAs_cimg_spectrum,
    hostMemory_seenAs_cimg_ofValues, hostMemory_seenAs_cimg_ofValues_bind,
    hostMemory_seenAs_enqueueWriteBuffer, hostMemory_seenAs_enqueueReadBuffer]
  simp only [hostMemory_newImage_next, hostMemory_newVector_next, hostMemory_newImage_images_eq,
    hostMemory_newImage_vectors, hostMemory_newVector_images, hostMemory_newVector_vectors,
    hostMemory_read_samples, hostMemory_read_elements, hostMemory_store_elements_vectors,
    hostMemory_store_elements_images, hostMemory_store_next, if_true, eq_self_iff_true,
    self_eq_add_right, add_right_eq_self, one_ne_zero, if_false]

/-- Seen as values, the histogram builder of `thisOne` over host memory is
the builder on the value of the caller's image: same histogram, same effect
on the device. -/
theorem hostMemory_ThisOne_create_intensity_histogram_seenAs (program : Program) (img : Nat)
    (h : HostMemory.Host) :
    HostMemory.seenAs (HostMemory.ThisOne.create_intensity_histogram program img) (fun h1 v => h1.vectors v) h =
      HistEq.ThisOne.create_intensity_histogram program (h.images img) := by
  unfold HostMemory.ThisOne.create_intensity_histogram HistEq.ThisOne.create_intensity_histogram
  simp only [hostMemory_seenAs_pure, hostMemory_seenAs_onDevice, hostMemory_seenAs_vector_create,
    hostMemory_seenAs_vector_copy, hostMemory_seenAs_vector_size, hostMemory_seenAs_cimg_copy,
    hostMemory_seenAs_cimg_size, hostMemory_seenAs_cimg_width, hostMemory_seenAs_cimg_height,
    hostMemory_seenAs_cimg_depth, hostMemory_seenAs_cimg_spectrum,
    hostMemory_seenAs_cimg_ofValues, hostMemory_seenAs_cimg_ofValues_bind,
    hostMemory_seenAs_enqueueWriteBuffer, hostMemory_seenAs_enqueueReadBuffer]
  generalize List.replicate (256 * 3) (0 : Int) = zeros
  simp only [hostMemory_newImage_next, hostMemory_newVector_next, hostMemory_newImage_images_eq,
    hostMemory_newImage_vectors, hostMemory_newVector_images, hostMemory_newVector_vectors,
    hostMemory_read_samples, hostMemory_read_elements, hostMemory_store_elements_vectors,
    hostMemory_store_elements_images, hostMemory_store_next, if_true, eq_self_iff_true,
    self_eq_add_right, add_right_eq_self, one_ne_zero, if_false]

/-- Seen as values, the cumulative transform of `thisOne` over host memory is
the transform on the elements of the caller's vector. -/
theorem hostMemory_ThisOne_cumulate_histogram_seenAs (program : Program) (histogram : Nat)
    (h : HostMemory.Host) :
    HostMemory.seenAs (HostMemory.ThisOne.cumulate_histogram program histogram) (fun h1 v => h1.vectors v) h =
      HistEq.ThisOne.cumulate_histogram program (h.vectors histogram) := by
  unfold HostMemory.ThisOne.cumulate_histogram HistEq.ThisOne.cumulate_histogram
  simp only [hostMemory_seenAs_pure, hostMemory_seenAs_onDevice, hostMemory_seenAs_vector_create,
    hostMemory_seenAs_vector_copy, hostMemory_seenAs_vector_size, hostMemory_seenAs_cimg_copy,
    hostMemory_seenAs_cimg_size, hostMemory_seenAs_cimg_width, hostMemory_seenAs_cimg_height,
    hostMemory_seenAs_cimg_depth, hostMemory_seenAs_cimg_spectrum,
    hostMemory_seenAs_cimg_ofValues, hostMemory_seenAs_cimg_ofValues_bind,
    hostMemory_seenAs_enqueueWriteBuffer, hostMemory_seenAs_enqueueReadBuffer]
  simp only [hostMemory_newImage_next, hostMemory_newVector_next, hostMemory_newImage_images_eq,
    hostMemory_newImage_vectors, hostMemory_newVector_images, hostMemory_newVector_vectors,
    hostMemory_read_samples, hostMemory_read_elements, hostMemory_store_elements_vectors,
    hostMemory_store_elements_images, hostMemory_store_next, if_true, eq_self_iff_true,
    self_eq_add_right, add_right_eq_self, one_ne_zero, if_false]

/-- Seen as values, the pixel remapper of `thisOne` over host memory is the
remapper on the value of the caller's image and the elements of the caller's
vector. -/
theorem hostMemory_ThisOne_map_histogram_to_image_seenAs (program : Program) (img histogram : Nat)
    (h : HostMemory.Host) :
    HostMemory.seenAs (HostMemory.ThisOne.map_histogram_to_image program img histogram) (fun h1 out => h1.images out) h =
      HistEq.ThisOne.map_histogram_to_image program (h.images img) (h.vectors histogram) := by
  unfold HostMemory.ThisOne.map_histogram_to_image HistEq.ThisOne.map_histogram_to_image
  simp only [hostMemory_seenAs_pure, hostMemory_seenAs_onDevice, hostMemory_seenAs_vector_create,
    hostMemory_seenAs_vector_copy, hostMemory_seenAs_vector_size, hostMemory_seenAs_cimg_copy,
    hostMemory_seenAs_cimg_size, hostMemory_seenAs_cimg_width, hostMemory_seenAs_cimg_height,
    hostMemory_seenAs_cimg_depth, hostMemory_seenAs_cimg_spectrum,
    hostMemory_seenAs_cimg_ofValues, hostMemory_seenAs_cimg_ofValues_bind,
    hostMemory_seenAs_enqueueWriteBuffer, hostMemory_seenAs_enqueueReadBuffer]
  simp only [hostMemory_newImage_next, hostMemory_newVector_next, hostMemory_newImage_images_eq,
    hostMemory_newImage_vectors, hostMemory_newVector_images, hostMemory_newVector_vectors,
    hostMemory_read_samples, hostMemory_read_elements, hostMemory_store_elements_vectors,
    hostMemory_store_elements_images, hostMemory_store_next, if_true, eq_self_iff_true,
    self_eq_add_right, add_right_eq_self, one_ne_zero, if_false]

/-- The device state a run leaves is the one its value view leaves. -/
theorem hostMemory_seenAs_device {α β : Type} (m : HostMemory.HostCL α)
    (see : HostMemory.Host → α → β) (h : HostMemory.Host) (d : Device) :
    (HostMemory.seenAs m see h d).2 = (m h d).2.2 := by
  simp only [HostMemory.seenAs]
  rcases m h d with ⟨r, h1, d1⟩
  cases r <;> rfl

/-- A run returns exactly when its value view does, and then with the value seen. -/
theorem hostMemory_seenAs_ok {α β : Type} (m : HostMemory.HostCL α)
    (see : HostMemory.Host → α → β) (h : HostMemory.Host) (d : Device) (x : α)
    (hx : (m h d).1 = Except.ok x) :
    (HostMemory.seenAs m see h d).1 = Except.ok (see (m h d).2.1 x) := by
  simp only [HostMemory.seenAs]
  rcases hr : m h d with ⟨r, h1, d1⟩
  rw [hr] at hx
  cases r with
  | error e => cases hx
  | ok y =>
    cases hx
    rfl

theorem hostMemory_seenAs_bind {α α1 β γ : Type} {m : HostMemory.HostCL α}
    {f : α → HostMemory.HostCL β} {see : HostMemory.Host → β → γ}
    {see1 : HostMemory.Host → α → α1} {g : α1 → CL γ} {h : HostMemory.Host}
    (hf : ∀ d x h1 d1, m h d = (Except.ok x, h1, d1) →
      HostMemory.seenAs (f x) see h1 d1 = g (see1 h1 x) d1) :
    HostMemory.seenAs (m >>= f) see h = HostMemory.seenAs m see1 h >>= g := by
  funext d
  rw [HistEq.bind_apply]
  have hf1 := hf d
  simp only [HostMemory.seenAs, hostMemory_bind_apply] at hf1 ⊢
  rcases hr : m h d with ⟨r, h1, d1⟩
  cases r with
  | error e => rfl
  | ok x => exact hf1 x h1 d1 hr

theorem hostMemory_seenAs_bind_pure {α β : Type} (m : HostMemory.HostCL α)
    (see : HostMemory.Host → α → β) (h : HostMemory.Host) :
    HostMemory.seenAs (m >>= fun x => pure x) see h =
      HostMemory.seenAs m see h >>= fun y => pure y :=
  hostMemory_seenAs_bind fun _ _ _ _ _ => rfl

/-- Seen as values, the pipeline of `cmp3752_assessment` over host memory is the pipeline
on the value of the loaded image.  The remapper is given that value because
the two stages before it leave the image as it was. -/
theorem hostMemory_Assessment_main_try_seenAs (program : Program) (image_input : Nat)
    (h : HostMemory.Host) (hi : image_input < h.next) :
    HostMemory.seenAs (HostMemory.Assessment.main_try program image_input)
        (fun h1 out => h1.images out) h =
      HistEq.Assessment.main_try program (h.images image_input) := by
  unfold HostMemory.Assessment.main_try HistEq.Assessment.main_try
  rw [hostMemory_seenAs_onDevice]
  congr 1
  funext _
  rw [← hostMemory_Assessment_create_intensity_histogram_seenAs program image_input h]
  refine hostMemory_seenAs_bind fun d v1 h1 d1 hr1 => ?_
  have f1 := hostMemory_Assessment_create_intensity_histogram_frames program image_input h d
  rw [hr1] at f1
  rw [← hostMemory_Assessment_cumulate_histogram_seenAs program v1 h1]
  refine congrFun (hostMemory_seenAs_bind fun d' v2 h2 d2 hr2 => ?_) d1
  have f2 := hostMemory_Assessment_cumulate_histogram_frames program v1 h1 d'
  rw [hr2] at f2
  have himg : h2.images image_input = h.images image_input :=
    (f2.2 _ (lt_of_lt_of_le hi f1.1)).trans (f1.2 _ hi)
  rw [← himg, ← hostMemory_Assessment_map_histogram_to_image_seenAs program image_input v2 h2]
  exact congrFun (hostMemory_seenAs_bind_pure _ _ h2) d2

/-- Seen as values, the pipeline of `cmp3752_image_processing-main` over host memory is the pipeline
on the value of the loaded image.  The remapper is given that value because
the two stages before it leave the image as it was. -/
theorem hostMemory_ImageProcessing_main_try_seenAs (program : Program) (image_input : Nat)
    (h : HostMemory.Host) (hi : image_input < h.next) :
    HostMemory.seenAs (HostMemory.ImageProcessing.main_try program image_input)
        (fun h1 out => h1.images out) h =
      HistEq.ImageProcessing.main_try program (h.images image_input) := by
  unfold HostMemory.ImageProcessing.main_try HistEq.ImageProcessing.main_try
  rw [hostMemory_seenAs_onDevice]
  congr 1
  funext _
  rw [← hostMemory_ImageProcessing_createIntensityHistogram_seenAs program image_input h]
  refine hostMemory_seenAs_bind fun d v1 h1 d1 hr1 => ?_
  have f1 := hostMemory_ImageProcessing_createIntensityHistogram_frames program image_input h d
  rw [hr1] at f1
  rw [← hostMemory_ImageProcessing_cumulateHistogram_seenAs program v1 h1]
  refine congrFun (hostMemory_seenAs_bind fun d' v2 h2 d2 hr2 => ?_) d1
  have f2 := hostMemory_ImageProcessing_cumulateHistogram_frames program v1 h1 d'
  rw [hr2] at f2
  have himg : h2.images image_input = h.images image_input :=
    (f2.2 _ (lt_of_lt_of_le hi f1.1)).trans (f1.2 _ hi)
  rw [← himg, ← hostMemory_ImageProcessing_mapCumulativeHistogramToImage_seenAs program image_input v2 h2]
  exact congrFun (hostMemory_seenAs_bind_pure _ _ h2) d2

/-- Seen as values, the pipeline of `thisOne` over host memory is the pipeline
on the value of the loaded image.  The remapper is given that value because
the two stages before it leave the image as it was. -/
theorem hostMemory_ThisOne_main_try_seenAs (program : Program) (image_input : Nat)
    (h : HostMemory.Host) (hi : image_input < h.next) :
    HostMemory.seenAs (HostMemory.ThisOne.main_try program image_input)
        (fun h1 out => h1.images out) h =
      HistEq.ThisOne.main_try program (h.images image_input) := by
  unfold HostMemory.ThisOne.main_try HistEq.ThisOne.main_try
  rw [hostMemory_seenAs_onDevice]
  congr 1
  funext _
  rw [← hostMemory_ThisOne_create_intensity_histogram_seenAs program image_input h]
  refine hostMemory_seenAs_bind fun d v1 h1 d1 hr1 => ?_
  have f1 := hostMemory_ThisOne_create_intensity_histogram_frames program image_input h d
  rw [hr1] at f1
  rw [← hostMemory_ThisOne_cumulate_histogram_seenAs program v1 h1]
  refine congrFun (hostMemory_seenAs_bind fun d' v2 h2 d2 hr2 => ?_) d1
  have f2 := hostMemory_ThisOne_cumulate_histogram_frames program v1 h1 d'
  rw [hr2] at f2
  have himg : h2.images image_input = h.images image_input :=
    (f2.2 _ (lt_of_lt_of_le hi f1.1)).trans (f1.2 _ hi)
  rw [← himg, ← hostMemory_ThisOne_map_histogram_to_image_seenAs program image_input v2 h2]
  exact congrFun (hostMemory_seenAs_bind_pure _ _ h2) d2

/-- What a run over host memory does to the device and what it returns, read
off the value computation `c` it is seen as. -/
theorem hostMemory_run_of_seenAs {α β : Type} {m : HostMemory.HostCL α}
    {see : HostMemory.Host → α → β} {h : HostMemory.Host} {c : CL β}
    (hs : HostMemory.seenAs m see h = c) (d : Device) :
    (m h d).2.2 = (c d).2 ∧
    (∀ x, (m h d).1 = Except.ok x → (c d).1 = Except.ok (see (m h d).2.1 x)) ∧
    (∀ b, (c d).1 = Except.ok b → ∃ x, (m h d).1 = Except.ok x) := by
  subst hs
  exact ⟨(hostMemory_seenAs_device m see h d).symm, fun x hx => hostMemory_seenAs_ok m see h d x hx,
    fun b hb => hostMemory_seenAs_returns m see h d b hb⟩

theorem hostMemory_twoObjects_histogram_ne_nil : HostMemory.twoObjects.vectors 1 ≠ [] :=
  flatHistogram_ne_nil

/-! ## The kernels of the specification -/

theorem block_length (histogram : List Int) (c : Nat) (hlen : histogram.length = 768) (hc : c < 3) :
    (block histogram c).length = 256 := by
  simp [block, hlen]
  omega

theorem block_getD (histogram : List Int) (c j : Nat) (hj : j < 256) :
    (block histogram c).getD j 0 = histogram.getD (256 * c + j) 0 := by
  simp [block, List.getD_eq_getElem?_getD, List.getElem?_take, hj]

theorem specProgram_create :
    specProgram.kernels "create_intensity_histogram" = some kernel_create_intensity_histogram := rfl

theorem specProgram_cumulate :
    specProgram.kernels "cumulate_histogram" = some kernel_cumulate_histogram := rfl

theorem specProgram_cumulate_bl :
    specProgram.kernels "cumulate_histogram_bl" = some kernel_cumulate_histogram_bl := rfl

theorem specProgram_map :
    specProgram.kernels "map_cumulative_histogram_to_image" =
      some kernel_map_cumulative_histogram_to_image := rfl

theorem toUChar_lt (x : Int) : toUChar x < 256 := by
  unfold toUChar
  omega

/-- Incrementing counter `v` of block `c1` adds one to the sum of the 256
counters of block `c1` and leaves the sums of the other blocks as they were. -/
theorem increment_block_sum (m : Mem) (b c c1 v : Nat) (hv : v < 256) :
    ∑ j in Finset.range 256, increment m b (256 * c1 + v) b (256 * c + j) =
      ∑ j in Finset.range 256, m b (256 * c + j) + (if c = c1 then 1 else 0) := by
  have hcell : ∀ j, j ∈ Finset.range 256 →
      increment m b (256 * c1 + v) b (256 * c + j) =
        m b (256 * c + j) + (if j = v ∧ c = c1 then 1 else 0) := by
    intro j hj
    have hj' : j < 256 := Finset.mem_range.mp hj
    unfold increment
    by_cases h : 256 * c + j = 256 * c1 + v
    · have h1 : j = v ∧ c = c1 := by omega
      simp [h, h1]
    · have h1 : ¬ (j = v ∧ c = c1) := by
        rintro ⟨rfl, rfl⟩
        exact h rfl
      simp [h, h1]
  rw [Finset.sum_congr rfl hcell, Finset.sum_add_distrib]
  congr 1
  by_cases hc : c = c1
  · simp [hc, Finset.sum_ite_eq', hv]
  · simp [hc]

theorem worker_block_sum (m : Mem) (b c : Nat) (v : Nat → Nat) (hv : ∀ c1, v c1 < 256)
    (hc : c < 3) :
    ∑ j in Finset.range 256,
        ((List.range 3).foldl (fun m1 c1 => increment m1 b (256 * c1 + v c1)) m) b (256 * c + j) =
      ∑ j in Finset.range 256, m b (256 * c + j) + 1 := by
  have h3 : List.range 3 = [0, 1, 2] := by decide
  rw [h3]
  simp only [List.foldl_cons, List.foldl_nil]
  rw [increment_block_sum _ b c 2 (v 2) (hv 2), increment_block_sum _ b c 1 (v 1) (hv 1),
    increment_block_sum _ b c 0 (v 0) (hv 0)]
  interval_cases c <;> simp

theorem workers_block_sum (b c : Nat) (v : Nat → Nat → Nat) (hv : ∀ id c1, v id c1 < 256)
    (hc : c < 3) (ids : List Nat) (m : Mem) :
    ∑ j in Finset.range 256,
        (ids.foldl (fun m0 id =>
          (List.range 3).foldl (fun m1 c1 => increment m1 b (256 * c1 + v id c1)) m0) m)
          b (256 * c + j) =
      ∑ j in Finset.range 256, m b (256 * c + j) + ids.length := by
  induction ids generalizing m with
  | nil => simp
  | cons id ids ih =>
    rw [List.foldl_cons, ih, worker_block_sum m b c (v id) (hv id) hc, List.length_cons]
    push_cast
    ring

/-- The histogram kernel of the specification adds one count per work item to
each of the three blocks of the histogram buffer. -/
theorem kernel_create_intensity_histogram_block_sum (image histogram global c : Nat) (mem : Mem)
    (hc : c < 3) :
    ∑ j in Finset.range 256,
        kernel_create_intensity_histogram [image, histogram] global mem histogram (256 * c + j) =
      ∑ j in Finset.range 256, mem histogram (256 * c + j) + global := by
  unfold kernel_create_intensity_histogram
  have := workers_block_sum histogram c (fun id c1 => toUChar (mem image (3 * id + c1)))
    (fun _ _ => toUChar_lt _) hc (List.range global) mem
  simpa using this

theorem sum_eq_sum_getD (l : List Int) : l.sum = ∑ j in Finset.range l.length, l.getD j 0 := by
  induction l with
  | nil => simp
  | cons x xs ih =>
    rw [List.sum_cons, List.length_cons, Finset.sum_range_succ', ih]
    simp [add_comm]

theorem block_sum_readCells (mem : Mem) (buffer c : Nat) (hc : c < 3) :
    (block (readCells mem buffer 768) c).sum =
      ∑ j in Finset.range 256, mem buffer (256 * c + j) := by
  rw [sum_eq_sum_getD, block_length _ c (readCells_length _ _ _) hc]
  apply Finset.sum_congr rfl
  intro j hj
  have hj' : j < 256 := Finset.mem_range.mp hj
  rw [block_getD _ c j hj', readCells_getD _ _ _ _ (by omega)]

/-- With the kernels of the specification, on a device that reports no fault,
the counts of each block of the histogram returned by the histogram builders
sum to what the block of the output buffer held when it was created plus
`img.size() / 3`, the number of work items; for a three-channel image and a
buffer that happened to hold zeros this is the number of pixels. -/
theorem histogram_block_sum (img : CImg) (d : Device) (hf : FaultFree d) (hs : 3 ≤ img.size) :
    (∃ histogram,
      (Assessment.create_intensity_histogram specProgram img d).1 = Except.ok histogram ∧
      ∀ c, c < 3 → (block histogram c).sum =
        ∑ j in Finset.range 256, d.mem (d.count + 1) (256 * c + j) + (img.size / 3 : Nat)) ∧
    (∃ histogram,
      (ImageProcessing.createIntensityHistogram specProgram img d).1 = Except.ok histogram ∧
      ∀ c, c < 3 → (block histogram c).sum =
        ∑ j in Finset.range 256, d.mem (d.count + 1) (256 * c + j) + (img.size / 3 : Nat)) ∧
    (img.spectrum = 3 → (∀ i, d.mem (d.count + 1) i = 0) →
      ∀ c, c < 3 → ∑ j in Finset.range 256, d.mem (d.count + 1) (256 * c + j) + (img.size / 3 : Nat) =
        (img.pixels : Int)) := by
  have hsum : ∀ c, c < 3 →
      (block (readCells (kernel_create_intensity_histogram [d.count, d.count + 1] (img.size / 3)
        (writeCells d.mem d.count img.size (img.data.map Int.ofNat))) (d.count + 1) 768) c).sum =
      ∑ j in Finset.range 256, d.mem (d.count + 1) (256 * c + j) + (img.size / 3 : Nat) := by
    intro c hc
    rw [block_sum_readCells _ _ c hc, kernel_create_intensity_histogram_block_sum _ _ _ c _ hc]
    congr 1
    apply Finset.sum_congr rfl
    intro j _
    exact writeCells_other _ _ _ _ _ _ (by omega)
  refine ⟨?_, ?_, ?_⟩
  · obtain ⟨d1, h1, _⟩ := assessment_create_intensity_histogram_run specProgram img d
      kernel_create_intensity_histogram hf specProgram_create hs
    exact ⟨_, fst_ok_of_eq h1, hsum⟩
  · obtain ⟨d1, h1, _⟩ := imageProcessing_createIntensityHistogram_run specProgram img d
      kernel_create_intensity_histogram hf specProgram_create hs
    exact ⟨_, fst_ok_of_eq h1, hsum⟩
  · intro h3 hz c _
    have hp : img.size / 3 = img.pixels := by
      unfold CImg.size CImg.pixels
      rw [h3]
      exact Nat.mul_div_cancel _ (by decide)
    simp [hz, hp]

/-! # The claims -/

/-! ## C1 -/

/-- C1. A run of the pipeline driver that returns an image is the program
build followed by the three stages, each run exactly once and in order: the
array returned by the histogram builder is the one given to the cumulative
transform, the array that one returns is the one given to the pixel remapper,
and the remapper is given the original input image.  On a device that reports
no fault, with a program that builds and has the kernels, the driver returns
an image for every input image of at least three samples (one work item). -/
theorem pipeline_is_composition_of_stages (program : Program) (image : CImg) (d : Device) :
    (∀ out, (Assessment.main_try program image d).1 = Except.ok out →
      ComposedRun program.build (Assessment.create_intensity_histogram program image)
        (Assessment.cumulate_histogram program) (Assessment.map_histogram_to_image program image)
        ["create_intensity_histogram", "cumulate_histogram", "map_cumulative_histogram_to_image"]
        d (Assessment.main_try program image d) out) ∧
    (∀ out, (ImageProcessing.main_try program image d).1 = Except.ok out →
      ComposedRun program.build (ImageProcessing.createIntensityHistogram program image)
        (ImageProcessing.cumulateHistogram program)
        (ImageProcessing.mapCumulativeHistogramToImage program image)
        ["create_intensity_histogram", "cumulate_histogram", "map_cumulative_histogram_to_image"]
        d (ImageProcessing.main_try program image d) out) ∧
    (∀ out, (ThisOne.main_try program image d).1 = Except.ok out →
      ComposedRun program.build (ThisOne.create_intensity_histogram program image)
        (ThisOne.cumulate_histogram program) (ThisOne.map_histogram_to_image program image)
        ["create_intensity_histogram", "cumulate_histogram_bl", "map_cumulative_histogram_to_image"]
        d (ThisOne.main_try program image d) out) ∧
    (FaultFree d → program.builds = true →
      (∃ k, program.kernels "create_intensity_histogram" = some k) →
      (∃ k, program.kernels "cumulate_histogram" = some k) →
      (∃ k, program.kernels "cumulate_histogram_bl" = some k) →
      (∃ k, program.kernels "map_cumulative_histogram_to_image" = some k) →
      3 ≤ image.size →
      (∃ out, (Assessment.main_try program image d).1 = Except.ok out) ∧
      (∃ out, (ImageProcessing.main_try program image d).1 = Except.ok out) ∧
      (∃ out, (ThisOne.main_try program image d).1 = Except.ok out)) := by
  refine ⟨assessment_main_try_composed program image d,
    imageProcessing_main_try_composed program image d,
    thisOne_main_try_composed program image d, ?_⟩
  intro hf hb ⟨k1, hk1⟩ ⟨k2, hk2⟩ ⟨k2b, hk2b⟩ ⟨k3, hk3⟩ hs
  refine ⟨?_, ?_, ?_⟩
  · obtain ⟨out, d1, h, _⟩ := assessment_main_try_run program image d k1 k2 k3 hf hb hk1 hk2 hk3 hs
    exact ⟨out, fst_ok_of_eq h⟩
  · obtain ⟨out, d1, h, _⟩ :=
      imageProcessing_main_try_run program image d k1 k2 k3 hf hb hk1 hk2 hk3 hs
    exact ⟨out, fst_ok_of_eq h⟩
  · obtain ⟨out, d1, h, _⟩ := thisOne_main_try_run program image d k1 k2b k3 hf hb hk1 hk2b hk3 hs
    exact ⟨out, fst_ok_of_eq h⟩

/-- Witness for C1: the two-pixel image on the clean device, with the kernels
of the specification. -/
theorem pipeline_is_composition_of_stages_witness :
    FaultFree cleanDevice ∧ specProgram.builds = true ∧ 3 ≤ twoPixels.size ∧
    ∃ out, (Assessment.main_try specProgram twoPixels cleanDevice).1 = Except.ok out ∧
      ComposedRun specProgram.build (Assessment.create_intensity_histogram specProgram twoPixels)
        (Assessment.cumulate_histogram specProgram)
        (Assessment.map_histogram_to_image specProgram twoPixels)
        ["create_intensity_histogram", "cumulate_histogram", "map_cumulative_histogram_to_image"]
        cleanDevice (Assessment.main_try specProgram twoPixels cleanDevice) out := by
  have h := pipeline_is_composition_of_stages specProgram twoPixels cleanDevice
  obtain ⟨out, hout⟩ := (h.2.2.2 cleanDevice_faultFree rfl ⟨_, specProgram_create⟩
    ⟨_, specProgram_cumulate⟩ ⟨_, specProgram_cumulate_bl⟩ ⟨_, specProgram_map⟩ (by decide)).1
  exact ⟨cleanDevice_faultFree, rfl, by decide, out, hout, h.1 out hout⟩

/-! ## C2 -/

/-- C2, at the failing input.  With the kernels of the specification, on a
device whose memory holds a stale 1 where the histogram output buffer is
allocated, the histogram builder of `cmp3752_assessment` and that of
`cmp3752_image_processing-main` return, for the 1x1 three-channel image, a
red block whose counts sum to 2 although the image has 1 pixel; the green
block sums to 1. -/
theorem histogram_counts_include_stale_memory :
    ((Assessment.create_intensity_histogram specProgram pixelRGB staleDevice).1.toOption.map
      fun histogram => ((block histogram 0).sum, (block histogram 1).sum)) = some (2, 1) ∧
    ((ImageProcessing.createIntensityHistogram specProgram pixelRGB staleDevice).1.toOption.map
      fun histogram => ((block histogram 0).sum, (block histogram 1).sum)) = some (2, 1) ∧
    pixelRGB.pixels = 1 := by
  decide!

/-! ## C3 -/

/-- C4. In each of the three programs, an image returned by the pixel remapper
has the width, height, depth and channel count of the input image, and as
many samples as the input; on a device that reports no fault, with the kernel
present, the remapper returns an image for every image of at least three
samples (one work item) and non-empty histogram. -/
theorem remapped_image_has_input_shape (program : Program) (img : CImg) (histogram : List Int)
    (d : Device) :
    (∀ out, (Assessment.map_histogram_to_image program img histogram d).1 = Except.ok out →
      out.width = img.width ∧ out.height = img.height ∧ out.depth = img.depth ∧
      out.spectrum = img.spectrum ∧ out.data.length = img.data.length) ∧
    (∀ out, (ImageProcessing.mapCumulativeHistogramToImage program img histogram d).1 = Except.ok out →
      out.width = img.width ∧ out.height = img.height ∧ out.depth = img.depth ∧
      out.spectrum = img.spectrum ∧ out.data.length = img.data.length) ∧
    (∀ out, (ThisOne.map_histogram_to_image program img histogram d).1 = Except.ok out →
      out.width = img.width ∧ out.height = img.height ∧ out.depth = img.depth ∧
      out.spectrum = img.spectrum ∧ out.data.length = img.data.length) ∧
    (FaultFree d → (∃ k, program.kernels "map_cumulative_histogram_to_image" = some k) →
      3 ≤ img.size → histogram ≠ [] →
      (∃ out, (Assessment.map_histogram_to_image program img histogram d).1 = Except.ok out) ∧
      (∃ out, (ImageProcessing.mapCumulativeHistogramToImage program img histogram d).1 =
        Except.ok out) ∧
      (∃ out, (ThisOne.map_histogram_to_image program img histogram d).1 = Except.ok out)) := by
  refine ⟨?_, ?_, ?_, ?_⟩
  · intro out h
    obtain ⟨_, _, hshape, _⟩ :=
      returns_of_fst (assessment_map_histogram_to_image_returns program img histogram) d out h
    exact hshape
  · intro out h
    obtain ⟨_, _, hshape, _⟩ :=
      returns_of_fst (imageProcessing_mapCumulativeHistogramToImage_returns program img histogram) d out h
    exact hshape
  · intro out h
    obtain ⟨_, _, hshape, _⟩ :=
      returns_of_fst (assessment_map_histogram_to_image_returns program img histogram) d out h
    exact hshape
  · intro hf ⟨k, hk⟩ hs hh
    have hh' := length_ne_zero_of_ne_nil hh
    obtain ⟨d1, h1, _⟩ := assessment_map_histogram_to_image_run program img histogram d k hf hk hs hh'
    obtain ⟨d2, h2, _⟩ :=
      imageProcessing_mapCumulativeHistogramToImage_run program img histogram d k hf hk hs hh'
    exact ⟨⟨_, fst_ok_of_eq h1⟩, ⟨_, fst_ok_of_eq h2⟩, ⟨_, fst_ok_of_eq h1⟩⟩

/-- Witness for C4: the two-pixel image and the flat histogram on the clean device. -/
theorem remapped_image_has_input_shape_witness :
    FaultFree cleanDevice ∧ 3 ≤ twoPixels.size ∧ flatHistogram ≠ [] ∧
    ∃ out, (Assessment.map_histogram_to_image specProgram twoPixels flatHistogram cleanDevice).1 =
        Except.ok out ∧
      out.width = twoPixels.width ∧ out.height = twoPixels.height ∧ out.depth = twoPixels.depth ∧
      out.spectrum = twoPixels.spectrum ∧ out.data.length = twoPixels.data.length := by
  have h := remapped_image_has_input_shape specProgram twoPixels flatHistogram cleanDevice
  have hne : flatHistogram ≠ [] := by
    intro h0
    have := congrArg List.length h0
    rw [flatHistogram, List.length_replicate] at this
    exact absurd this (by decide)
  obtain ⟨out, hout⟩ := (h.2.2.2 cleanDevice_faultFree ⟨_, specProgram_map⟩ (by decide) hne).1
  exact ⟨cleanDevice_faultFree, by decide, hne, out, hout, h.1 out hout⟩

/-! ## C5 -/

/-- Counterexample to C5 as stated: for a one-channel image of three pixels
the histogram builder returns 768 counts, not 256. -/
theorem histogram_length_counterexample :
    ∃ histogram,
      (Assessment.create_intensity_histogram specProgram grayRow cleanDevice).1 =
        Except.ok histogram ∧
      histogram.length ≠ 256 * grayRow.spectrum := by
  obtain ⟨d1, h1, _⟩ := assessment_create_intensity_histogram_run specProgram grayRow cleanDevice
    kernel_create_intensity_histogram cleanDevice_faultFree specProgram_create (by decide)
  refine ⟨_, fst_ok_of_eq h1, ?_⟩
  rw [readCells_length]
  decide

/-- C5, amended. In each of the three programs, a histogram returned by the
histogram builder has 768 = 256 * 3 entries whatever the channel count of the
image, which is 256 times the channel count exactly for a 3-channel image; on
a device that reports no fault, with the kernel present, the builder returns a
histogram for every image of at least three samples (one work item). -/
theorem histogram_length_is_768 (program : Program) (img : CImg) (d : Device) :
    (∀ histogram, (Assessment.create_intensity_histogram program img d).1 = Except.ok histogram →
      histogram.length = 768 ∧ (histogram.length = 256 * img.spectrum ↔ img.spectrum = 3)) ∧
    (∀ histogram, (ImageProcessing.createIntensityHistogram program img d).1 = Except.ok histogram →
      histogram.length = 768 ∧ (histogram.length = 256 * img.spectrum ↔ img.spectrum = 3)) ∧
    (∀ histogram, (ThisOne.create_intensity_histogram program img d).1 = Except.ok histogram →
      histogram.length = 768 ∧ (histogram.length = 256 * img.spectrum ↔ img.spectrum = 3)) ∧
    (FaultFree d → (∃ k, program.kernels "create_intensity_histogram" = some k) → 3 ≤ img.size →
      (∃ histogram, (Assessment.create_intensity_histogram program img d).1 = Except.ok histogram) ∧
      (∃ histogram, (ImageProcessing.createIntensityHistogram program img d).1 =
        Except.ok histogram) ∧
      (∃ histogram, (ThisOne.create_intensity_histogram program img d).1 = Except.ok histogram)) := by
  refine ⟨?_, ?_, ?_, ?_⟩
  · intro histogram h
    obtain ⟨_, _, hlen, _⟩ :=
      returns_of_fst (assessment_create_intensity_histogram_returns program img) d histogram h
    exact ⟨hlen, by rw [hlen]; omega⟩
  · intro histogram h
    obtain ⟨_, _, hlen, _⟩ :=
      returns_of_fst (imageProcessing_createIntensityHistogram_returns program img) d histogram h
    exact ⟨hlen, by rw [hlen]; omega⟩
  · intro histogram h
    obtain ⟨_, _, hlen, _⟩ :=
      returns_of_fst (assessment_create_intensity_histogram_returns program img) d histogram h
    exact ⟨hlen, by rw [hlen]; omega⟩
  · intro hf ⟨k, hk⟩ hs
    obtain ⟨d1, h1, _⟩ := assessment_create_intensity_histogram_run program img d k hf hk hs
    obtain ⟨d2, h2, _⟩ := imageProcessing_createIntensityHistogram_run program img d k hf hk hs
    exact ⟨⟨_, fst_ok_of_eq h1⟩, ⟨_, fst_ok_of_eq h2⟩, ⟨_, fst_ok_of_eq h1⟩⟩

/-- Witness for C5, amended: the one-channel image on the clean device. -/
theorem histogram_length_is_768_witness :
    FaultFree cleanDevice ∧ 3 ≤ grayRow.size ∧
    ∃ histogram,
      (Assessment.create_intensity_histogram specProgram grayRow cleanDevice).1 =
        Except.ok histogram ∧
      histogram.length = 768 ∧ (histogram.length = 256 * grayRow.spectrum ↔ grayRow.spectrum = 3) := by
  have h := histogram_length_is_768 specProgram grayRow cleanDevice
  obtain ⟨histogram, hh⟩ := (h.2.2.2 cleanDevice_faultFree ⟨_, specProgram_create⟩ (by decide)).1
  exact ⟨cleanDevice_faultFree, by decide, histogram, hh, h.1 histogram hh⟩

/-! ## C6 -/

/-- Counterexample to C6 as stated: on the clean device the histogram builder
and the pixel remapper reject the empty image with `CL_INVALID_BUFFER_SIZE`,
and the pipeline displays nothing. -/
theorem zero_pixel_image_counterexample :
    (Assessment.create_intensity_histogram specProgram CImg.empty cleanDevice).1 =
      Except.error ClError.CL_INVALID_BUFFER_SIZE ∧
    (Assessment.map_histogram_to_image specProgram CImg.empty flatHistogram cleanDevice).1 =
      Except.error ClError.CL_INVALID_BUFFER_SIZE ∧
    (Assessment.main specProgram CImg.empty cleanDevice).1 = none :=
  ⟨rfl, rfl, rfl⟩

/-- C6, amended. A zero-pixel image is rejected: in each of the three
programs the first call of the histogram builder, and of the pixel remapper,
asks for a device buffer of 0 bytes and throws (`CL_INVALID_BUFFER_SIZE`
unless the device reports a fault of its own), nothing else is called, and
the pipeline throws without dispatching any kernel, so that `main` displays
no image. -/
theorem zero_pixel_image_is_rejected (program : Program) (img : CImg) (histogram : List Int)
    (d : Device) (h0 : img.size = 0) :
    (∃ e, (d.fault d.log.length = none → e = ClError.CL_INVALID_BUFFER_SIZE) ∧
      Assessment.create_intensity_histogram program img d =
        (Except.error e, d.record (Call.createBuffer MemFlags.CL_MEM_READ_ONLY 0) (some e)) ∧
      Assessment.map_histogram_to_image program img histogram d =
        (Except.error e, d.record (Call.createBuffer MemFlags.CL_MEM_READ_ONLY 0) (some e)) ∧
      ImageProcessing.createIntensityHistogram program img d =
        (Except.error e, d.record (Call.createBuffer MemFlags.CL_MEM_READ_ONLY 0) (some e)) ∧
      ImageProcessing.mapCumulativeHistogramToImage program img histogram d =
        (Except.error e, d.record (Call.createBuffer MemFlags.CL_MEM_READ_ONLY 0) (some e)) ∧
      ThisOne.create_intensity_histogram program img d =
        (Except.error e, d.record (Call.createBuffer MemFlags.CL_MEM_READ_ONLY 0) (some e)) ∧
      ThisOne.map_histogram_to_image program img histogram d =
        (Except.error e, d.record (Call.createBuffer MemFlags.CL_MEM_READ_ONLY 0) (some e))) ∧
    ((∃ e, (Assessment.main_try program img d).1 = Except.error e) ∧
      dispatches (callsSince d (Assessment.main_try program img d).2) = [] ∧
      (Assessment.main program img d).1 = none) ∧
    ((∃ e, (ImageProcessing.main_try program img d).1 = Except.error e) ∧
      dispatches (callsSince d (ImageProcessing.main_try program img d).2) = [] ∧
      (ImageProcessing.main program img d).1 = none) ∧
    ((∃ e, (ThisOne.main_try program img d).1 = Except.error e) ∧
      dispatches (callsSince d (ThisOne.main_try program img d).2) = [] ∧
      (ThisOne.main program img d).1 = none) := by
  refine ⟨?_, ?_, ?_, ?_⟩
  · obtain ⟨e, he, h⟩ := buffer_create_zero MemFlags.CL_MEM_READ_ONLY d
    refine ⟨e, he, ?_, ?_, ?_, ?_, ?_, ?_⟩
    · unfold Assessment.create_intensity_histogram
      simp only [bind_apply, h0, h]
    · unfold Assessment.map_histogram_to_image
      simp only [bind_apply, h0, h]
    · unfold ImageProcessing.createIntensityHistogram
      simp only [bind_apply, h0, h]
    · unfold ImageProcessing.mapCumulativeHistogramToImage
      simp only [bind_apply, h0, h]
    · unfold ThisOne.create_intensity_histogram
      simp only [bind_apply, h0, h]
    · unfold ThisOne.map_histogram_to_image
      simp only [bind_apply, h0, h]
  · have hr := rejected_run program (Assessment.create_intensity_histogram program img)
      (fun h => Assessment.cumulate_histogram program h >>= fun c =>
        Assessment.map_histogram_to_image program img c >>= fun o => pure o) d
      (fun d0 => by
        obtain ⟨e, _, h⟩ := assessment_create_intensity_histogram_empty program img d0 h0
        exact ⟨e, h⟩)
    obtain ⟨⟨e, he⟩, hd⟩ := hr
    exact ⟨⟨e, he⟩, hd, assessment_main_none program img d e he⟩
  · have hr := rejected_run program (ImageProcessing.createIntensityHistogram program img)
      (fun h => ImageProcessing.cumulateHistogram program h >>= fun c =>
        ImageProcessing.mapCumulativeHistogramToImage program img c >>= fun o => pure o) d
      (fun d0 => by
        obtain ⟨e, _, h⟩ := imageProcessing_createIntensityHistogram_empty program img d0 h0
        exact ⟨e, h⟩)
    obtain ⟨⟨e, he⟩, hd⟩ := hr
    exact ⟨⟨e, he⟩, hd, imageProcessing_main_none program img d e he⟩
  · have hr := rejected_run program (ThisOne.create_intensity_histogram program img)
      (fun h => ThisOne.cumulate_histogram program h >>= fun c =>
        ThisOne.map_histogram_to_image program img c >>= fun o => pure o) d
      (fun d0 => by
        obtain ⟨e, _, h⟩ := assessment_create_intensity_histogram_empty program img d0 h0
        exact ⟨e, h⟩)
    obtain ⟨⟨e, he⟩, hd⟩ := hr
    exact ⟨⟨e, he⟩, hd, thisOne_main_none program img d e he⟩

/-- Witness for C6, amended: the empty image on the clean device. -/
theorem zero_pixel_image_is_rejected_witness :
    CImg.empty.size = 0 ∧
    (∃ e, (Assessment.main_try specProgram CImg.empty cleanDevice).1 = Except.error e) ∧
    dispatches (callsSince cleanDevice (Assessment.main_try specProgram CImg.empty cleanDevice).2) = [] ∧
    (Assessment.main specProgram CImg.empty cleanDevice).1 = none :=
  ⟨rfl, (zero_pixel_image_is_rejected specProgram CImg.empty flatHistogram cleanDevice rfl).2.1⟩

/-! ## C7 -/

/-- C7. In each of the three programs, when an API call of the pipeline (the
program build, a buffer allocation, a transfer, a kernel creation or a kernel
dispatch) raises a device error, the driver throws that error: the failing
call is the last call made, so nothing is retried and no later stage is
dispatched, and `main` displays no output image. -/
theorem device_failure_propagates (program : Program) (image : CImg) (d : Device) :
    PropagatesFailure d (Assessment.main_try program image d) (Assessment.main program image d).1 ∧
    PropagatesFailure d (ImageProcessing.main_try program image d)
      (ImageProcessing.main program image d).1 ∧
    PropagatesFailure d (ThisOne.main_try program image d) (ThisOne.main program image d).1 := by
  refine ⟨propagates_of_failFast (assessment_main_try_failFast program image) d _ ?_,
    propagates_of_failFast (imageProcessing_main_try_failFast program image) d _ ?_,
    propagates_of_failFast (thisOne_main_try_failFast program image) d _ ?_⟩
  · intro e he
    unfold Assessment.main
    rcases hr : Assessment.main_try program image d with ⟨r, d1⟩
    rw [hr] at he
    cases r with
    | error e1 => rfl
    | ok a => cases he
  · intro e he
    unfold ImageProcessing.main
    rcases hr : ImageProcessing.main_try program image d with ⟨r, d1⟩
    rw [hr] at he
    cases r with
    | error e1 => rfl
    | ok a => cases he
  · intro e he
    unfold ThisOne.main
    rcases hr : ThisOne.main_try program image d with ⟨r, d1⟩
    rw [hr] at he
    cases r with
    | error e1 => rfl
    | ok a => cases he

/-- Witness for C7: the device runs out of resources at its tenth call, in
the cumulative transform; the driver throws that error and nothing is shown. -/
theorem device_failure_propagates_witness :
    (Call.createKernel "cumulate_histogram", some ClError.CL_OUT_OF_RESOURCES) ∈
      callsSince faultyDevice (Assessment.main_try specProgram twoPixels faultyDevice).2 ∧
    (Assessment.main_try specProgram twoPixels faultyDevice).1 =
      Except.error ClError.CL_OUT_OF_RESOURCES ∧
    (∃ pre, callsSince faultyDevice (Assessment.main_try specProgram twoPixels faultyDevice).2 =
        pre ++ [(Call.createKernel "cumulate_histogram", some ClError.CL_OUT_OF_RESOURCES)] ∧
      ∀ x ∈ pre, x.2 = none) ∧
    (Assessment.main specProgram twoPixels faultyDevice).1 = none :=
  ⟨faulty_assessment,
    (device_failure_propagates specProgram twoPixels faultyDevice).1 _ _ faulty_assessment⟩

/-! ## C8 -/

/-- C8, at the failing input.  With the kernels of the specification, two
runs of the pipeline on the same two-pixel image, on two devices that differ
only in what their memory held before (all zero, or a stale 1 in the
histogram output buffer), produce different output images, in each of the
three programs. -/
theorem pipeline_output_depends_on_stale_memory :
    (Assessment.main_try specProgram twoPixels cleanDevice).1.toOption.map CImg.data =
      some [127, 127, 127, 255, 255, 255] ∧
    (Assessment.main_try specProgram twoPixels staleDevice).1.toOption.map CImg.data =
      some [255, 127, 127, 255, 255, 255] ∧
    (ImageProcessing.main_try specProgram twoPixels cleanDevice).1.toOption.map CImg.data =
      some [127, 127, 127, 255, 255, 255] ∧
    (ImageProcessing.main_try specProgram twoPixels staleDevice).1.toOption.map CImg.data =
      some [255, 127, 127, 255, 255, 255] ∧
    (ThisOne.main_try specProgram twoPixels cleanDevice).1.toOption.map CImg.data =
      some [127, 127, 127, 255, 255, 255] ∧
    (ThisOne.main_try specProgram twoPixels staleDevice).1.toOption.map CImg.data =
      some [255, 127, 127, 255, 255, 255] := by
  decide!

/-! ## C9 -/

/-- C9. The stages over host memory, with the caller's image the object at the
taken address `image` and the caller's histogram the vector at `histogram`.

* After the histogram builder, after the pixel remapper and after the whole
  pipeline, in each of the three programs and in every run, returning or
  throwing, the object at `image` is the image it was: same dimensions, same
  samples.
* The image a pixel remapper or a pipeline returns is a new object: its
  address `out` was free before the run, so it is not `image`, and it holds
  the image that the stage computes from the value of the caller's image.
* On a device that reports no fault, the builder and the remapper of
  `cmp3752_assessment` and of `cmp3752_image_processing-main` return and make
  exactly the device calls listed: the samples go to the device by one write
  into a buffer created `CL_MEM_READ_ONLY` (handle `d.count`), and the only
  read-back comes from another buffer (handle `d.count + 1`, respectively
  `d.count + 2`). -/
theorem input_image_is_unchanged (program : Program) (image histogram : Nat)
    (h : HostMemory.Host) (d : Device) (himage : image < h.next) :
    ((HostMemory.Assessment.create_intensity_histogram program image h d).2.1.images image =
        h.images image ∧
      (HostMemory.ImageProcessing.createIntensityHistogram program image h d).2.1.images image =
        h.images image ∧
      (HostMemory.ThisOne.create_intensity_histogram program image h d).2.1.images image =
        h.images image) ∧
    ((HostMemory.Assessment.map_histogram_to_image program image histogram h d).2.1.images image =
        h.images image ∧
      (HostMemory.ImageProcessing.mapCumulativeHistogramToImage program image histogram
        h d).2.1.images image = h.images image ∧
      (HostMemory.ThisOne.map_histogram_to_image program image histogram h d).2.1.images image =
        h.images image) ∧
    ((HostMemory.Assessment.main_try program image h d).2.1.images image = h.images image ∧
      (HostMemory.ImageProcessing.main_try program image h d).2.1.images image = h.images image ∧
      (HostMemory.ThisOne.main_try program image h d).2.1.images image = h.images image) ∧
    ((∀ out, (HostMemory.Assessment.map_histogram_to_image program image histogram h d).1 =
          Except.ok out →
        h.next ≤ out ∧ out ≠ image ∧
        (Assessment.map_histogram_to_image program (h.images image) (h.vectors histogram) d).1 =
          Except.ok ((HostMemory.Assessment.map_histogram_to_image program image histogram
            h d).2.1.images out)) ∧
      (∀ out, (HostMemory.ImageProcessing.mapCumulativeHistogramToImage program image histogram
          h d).1 = Except.ok out →
        h.next ≤ out ∧ out ≠ image ∧
        (ImageProcessing.mapCumulativeHistogramToImage program (h.images image)
            (h.vectors histogram) d).1 =
          Except.ok ((HostMemory.ImageProcessing.mapCumulativeHistogramToImage program image
            histogram h d).2.1.images out)) ∧
      (∀ out, (HostMemory.ThisOne.map_histogram_to_image program image histogram h d).1 =
          Except.ok out →
        h.next ≤ out ∧ out ≠ image ∧
        (ThisOne.map_histogram_to_image program (h.images image) (h.vectors histogram) d).1 =
          Except.ok ((HostMemory.ThisOne.map_histogram_to_image program image histogram
            h d).2.1.images out))) ∧
    ((∀ out, (HostMemory.Assessment.main_try program image h d).1 = Except.ok out →
        h.next ≤ out ∧ out ≠ image ∧
        (Assessment.main_try program (h.images image) d).1 =
          Except.ok ((HostMemory.Assessment.main_try program image h d).2.1.images out)) ∧
      (∀ out, (HostMemory.ImageProcessing.main_try program image h d).1 = Except.ok out →
        h.next ≤ out ∧ out ≠ image ∧
        (ImageProcessing.main_try program (h.images image) d).1 =
          Except.ok ((HostMemory.ImageProcessing.main_try program image h d).2.1.images out)) ∧
      (∀ out, (HostMemory.ThisOne.main_try program image h d).1 = Except.ok out →
        h.next ≤ out ∧ out ≠ image ∧
        (ThisOne.main_try program (h.images image) d).1 =
          Except.ok ((HostMemory.ThisOne.main_try program image h d).2.1.images out))) ∧
    (FaultFree d → (∃ k, program.kernels "create_intensity_histogram" = some k) →
      (∃ k, program.kernels "map_cumulative_histogram_to_image" = some k) →
      3 ≤ (h.images image).size → h.vectors histogram ≠ [] →
      ((∃ v, (HostMemory.Assessment.create_intensity_histogram program image h d).1 =
          Except.ok v) ∧
        callsSince d (HostMemory.Assessment.create_intensity_histogram program image h d).2.2 =
        [(Call.createBuffer MemFlags.CL_MEM_READ_ONLY (h.images image).size, none),
         (Call.createBuffer MemFlags.CL_MEM_WRITE_ONLY 3072, none),
         (Call.enqueueWriteBuffer d.count (h.images image).size, none),
         (Call.createKernel "create_intensity_histogram", none),
         (Call.enqueueNDRangeKernel "create_intensity_histogram" [d.count, d.count + 1]
            ((h.images image).size / 3), none),
         (Call.enqueueReadBuffer (d.count + 1) 3072, none)]) ∧
      ((∃ out, (HostMemory.Assessment.map_histogram_to_image program image histogram h d).1 =
          Except.ok out) ∧
        callsSince d (HostMemory.Assessment.map_histogram_to_image program image histogram
          h d).2.2 =
        [(Call.createBuffer MemFlags.CL_MEM_READ_ONLY (h.images image).size, none),
         (Call.createBuffer MemFlags.CL_MEM_READ_ONLY (4 * (h.vectors histogram).length), none),
         (Call.createBuffer MemFlags.CL_MEM_WRITE_ONLY (h.images image).size, none),
         (Call.enqueueWriteBuffer d.count (h.images image).size, none),
         (Call.enqueueWriteBuffer (d.count + 1) (4 * (h.vectors histogram).length), none),
         (Call.createKernel "map_cumulative_histogram_to_image", none),
         (Call.enqueueNDRangeKernel "map_cumulative_histogram_to_image"
            [d.count, d.count + 1, d.count + 2] ((h.images image).size / 3), none),
         (Call.enqueueReadBuffer (d.count + 2) (h.images image).size, none)]) ∧
      ((∃ v, (HostMemory.ImageProcessing.createIntensityHistogram program image h d).1 =
          Except.ok v) ∧
        callsSince d (HostMemory.ImageProcessing.createIntensityHistogram program image
          h d).2.2 =
        [(Call.createBuffer MemFlags.CL_MEM_READ_ONLY (h.images image).size, none),
         (Call.createBuffer MemFlags.CL_MEM_READ_WRITE 3072, none),
         (Call.enqueueWriteBuffer d.count (h.images image).size, none),
         (Call.createKernel "create_intensity_histogram", none),
         (Call.enqueueNDRangeKernel "create_intensity_histogram" [d.count, d.count + 1]
            ((h.images image).size / 3), none),
         (Call.enqueueReadBuffer (d.count + 1) 3072, none)]) ∧
      ((∃ out, (HostMemory.ImageProcessing.mapCumulativeHistogramToImage program image histogram
          h d).1 = Except.ok out) ∧
        callsSince d (HostMemory.ImageProcessing.mapCumulativeHistogramToImage program image
          histogram h d).2.2 =
        [(Call.createBuffer MemFlags.CL_MEM_READ_ONLY (h.images image).size, none),
         (Call.createBuffer MemFlags.CL_MEM_READ_ONLY ((h.vectors histogram).length * 4), none),
         (Call.createBuffer MemFlags.CL_MEM_READ_WRITE (h.images image).size, none),
         (Call.enqueueWriteBuffer d.count (h.images image).size, none),
         (Call.enqueueWriteBuffer (d.count + 1) ((h.vectors histogram).length * 4), none),
         (Call.createKernel "map_cumulative_histogram_to_image", none),
         (Call.enqueueNDRangeKernel "map_cumulative_histogram_to_image"
            [d.count, d.count + 1, d.count + 2] ((h.images image).size / 3), none),
         (Call.enqueueReadBuffer (d.count + 2) (h.images image).size, none)])) := by
  have new : ∀ {m : HostMemory.HostCL Nat}, HostMemory.ReturnsNew m → ∀ out,
      (m h d).1 = Except.ok out → h.next ≤ out ∧ out ≠ image := fun hm out ho =>
    ⟨(hm h d out ho).1, fun he => absurd (hm h d out ho).1 (by omega)⟩
  have sa := hostMemory_run_of_seenAs
    (hostMemory_Assessment_map_histogram_to_image_seenAs program image histogram h) d
  have si := hostMemory_run_of_seenAs
    (hostMemory_ImageProcessing_mapCumulativeHistogramToImage_seenAs program image histogram h) d
  have st := hostMemory_run_of_seenAs
    (hostMemory_ThisOne_map_histogram_to_image_seenAs program image histogram h) d
  have ca := hostMemory_run_of_seenAs
    (hostMemory_Assessment_create_intensity_histogram_seenAs program image h) d
  have ci := hostMemory_run_of_seenAs
    (hostMemory_ImageProcessing_createIntensityHistogram_seenAs program image h) d
  have pa := hostMemory_run_of_seenAs
    (hostMemory_Assessment_main_try_seenAs program image h himage) d
  have pi := hostMemory_run_of_seenAs
    (hostMemory_ImageProcessing_main_try_seenAs program image h himage) d
  have pt := hostMemory_run_of_seenAs
    (hostMemory_ThisOne_main_try_seenAs program image h himage) d
  refine ⟨⟨?_, ?_, ?_⟩, ⟨?_, ?_, ?_⟩, ⟨?_, ?_, ?_⟩, ⟨?_, ?_, ?_⟩, ⟨?_, ?_, ?_⟩, ?_⟩
  · exact (hostMemory_Assessment_create_intensity_histogram_frames program image h d).2 _ himage
  · exact (hostMemory_ImageProcessing_createIntensityHistogram_frames program image h d).2 _ himage
  · exact (hostMemory_ThisOne_create_intensity_histogram_frames program image h d).2 _ himage
  · exact (hostMemory_Assessment_map_histogram_to_image_frames program image histogram h d).2 _
      himage
  · exact (hostMemory_ImageProcessing_mapCumulativeHistogramToImage_frames program image histogram
      h d).2 _ himage
  · exact (hostMemory_ThisOne_map_histogram_to_image_frames program image histogram h d).2 _ himage
  · exact (hostMemory_Assessment_main_try_frames program image h d).2 _ himage
  · exact (hostMemory_ImageProcessing_main_try_frames program image h d).2 _ himage
  · exact (hostMemory_ThisOne_main_try_frames program image h d).2 _ himage
  · intro out ho
    have := new (hostMemory_Assessment_map_histogram_to_image_returnsNew program image histogram)
      out ho
    exact ⟨this.1, this.2, sa.2.1 out ho⟩
  · intro out ho
    have := new (hostMemory_ImageProcessing_mapCumulativeHistogramToImage_returnsNew program image
      histogram) out ho
    exact ⟨this.1, this.2, si.2.1 out ho⟩
  · intro out ho
    have := new (hostMemory_ThisOne_map_histogram_to_image_returnsNew program image histogram)
      out ho
    exact ⟨this.1, this.2, st.2.1 out ho⟩
  · intro out ho
    have := new (hostMemory_Assessment_main_try_returnsNew program image) out ho
    exact ⟨this.1, this.2, pa.2.1 out ho⟩
  · intro out ho
    have := new (hostMemory_ImageProcessing_main_try_returnsNew program image) out ho
    exact ⟨this.1, this.2, pi.2.1 out ho⟩
  · intro out ho
    have := new (hostMemory_ThisOne_main_try_returnsNew program image) out ho
    exact ⟨this.1, this.2, pt.2.1 out ho⟩
  · intro hf ⟨k1, hk1⟩ ⟨k3, hk3⟩ hs hh
    have hh1 := length_ne_zero_of_ne_nil hh
    obtain ⟨a1, ha1, _, hla1⟩ :=
      assessment_create_intensity_histogram_run program (h.images image) d k1 hf hk1 hs
    obtain ⟨a2, ha2, _, hla2⟩ := assessment_map_histogram_to_image_run program (h.images image)
      (h.vectors histogram) d k3 hf hk3 hs hh1
    obtain ⟨b1, hb1, _, hlb1⟩ :=
      imageProcessing_createIntensityHistogram_run program (h.images image) d k1 hf hk1 hs
    obtain ⟨b2, hb2, _, hlb2⟩ := imageProcessing_mapCumulativeHistogramToImage_run program
      (h.images image) (h.vectors histogram) d k3 hf hk3 hs hh1
    refine ⟨⟨ca.2.2 _ (fst_of_run ha1), ?_⟩, ⟨sa.2.2 _ (fst_of_run ha2), ?_⟩,
      ⟨ci.2.2 _ (fst_of_run hb1), ?_⟩, ⟨si.2.2 _ (fst_of_run hb2), ?_⟩⟩
    · rw [ca.1]
      exact callsSince_of_run ha1 hla1
    · rw [sa.1]
      exact callsSince_of_run ha2 hla2
    · rw [ci.1]
      exact callsSince_of_run hb1 hlb1
    · rw [si.1]
      exact callsSince_of_run hb2 hlb2

/-- Witness for C9: the two-pixel image at address 0 and the flat histogram at
address 1, on the clean device, with the kernels of the specification. -/
theorem input_image_is_unchanged_witness :
    0 < HostMemory.twoObjects.next ∧ FaultFree cleanDevice ∧
    (HostMemory.Assessment.main_try specProgram 0 HostMemory.twoObjects cleanDevice).2.1.images 0 =
      twoPixels ∧
    (HostMemory.Assessment.map_histogram_to_image specProgram 0 1 HostMemory.twoObjects
      cleanDevice).2.1.images 0 = twoPixels ∧
    (∃ out, (HostMemory.Assessment.map_histogram_to_image specProgram 0 1 HostMemory.twoObjects
      cleanDevice).1 = Except.ok out ∧ 2 ≤ out ∧ out ≠ 0) :=
  have h := input_image_is_unchanged specProgram 0 1 HostMemory.twoObjects cleanDevice
    (by decide)
  have hr := (h.2.2.2.2.2 cleanDevice_faultFree ⟨_, specProgram_create⟩ ⟨_, specProgram_map⟩
    (by decide) hostMemory_twoObjects_histogram_ne_nil).2.1.1
  ⟨by decide, cleanDevice_faultFree, h.2.2.1.1, h.2.1.1,
    hr.elim fun out ho => ⟨out, ho, (h.2.2.2.1.1 out ho).1, (h.2.2.2.1.1 out ho).2.1⟩⟩

/-! ## C10 -/

/-- Counterexample to C10 as stated: for a 1x1 image with three channels the
pixel remapper dispatches one work item, not one for each of the three samples. -/
theorem remap_global_size_counterexample :
    dispatches (callsSince cleanDevice
      (Assessment.map_histogram_to_image specProgram pixelRGB flatHistogram cleanDevice).2) =
        [("map_cumulative_histogram_to_image", 1)] ∧
    pixelRGB.width * pixelRGB.height * pixelRGB.spectrum = 3 := by
  decide!

/-- C10, amended. In each of the three programs, every kernel dispatch of the
pixel remapper, in any run, has global work size `img.size() / 3`: one work
item per pixel of a three-channel image, not one per sample; and a run that
returns dispatched exactly one kernel, `map_cumulative_histogram_to_image`.
On a device that reports no fault, with the kernel present, the remapper
returns for every image of at least three samples and non-empty histogram. -/
theorem remap_dispatches_one_work_item_per_pixel (program : Program) (img : CImg)
    (histogram : List Int) (d : Device) :
    ((∀ x ∈ dispatches (callsSince d
          (Assessment.map_histogram_to_image program img histogram d).2), x.2 = img.size / 3) ∧
      ∀ out, (Assessment.map_histogram_to_image program img histogram d).1 = Except.ok out →
        dispatches (callsSince d (Assessment.map_histogram_to_image program img histogram d).2) =
          [("map_cumulative_histogram_to_image", img.size / 3)]) ∧
    ((∀ x ∈ dispatches (callsSince d
          (ImageProcessing.mapCumulativeHistogramToImage program img histogram d).2),
        x.2 = img.size / 3) ∧
      ∀ out, (ImageProcessing.mapCumulativeHistogramToImage program img histogram d).1 =
          Except.ok out →
        dispatches (callsSince d
          (ImageProcessing.mapCumulativeHistogramToImage program img histogram d).2) =
          [("map_cumulative_histogram_to_image", img.size / 3)]) ∧
    ((∀ x ∈ dispatches (callsSince d
          (ThisOne.map_histogram_to_image program img histogram d).2), x.2 = img.size / 3) ∧
      ∀ out, (ThisOne.map_histogram_to_image program img histogram d).1 = Except.ok out →
        dispatches (callsSince d (ThisOne.map_histogram_to_image program img histogram d).2) =
          [("map_cumulative_histogram_to_image", img.size / 3)]) ∧
    (img.spectrum = 3 → img.size / 3 = img.pixels) ∧
    (FaultFree d → (∃ k, program.kernels "map_cumulative_histogram_to_image" = some k) →
      3 ≤ img.size → histogram ≠ [] →
      (∃ out, (Assessment.map_histogram_to_image program img histogram d).1 = Except.ok out) ∧
      (∃ out, (ImageProcessing.mapCumulativeHistogramToImage program img histogram d).1 =
        Except.ok out) ∧
      (∃ out, (ThisOne.map_histogram_to_image program img histogram d).1 = Except.ok out)) := by
  refine ⟨⟨logs_dispatch_size (assessment_map_histogram_to_image_logs program img histogram) d, ?_⟩,
    ⟨logs_dispatch_size
      (imageProcessing_mapCumulativeHistogramToImage_logs program img histogram) d, ?_⟩,
    ⟨logs_dispatch_size (assessment_map_histogram_to_image_logs program img histogram) d, ?_⟩,
    ?_, ?_⟩
  · intro out h
    obtain ⟨calls, hlog, _, _, _, _, hd⟩ :=
      returns_of_fst (assessment_map_histogram_to_image_returns program img histogram) d out h
    rw [callsSince_append d _ calls hlog, hd]
  · intro out h
    obtain ⟨calls, hlog, _, _, _, _, hd⟩ :=
      returns_of_fst (imageProcessing_mapCumulativeHistogramToImage_returns program img histogram) d out h
    rw [callsSince_append d _ calls hlog, hd]
  · intro out h
    obtain ⟨calls, hlog, _, _, _, _, hd⟩ :=
      returns_of_fst (assessment_map_histogram_to_image_returns program img histogram) d out h
    exact (congrArg dispatches (callsSince_append d _ calls hlog)).trans hd
  · intro h3
    unfold CImg.size CImg.pixels
    rw [h3]
    exact Nat.mul_div_cancel _ (by decide)
  · intro hf ⟨k, hk⟩ hs hh
    have hh' := length_ne_zero_of_ne_nil hh
    obtain ⟨d1, h1, _⟩ := assessment_map_histogram_to_image_run program img histogram d k hf hk hs hh'
    obtain ⟨d2, h2, _⟩ :=
      imageProcessing_mapCumulativeHistogramToImage_run program img histogram d k hf hk hs hh'
    exact ⟨⟨_, fst_ok_of_eq h1⟩, ⟨_, fst_ok_of_eq h2⟩, ⟨_, fst_ok_of_eq h1⟩⟩

/-- Witness for C10, amended: the 1x1 three-channel image on the clean device. -/
theorem remap_dispatches_one_work_item_per_pixel_witness :
    FaultFree cleanDevice ∧ 3 ≤ pixelRGB.size ∧ flatHistogram ≠ [] ∧ pixelRGB.spectrum = 3 ∧
    pixelRGB.size / 3 = pixelRGB.pixels ∧
    ∃ out, (Assessment.map_histogram_to_image specProgram pixelRGB flatHistogram cleanDevice).1 =
        Except.ok out ∧
      dispatches (callsSince cleanDevice
        (Assessment.map_histogram_to_image specProgram pixelRGB flatHistogram cleanDevice).2) =
        [("map_cumulative_histogram_to_image", pixelRGB.size / 3)] := by
  have h := remap_dispatches_one_work_item_per_pixel specProgram pixelRGB flatHistogram cleanDevice
  obtain ⟨out, hout⟩ :=
    (h.2.2.2.2 cleanDevice_faultFree ⟨_, specProgram_map⟩ (by decide) flatHistogram_ne_nil).1
  exact ⟨cleanDevice_faultFree, by decide, flatHistogram_ne_nil, rfl, h.2.2.2.1 rfl, out, hout,
    h.1.2 out hout⟩

end HistEq
